import Mathlib

/-! PSE ISHTP client driver (`src/src/pse.c`): shallow embedding.

The character-device entry points of the driver are embedded as pure functions
over an explicit copy of the process-wide `pse_dev` singleton.  Calls into the
ISHTP bus layer (the transport adapter) are not part of the driver: their
results are supplied by an `ishtp_bus` record of functions, and every call is
appended to a log carried next to the device context, so that "the adapter was
not invoked" is a statement about the log.
-/

namespace PseDriver

/-! ## Kernel constants -/

/-- Linux errno values used by the driver (asm-generic/errno-base.h, errno.h). -/
def EPERM : Int := 1

/-- No such file or directory: unknown firmware client. -/
def ENOENT : Int := 2

/-- I/O error. -/
def EIO : Int := 5

/-- Out of memory. -/
def ENOMEM : Int := 12

/-- Bad address: a copy across the user/kernel boundary failed. -/
def EFAULT : Int := 14

/-- Device or resource busy. -/
def EBUSY : Int := 16

/-- No such device. -/
def ENODEV : Int := 19

/-- Invalid argument. -/
def EINVAL : Int := 22

/-- Message too long. -/
def EMSGSIZE : Int := 90

/-- Restart the system call (kernel-internal). -/
def ERESTARTSYS : Int := 512

/-- File status flag O_NONBLOCK (octal 04000). -/
def O_NONBLOCK : Nat := 2048

/-- The command number `_IOWR('H', 0x01, struct ishtp_cc_data)` of pse.h:
direction read|write (3) in bits 30..31, size 16 in bits 16..29, type 'H' (0x48)
in bits 8..15, number 1 in bits 0..7. -/
def IOCTL_ISHTP_CONNECT_CLIENT : Nat := 3 * 2 ^ 30 + 16 * 2 ^ 16 + 72 * 2 ^ 8 + 1

/-! ## Types of the ISHTP bus layer used by the driver -/

/-- Modelled from the spec: the `enum ishtp_dev_state` of the ISHTP bus header
(ishtp-dev.h), which is included by pse.h but is not among the sources.  The
driver only compares against `ISHTP_DEV_ENABLED`. -/
inductive ishtp_dev_state where
  | ISHTP_DEV_INITIALIZING
  | ISHTP_DEV_INIT_CLIENTS
  | ISHTP_DEV_ENABLED
  | ISHTP_DEV_RESETTING
  | ISHTP_DEV_DISABLED
  | ISHTP_DEV_POWER_DOWN
  | ISHTP_DEV_POWER_UP
deriving DecidableEq

/-- Modelled from the spec: the `enum cl_state` of the ISHTP client header
(client.h), not among the sources.  The spec calls `ISHTP_CL_INITIALIZING`
the `Allocated` state. -/
inductive cl_state where
  | ISHTP_CL_INITIALIZING
  | ISHTP_CL_CONNECTING
  | ISHTP_CL_CONNECTED
  | ISHTP_CL_DISCONNECTING
  | ISHTP_CL_DISCONNECTED
deriving DecidableEq

/-- The fields of `struct ishtp_device` the driver reads. -/
structure ishtp_device where
  dev_state : ishtp_dev_state
deriving DecidableEq

/-- The fields of the firmware client properties the driver reads. -/
structure ishtp_client_properties where
  protocol_name : List Nat
  protocol_version : Nat
  max_msg_length : Nat
deriving DecidableEq

/-- The fields of `struct ishtp_fw_client` the driver reads. -/
structure ishtp_fw_client where
  props : ishtp_client_properties
  client_id : Nat
deriving DecidableEq

/-- The fields of `struct ishtp_cl_device` the driver reads; `ishtp_dev` is a
pointer that the reset handler tests against NULL. -/
structure ishtp_cl_device where
  ishtp_dev : Option ishtp_device
  fw_client : ishtp_fw_client
deriving DecidableEq

/-- The fields of `struct ishtp_cl` the driver reads or writes.  `dev` and
`device` are pointers the driver dereferences without a test; they are
modelled by the record they point to. -/
structure ishtp_cl where
  state : cl_state
  fw_client_id : Nat
  dev : ishtp_device
  device : ishtp_cl_device
deriving DecidableEq

/-- The fields of `struct ishtp_cl_rb` the driver reads: the bytes of
`buffer.data` and the number `buf_idx` of received bytes. -/
structure ishtp_cl_rb where
  data : List Nat
  buf_idx : Nat
deriving DecidableEq

/-! ## The driver's own types (pse.c, pse.h) -/

/-- The `struct pse_read_buffer` of pse.c (the mutex, the work item and the
wait queue head carry no data of their own). -/
structure pse_read_buffer where
  wait_exception : Bool
  rb : Option ishtp_cl_rb
deriving DecidableEq

/-- The `struct pse_device` of pse.c, without the character-device
registration fields. -/
structure pse_device where
  cl : Option ishtp_cl
  cl_device : Option ishtp_cl_device
  pse_rb : pse_read_buffer
deriving DecidableEq

/-- The `struct ishtp_client` of pse.h. -/
structure ishtp_client where
  max_message_length : Nat
  protocol_version : Nat
deriving DecidableEq

/-- The `struct ishtp_cc_data` of pse.h: a 16-byte union of the client uuid
(input) and the client properties (output), kept as its bytes. -/
structure ishtp_cc_data where
  raw : List Nat
deriving DecidableEq

/-- The four bytes of a 32-bit value, least significant first (x86). -/
def le32 (v : Nat) : List Nat :=
  [v % 256, v / 256 % 256, v / 65536 % 256, v / 16777216 % 256]

/-- The 32-bit value stored least significant byte first at the head of a byte list. -/
def of_le32 (bs : List Nat) : Nat :=
  bs.getD 0 0 + 256 * bs.getD 1 0 + 65536 * bs.getD 2 0 + 16777216 * bs.getD 3 0

/-- Union member `in_client_uuid`: all 16 bytes. -/
def ishtp_cc_data.in_client_uuid (d : ishtp_cc_data) : List Nat :=
  d.raw.take 16

/-- Union member `out_client_props`: `max_message_length` in bytes 0..3 and
`protocol_version` in byte 4. -/
def ishtp_cc_data.out_client_props (d : ishtp_cc_data) : ishtp_client :=
  { max_message_length := of_le32 d.raw, protocol_version := d.raw.getD 4 0 }

/-- Store to `out_client_props.max_message_length`. -/
def ishtp_cc_data.set_max_message_length (d : ishtp_cc_data) (v : Nat) : ishtp_cc_data :=
  { raw := le32 v ++ d.raw.drop 4 }

/-- Store to `out_client_props.protocol_version`. -/
def ishtp_cc_data.set_protocol_version (d : ishtp_cc_data) (v : Nat) : ishtp_cc_data :=
  { raw := d.raw.take 4 ++ [v % 256] ++ d.raw.drop 5 }

/-- The part of `struct file` the driver reads. -/
structure file where
  f_flags : Nat
deriving DecidableEq

/-- The test `file->f_flags & O_NONBLOCK`. -/
def file.nonblock (f : file) : Bool :=
  f.f_flags &&& O_NONBLOCK != 0

/-- A user-space pointer handed to the driver: its value (0 is NULL), the
bytes of the region it points to, and, when an access through it fails, the
error code of that failure as `PTR_ERR` yields it (-EFAULT for an unmapped
address, -ENOMEM when the kernel cannot allocate the duplicate). -/
structure user_ptr where
  addr : Nat
  bytes : List Nat
  fault : Option Int
deriving DecidableEq

/-- Kernel primitive `memdup_user(src, len)`: a kernel copy of `len` bytes of
user memory, or an error pointer. -/
def memdup_user (src : user_ptr) (len : Nat) : Except Int (List Nat) :=
  match src.fault with
  | some e => .error e
  | none => .ok (src.bytes.take len)

/-- Kernel primitive `copy_to_user(to, from, n)`: the number of bytes that
could not be copied. -/
def copy_to_user (dst : user_ptr) (src : List Nat) : Nat :=
  match dst.fault with
  | some _ => src.length
  | none => 0

/-- Kernel primitive `nonseekable_open`, which always returns 0. -/
def nonseekable_open : Int := 0

/-! ## The transport adapter -/

/-- One call into the ISHTP bus layer (or, for `msleep_interruptible`, into
the kernel's timer), with the arguments it was given. -/
inductive bus_call where
  | cl_allocate (cl_device : ishtp_cl_device)
  | cl_link (cl : ishtp_cl)
  | kfree (cl : ishtp_cl)
  | cl_send (cl : ishtp_cl) (buf : List Nat)
  | fw_cl_get_client (dev : ishtp_device) (uuid : List Nat)
  | cl_connect (cl : ishtp_cl)
  | cl_rx_get_rb (cl : ishtp_cl)
  | cl_io_rb_recycle (rb : ishtp_cl_rb)
  | cl_tx_empty (cl : ishtp_cl)
  | msleep_interruptible (ms : Nat)
  | cl_disconnect (cl : ishtp_cl)
  | cl_unlink (cl : ishtp_cl)
  | cl_flush_queues (cl : ishtp_cl)
  | cl_free (cl : ishtp_cl)
  | register_event_cb (cl_device : ishtp_cl_device)
deriving DecidableEq

/-- What the ISHTP bus layer answers.  `ishtp_cl_link`, `ishtp_cl_connect`
and `ishtp_cl_disconnect` also return the client as they leave it;
`ishtp_cl_tx_empty cl i` is the answer to the i-th poll of the transmit queue
made by one close. -/
structure ishtp_bus where
  ishtp_cl_allocate : ishtp_cl_device → Option ishtp_cl
  ishtp_cl_link : ishtp_cl → Int × ishtp_cl
  ishtp_cl_send : ishtp_cl → List Nat → Int
  ishtp_fw_cl_get_client : ishtp_device → List Nat → Option ishtp_fw_client
  ishtp_cl_connect : ishtp_cl → Int × ishtp_cl
  ishtp_cl_rx_get_rb : ishtp_cl → Option ishtp_cl_rb
  ishtp_cl_tx_empty : ishtp_cl → Nat → Bool
  ishtp_cl_disconnect : ishtp_cl → Int × ishtp_cl

/-- The driver state: the `pse_dev` singleton and the log of bus calls made so far. -/
structure driver_state where
  pse_dev : pse_device
  calls : List bus_call
deriving DecidableEq

/-- Append a bus call to the log. -/
def driver_state.log (s : driver_state) (c : bus_call) : driver_state :=
  { s with calls := s.calls ++ [c] }

/-- Assign `pse_dev.cl`. -/
def driver_state.set_cl (s : driver_state) (cl : Option ishtp_cl) : driver_state :=
  { s with pse_dev := { s.pse_dev with cl := cl } }

/-- Assign `pse_dev.pse_rb.rb`. -/
def driver_state.set_rb (s : driver_state) (rb : Option ishtp_cl_rb) : driver_state :=
  { s with pse_dev := { s.pse_dev with pse_rb := { s.pse_dev.pse_rb with rb := rb } } }

/-- Assign `pse_dev.pse_rb.wait_exception`. -/
def driver_state.set_wait_exception (s : driver_state) (b : Bool) : driver_state :=
  { s with pse_dev := { s.pse_dev with pse_rb := { s.pse_dev.pse_rb with wait_exception := b } } }

/-! ## The guard macros -/

/-- The condition of `CHECK_ISHTP_ALLOC`: true when the macro returns -ENODEV. -/
def CHECK_ISHTP_ALLOC (d : pse_device) : Bool :=
  d.cl.isNone || d.cl_device.isNone

/-- The condition of `CHECK_ISHTP_CONNECTION_ALIVE` on the client `pse_dev.cl`
points to: true when the macro returns -ENODEV. -/
def CHECK_ISHTP_CONNECTION_ALIVE (cl : ishtp_cl) : Bool :=
  cl.dev.dev_state != ishtp_dev_state.ISHTP_DEV_ENABLED ||
    cl.state != cl_state.ISHTP_CL_CONNECTED

/-! ## File operations -/

/-- The function `ishtp_pse_open` of pse.c.  The result of the allocation is
assigned to `pse_dev.cl` before it is tested, and the client is released with
`kfree` when linking fails. -/
def ishtp_pse_open (bus : ishtp_bus) (s : driver_state) (f : file) : driver_state × Int :=
  if f.nonblock then (s, - EINVAL)
  else
    match s.pse_dev.cl_device with
    | none => (s, - ENODEV)
    | some cl_device =>
      let s1 := s.log (bus_call.cl_allocate cl_device)
      match bus.ishtp_cl_allocate cl_device with
      | none => (s1.set_cl none, - ENOMEM)
      | some cl0 =>
        let linked := bus.ishtp_cl_link cl0
        let s2 := (s1.set_cl (some linked.2)).log (bus_call.cl_link cl0)
        if linked.1 ≠ 0 then (s2.log (bus_call.kfree linked.2), linked.1)
        else (s2, nonseekable_open)

/-- What a read hands back: the driver state, the return value, the value left
in `*offset`, and the bytes copied to the caller's buffer (none when nothing
was copied). -/
structure read_result where
  st : driver_state
  ret : Int
  offset : Nat
  copied : Option (List Nat)
deriving DecidableEq

/-- The part of `ishtp_pse_read` that runs with the read-buffer lock held
(pse.c lines 157 to 188), on the buffer `rb` found in the slot.  The offset is
never negative for this file (it starts at 0 and only this function assigns
it), so it is a natural number. -/
def ishtp_pse_read_locked (s : driver_state) (rb : ishtp_cl_rb) (ubuf : user_ptr)
    (length : Nat) (offset : Nat) : read_result :=
  if length = 0 ∨ ubuf.addr = 0 ∨ offset > rb.buf_idx then
    { st := s, ret := - EMSGSIZE, offset := offset, copied := none }
  else
    let length := min length (rb.buf_idx - offset)
    let src := (rb.data.drop offset).take length
    if copy_to_user ubuf src ≠ 0 then
      { st := s, ret := - EFAULT, offset := offset, copied := none }
    else
      let offset := offset + length
      if offset < rb.buf_idx then
        { st := s, ret := length, offset := offset, copied := some src }
      else
        { st := (s.log (bus_call.cl_io_rb_recycle rb)).set_rb none,
          ret := length, offset := 0, copied := some src }

/-- The function `ishtp_pse_read` of pse.c.  `wait` stands for
`wait_event_interruptible_timeout`: given the driver state at the moment the
reader blocks it yields the value the wait returns and the driver state the
reader finds when it resumes (whatever the arrival handler, close or the reset
worker did meanwhile). -/
def ishtp_pse_read (wait : driver_state → Int × driver_state) (s : driver_state) (f : file)
    (ubuf : user_ptr) (length : Nat) (offset : Nat) : read_result :=
  match s.pse_dev.cl with
  | none => { st := s, ret := - ENODEV, offset := offset, copied := none }
  | some cl =>
    if CHECK_ISHTP_ALLOC s.pse_dev then
      { st := s, ret := - ENODEV, offset := offset, copied := none }
    else if CHECK_ISHTP_CONNECTION_ALIVE cl then
      { st := s, ret := - ENODEV, offset := offset, copied := none }
    else if f.nonblock then
      { st := s, ret := - EINVAL, offset := offset, copied := none }
    else
      match s.pse_dev.pse_rb.rb with
      | some rb => ishtp_pse_read_locked s rb ubuf length offset
      | none =>
        let woken := wait (s.set_wait_exception false)
        let s1 := woken.2
        if woken.1 < 1 then
          { st := s1, ret := - ERESTARTSYS, offset := offset, copied := none }
        else
          match s1.pse_dev.cl with
          | none => { st := s1, ret := - ENODEV, offset := offset, copied := none }
          | some cl1 =>
            if CHECK_ISHTP_ALLOC s1.pse_dev then
              { st := s1, ret := - ENODEV, offset := offset, copied := none }
            else if CHECK_ISHTP_CONNECTION_ALIVE cl1 then
              { st := s1, ret := - ENODEV, offset := offset, copied := none }
            else
              match s1.pse_dev.pse_rb.rb with
              | none => { st := s1, ret := - EIO, offset := offset, copied := none }
              | some rb => ishtp_pse_read_locked s1 rb ubuf length offset

/-- The function `ishtp_pse_write` of pse.c. -/
def ishtp_pse_write (bus : ishtp_bus) (s : driver_state) (f : file) (ubuf : user_ptr)
    (length : Nat) : driver_state × Int :=
  match s.pse_dev.cl with
  | none => (s, - ENODEV)
  | some cl =>
    if CHECK_ISHTP_ALLOC s.pse_dev then (s, - ENODEV)
    else if CHECK_ISHTP_CONNECTION_ALIVE cl then (s, - ENODEV)
    else if f.nonblock then (s, - EINVAL)
    else if length ≤ 0 ∨ length > cl.device.fw_client.props.max_msg_length then
      (s, - EMSGSIZE)
    else
      match memdup_user ubuf length with
      | .error e => (s, e)
      | .ok write_buf =>
        let ret := bus.ishtp_cl_send cl write_buf
        (s.log (bus_call.cl_send cl write_buf), if ret < 0 then ret else length)

/-- What `ishtp_pse_ioctl_cc` hands back: the driver state, the connect data
as the function leaves it, and the return value. -/
structure ioctl_cc_result where
  st : driver_state
  data : ishtp_cc_data
  ret : Int
deriving DecidableEq

/-- The function `ishtp_pse_ioctl_cc` of pse.c. -/
def ishtp_pse_ioctl_cc (bus : ishtp_bus) (s : driver_state) (ishtp_dev : Option ishtp_device)
    (data : ishtp_cc_data) : ioctl_cc_result :=
  match s.pse_dev.cl with
  | none => { st := s, data := data, ret := - ENODEV }
  | some cl =>
    if CHECK_ISHTP_ALLOC s.pse_dev then { st := s, data := data, ret := - ENODEV }
    else
      match ishtp_dev with
      | none => { st := s, data := data, ret := - ENODEV }
      | some dev =>
        if dev.dev_state ≠ ishtp_dev_state.ISHTP_DEV_ENABLED then
          { st := s, data := data, ret := - ENODEV }
        else if cl.state ≠ cl_state.ISHTP_CL_INITIALIZING ∧
            cl.state ≠ cl_state.ISHTP_CL_DISCONNECTED then
          { st := s, data := data, ret := - EBUSY }
        else
          let s1 := s.log (bus_call.fw_cl_get_client dev data.in_client_uuid)
          match bus.ishtp_fw_cl_get_client dev data.in_client_uuid with
          | none => { st := s1, data := data, ret := - ENOENT }
          | some fw_client =>
            let cl1 := { cl with fw_client_id := fw_client.client_id,
                                 state := cl_state.ISHTP_CL_CONNECTING }
            let data1 := (data.set_max_message_length fw_client.props.max_msg_length)
              |>.set_protocol_version fw_client.props.protocol_version
            let connected := bus.ishtp_cl_connect cl1
            { st := (s1.log (bus_call.cl_connect cl1)).set_cl (some connected.2),
              data := data1, ret := connected.1 }

/-- What an ioctl hands back: the driver state, the return value, the caller's
argument region as the call leaves it, and the kernel duplicate of the connect
data (allocated by `memdup_user`, never copied back and never freed). -/
structure ioctl_result where
  st : driver_state
  ret : Int
  uarg : user_ptr
  cc_data : Option ishtp_cc_data
deriving DecidableEq

/-- The function `ishtp_pse_ioctl` of pse.c; `capable` is the value of
`capable(CAP_SYS_ADMIN)` for the caller and `data` the user pointer passed as
the ioctl argument. -/
def ishtp_pse_ioctl (bus : ishtp_bus) (capable : Bool) (s : driver_state) (cmd : Nat)
    (data : user_ptr) : ioctl_result :=
  if !capable then { st := s, ret := - EPERM, uarg := data, cc_data := none }
  else
    match s.pse_dev.cl with
    | none => { st := s, ret := - ENODEV, uarg := data, cc_data := none }
    | some cl =>
      if CHECK_ISHTP_ALLOC s.pse_dev then
        { st := s, ret := - ENODEV, uarg := data, cc_data := none }
      else if cmd = IOCTL_ISHTP_CONNECT_CLIENT then
        match memdup_user data 16 with
        | .error e => { st := s, ret := e, uarg := data, cc_data := none }
        | .ok bytes =>
          let r := ishtp_pse_ioctl_cc bus s (some cl.dev) { raw := bytes }
          if r.ret ≠ 0 then { st := r.st, ret := r.ret, uarg := data, cc_data := some r.data }
          else { st := r.st, ret := 0, uarg := data, cc_data := some r.data }
      else { st := s, ret := - EINVAL, uarg := data, cc_data := none }

/-- The function `ishtp_pse_event_cb` of pse.c.  With an empty slot the
handler passes `pse_dev.cl` to `ishtp_cl_rx_get_rb`, which dereferences it:
the result is `none` when that pointer is NULL. -/
def ishtp_pse_event_cb (bus : ishtp_bus) (s : driver_state) : Option driver_state :=
  match s.pse_dev.pse_rb.rb with
  | some _ => some s
  | none =>
    match s.pse_dev.cl with
    | none => none
    | some cl =>
      let s1 := s.log (bus_call.cl_rx_get_rb cl)
      match bus.ishtp_cl_rx_get_rb cl with
      | none => some (s1.set_wait_exception true)
      | some rb => some (s1.set_rb (some rb))

/-! ## Concrete data used to exercise the definitions -/

/-- The SMHI client uuid bb579a2e-cc54-4450-b1d0-5e7520dcad25 in its
little-endian byte order (`pse_smhi_guid`). -/
def pse_smhi_guid : List Nat :=
  [0x2e, 0x9a, 0x57, 0xbb, 0x54, 0xcc, 0x50, 0x44, 0xb1, 0xd0, 0x5e, 0x75, 0x20, 0xdc, 0xad, 0x25]

/-- An enabled ISHTP device. -/
def ex_dev : ishtp_device := { dev_state := ishtp_dev_state.ISHTP_DEV_ENABLED }

/-- A firmware client with maximum message length 16 and protocol version 1. -/
def ex_fw_client : ishtp_fw_client :=
  { props := { protocol_name := pse_smhi_guid, protocol_version := 1, max_msg_length := 16 },
    client_id := 3 }

/-- The probed bus client. -/
def ex_cl_device : ishtp_cl_device := { ishtp_dev := some ex_dev, fw_client := ex_fw_client }

/-- A client in the given protocol state. -/
def ex_cl (st : cl_state) : ishtp_cl :=
  { state := st, fw_client_id := 0, dev := ex_dev, device := ex_cl_device }

/-- A bus layer on which every primitive succeeds: allocation yields a fresh
client, link and send return 0, the SMHI uuid is known, connect moves the
client to the connected state, one 6-byte message is waiting, the transmit
queue is empty and disconnect succeeds. -/
def ex_bus : ishtp_bus :=
  { ishtp_cl_allocate := fun d =>
      some { state := cl_state.ISHTP_CL_INITIALIZING, fw_client_id := 0, dev := ex_dev, device := d },
    ishtp_cl_link := fun cl => (0, cl),
    ishtp_cl_send := fun _ _ => 0,
    ishtp_fw_cl_get_client := fun _ uuid => if uuid = pse_smhi_guid then some ex_fw_client else none,
    ishtp_cl_connect := fun cl => (0, { cl with state := cl_state.ISHTP_CL_CONNECTED }),
    ishtp_cl_rx_get_rb := fun _ => some { data := [1, 0, 0, 7, 0, 0], buf_idx := 6 },
    ishtp_cl_tx_empty := fun _ _ => true,
    ishtp_cl_disconnect := fun cl => (0, { cl with state := cl_state.ISHTP_CL_DISCONNECTED }) }

/-- A driver state with a probed bus client, a client in the given protocol
state, and the given receive slot. -/
def ex_state (st : cl_state) (rb : Option ishtp_cl_rb) : driver_state :=
  { pse_dev := { cl := some (ex_cl st), cl_device := some ex_cl_device,
                 pse_rb := { wait_exception := false, rb := rb } },
    calls := [] }

/-- A file opened in blocking mode (O_RDWR). -/
def ex_file : file := { f_flags := 2 }

/-- A readable and writable user buffer holding the given bytes. -/
def ex_ubuf (bytes : List Nat) : user_ptr := { addr := 4096, bytes := bytes, fault := none }

/-- A wait during which nothing happens: the timeout expires (the wait returns
0) and the driver state is as the reader left it. -/
def wait_times_out : driver_state → Int × driver_state :=
  fun s => (0, s)

/-- The bytes handed to the caller by a list of reads, in order. -/
def delivered : List read_result → List Nat
  | [] => []
  | r :: rs => r.copied.getD [] ++ delivered rs

/-- What a sequence of reads leaves: the result of every read, the final
driver state and the final file offset. -/
structure read_seq_result where
  results : List read_result
  st : driver_state
  offset : Nat
deriving DecidableEq

/-- Reads issued one after the other on the same file with the requested
lengths `ns`: each read starts from the driver state and the file offset the
previous one left. -/
def read_seq (wait : driver_state → Int × driver_state) (f : file) (ubuf : user_ptr) :
    driver_state → Nat → List Nat → read_seq_result
  | s, off, [] => { results := [], st := s, offset := off }
  | s, off, n :: ns =>
    let r := ishtp_pse_read wait s f ubuf n off
    let rest := read_seq wait f ubuf r.st r.offset ns
    { results := r :: rest.results, st := rest.st, offset := rest.offset }

/-! ## Close and reset recovery -/

/-- The drain limit `WAIT_FOR_SEND_COUNT` of pse.c. -/
def WAIT_FOR_SEND_COUNT : Nat := 10

/-- The drain interval `WAIT_FOR_SEND_MS` of pse.c. -/
def WAIT_FOR_SEND_MS : Nat := 100

/-- The drain loop of `ishtp_pse_release` (pse.c lines 244 to 250) with
`send_timeout` rounds left, at poll number `i`: each round polls the transmit
queue, leaves the loop when it is empty and sleeps otherwise. -/
def wait_for_send (bus : ishtp_bus) (cl : ishtp_cl) : Nat → Nat → driver_state → driver_state
  | 0, _, s => s
  | send_timeout + 1, i, s =>
    let s1 := s.log (bus_call.cl_tx_empty cl)
    if bus.ishtp_cl_tx_empty cl i then s1
    else wait_for_send bus cl send_timeout (i + 1)
      (s1.log (bus_call.msleep_interruptible WAIT_FOR_SEND_MS))

/-- The first step of `ishtp_pse_release` after its guard (pse.c lines 231 to
233): raise the cancellation flag and wake the waiters. -/
def ishtp_pse_release_cancel (s : driver_state) : driver_state :=
  s.set_wait_exception true

/-- The rest of `ishtp_pse_release` (pse.c lines 235 to 271), run with the
read-buffer lock held on the client `cl` that `pse_dev.cl` points to. -/
def ishtp_pse_release_teardown (bus : ishtp_bus) (s : driver_state) (cl : ishtp_cl) :
    driver_state × Int :=
  let live :=
    if cl.dev.dev_state = ishtp_dev_state.ISHTP_DEV_ENABLED ∧
        cl.state = cl_state.ISHTP_CL_CONNECTED then
      let s1 := wait_for_send bus cl WAIT_FOR_SEND_COUNT 0 s
      let cl1 := { cl with state := cl_state.ISHTP_CL_DISCONNECTING }
      let d := bus.ishtp_cl_disconnect cl1
      ((s1.log (bus_call.cl_disconnect cl1)).set_cl (some d.2), d.1, d.2)
    else (s, 0, cl)
  let s2 := live.1
  let cl2 := live.2.2
  let s3 := ((s2.log (bus_call.cl_unlink cl2)).log (bus_call.cl_flush_queues cl2)).log
    (bus_call.cl_free cl2)
  let s4 := s3.set_cl none
  match s4.pse_dev.pse_rb.rb with
  | some rb => ((s4.log (bus_call.cl_io_rb_recycle rb)).set_rb none, live.2.1)
  | none => (s4, live.2.1)

/-- The function `ishtp_pse_release` of pse.c. -/
def ishtp_pse_release (bus : ishtp_bus) (s : driver_state) : driver_state × Int :=
  match s.pse_dev.cl with
  | none => (s, - ENODEV)
  | some cl =>
    if CHECK_ISHTP_ALLOC s.pse_dev then (s, - ENODEV)
    else ishtp_pse_release_teardown bus (ishtp_pse_release_cancel s) cl

/-- The error exit of `ishtp_cl_reset_handler` (label `unlink` with a nonzero
`ret`, pse.c lines 474 to 478): free the client and clear `pse_dev.cl`. -/
def reset_unlink_failed (s : driver_state) (cl : ishtp_cl) : driver_state :=
  (s.log (bus_call.cl_free cl)).set_cl none

/-- The function `ishtp_cl_reset_handler` of pse.c.  The handler dereferences
`pse_dev.cl_device`: the result is `none` when that pointer is NULL (the
handler is scheduled by `ishtp_pse_reset` only when it is not).  When the
allocation of the fresh client fails the handler returns at once, with the
read-buffer lock still held. -/
def ishtp_cl_reset_handler (bus : ishtp_bus) (s : driver_state) : Option driver_state :=
  match s.pse_dev.cl_device with
  | none => none
  | some cl_device =>
    match cl_device.ishtp_dev with
    | none => some s
    | some ishtp_dev =>
      let s1 := s.set_wait_exception true
      match s1.pse_dev.cl with
      | none => some (s1.log (bus_call.register_event_cb cl_device))
      | some old =>
        let s2 := (((s1.log (bus_call.cl_unlink old)).log (bus_call.cl_flush_queues old)).log
          (bus_call.cl_free old)).set_cl none
        let s3 := s2.log (bus_call.cl_allocate cl_device)
        match bus.ishtp_cl_allocate cl_device with
        | none => some s3
        | some cl0 =>
          let s4 := s3.set_cl (some cl0)
          if cl0.dev.dev_state ≠ ishtp_dev_state.ISHTP_DEV_ENABLED then
            some (reset_unlink_failed s4 cl0)
          else
            let linked := bus.ishtp_cl_link cl0
            let s5 := (s4.set_cl (some linked.2)).log (bus_call.cl_link cl0)
            if linked.1 ≠ 0 then some (reset_unlink_failed s5 linked.2)
            else
              let s6 := s5.log
                (bus_call.fw_cl_get_client ishtp_dev cl_device.fw_client.props.protocol_name)
              match bus.ishtp_fw_cl_get_client ishtp_dev
                  cl_device.fw_client.props.protocol_name with
              | none => some (reset_unlink_failed s6 linked.2)
              | some fw_client =>
                let cl1 := { linked.2 with fw_client_id := fw_client.client_id,
                                           state := cl_state.ISHTP_CL_CONNECTING }
                let connected := bus.ishtp_cl_connect cl1
                let s7 := (s6.log (bus_call.cl_connect cl1)).set_cl (some connected.2)
                if connected.1 ≠ 0 then some (reset_unlink_failed s7 connected.2)
                else some (s7.log (bus_call.register_event_cb cl_device))

/-- The function `ishtp_pse_reset` of pse.c: the reset notification schedules
the recovery work unless the driver was never probed.  The second component
tells whether the work was scheduled. -/
def ishtp_pse_reset (s : driver_state) : Int × Bool :=
  match s.pse_dev.cl_device with
  | none => (- ENODEV, false)
  | some _ => (0, true)

/-- The read window `WAIT_FOR_READ_MS` of pse.c, in milliseconds.  Time is
not measured by the model: the expiry of the window is the wait returning 0. -/
def WAIT_FOR_READ_MS : Nat := 1000

/-- A wait during which a message arrives: the arrival handler runs on the
state the reader left and the wait returns with time to spare.  Should the
handler fault, the reader finds the state as it left it. -/
def wait_arrival (bus : ishtp_bus) : driver_state → Int × driver_state :=
  fun s => (1, (ishtp_pse_event_cb bus s).getD s)

/-- A wait cut short by a close on another descriptor of the device, seen at
the earliest moment the reader can run again: close has raised the
cancellation flag and woken the waiters (pse.c lines 232 and 233) and has not
yet reached the teardown (it may be sleeping in the drain loop). -/
def wait_close_started : driver_state → Int × driver_state :=
  fun s => (1, ishtp_pse_release_cancel s)

/-- A wait cut short by a close that has run to completion before the reader
runs again. -/
def wait_close_finished (bus : ishtp_bus) : driver_state → Int × driver_state :=
  fun s => (1, (ishtp_pse_release bus s).1)

/-- A wait cut short by reset recovery that has run to completion before the
reader runs again.  Should the handler fault, the reader finds the state as it
left it. -/
def wait_reset_finished (bus : ishtp_bus) : driver_state → Int × driver_state :=
  fun s => (1, (ishtp_cl_reset_handler bus s).getD s)

/-- A bus layer like `ex_bus` on which the allocation of a client fails. -/
def ex_bus_no_memory : ishtp_bus :=
  { ex_bus with ishtp_cl_allocate := fun _ => none }

/-- A bus layer like `ex_bus` on which connecting fails with -EFAULT and leaves
the client disconnected. -/
def ex_bus_no_connect : ishtp_bus :=
  { ex_bus with
    ishtp_cl_connect := fun cl => (- EFAULT, { cl with state := cl_state.ISHTP_CL_DISCONNECTED }) }

/-- A request a caller can make on an open descriptor once the device is open:
a read, a write, or a connect ioctl by a privileged caller. -/
inductive driver_call where
  | read (wait : driver_state → Int × driver_state) (f : file) (ubuf : user_ptr)
      (length : Nat) (offset : Nat)
  | write (f : file) (ubuf : user_ptr) (length : Nat)
  | ioctl_connect (data : user_ptr)

/-- Run one request: the driver state it leaves and its return value. -/
def run_call (bus : ishtp_bus) (s : driver_state) : driver_call → driver_state × Int
  | driver_call.read wait f ubuf length offset =>
    ((ishtp_pse_read wait s f ubuf length offset).st,
      (ishtp_pse_read wait s f ubuf length offset).ret)
  | driver_call.write f ubuf length => ishtp_pse_write bus s f ubuf length
  | driver_call.ioctl_connect data =>
    ((ishtp_pse_ioctl bus true s IOCTL_ISHTP_CONNECT_CLIENT data).st,
      (ishtp_pse_ioctl bus true s IOCTL_ISHTP_CONNECT_CLIENT data).ret)

/-- Run requests one after the other: the final driver state and the return
value of each request. -/
def run_calls (bus : ishtp_bus) : driver_state → List driver_call → driver_state × List Int
  | s, [] => (s, [])
  | s, c :: cs =>
    let r := run_call bus s c
    let rest := run_calls bus r.1 cs
    (rest.1, r.2 :: rest.2)

/-! ## The user-space client (examples/pse.c, examples/heci_types.h) -/

/-- The packed `heci_header_t` of heci_types.h; the two `bool` members are
kept as the byte they occupy. -/
structure heci_header_t where
  command : Nat
  is_response : Nat
  has_next : Nat
  argument : Nat
  status : Nat
deriving DecidableEq

/-- The value of `sizeof(heci_header_t)`: 1 + 1 + 1 + 2 + 1 bytes, packed. -/
def sizeof_heci_header_t : Nat := 6

/-- The payload capacity `MAX_HECI_DATA_LEN` of heci_types.h. -/
def MAX_HECI_DATA_LEN : Nat := 224

/-- The value of `sizeof(heci_body_t)`: 1 + 4 + 4 + 224 bytes, packed. -/
def sizeof_heci_body_t : Nat := 1 + 4 + 4 + MAX_HECI_DATA_LEN

/-- The bytes of a header in memory (x86: `argument` least significant byte
first), as `memcpy` reads them. -/
def heci_header_t.bytes (h : heci_header_t) : List Nat :=
  [h.command % 256, h.is_response % 256, h.has_next % 256, h.argument % 256,
    h.argument / 256 % 256, h.status % 256]

/-- The header that `memcpy` leaves when it copies 6 bytes over it. -/
def heci_header_t.of_bytes (b : List Nat) : heci_header_t :=
  { command := b.getD 0 0, is_response := b.getD 1 0, has_next := b.getD 2 0,
    argument := b.getD 3 0 + 256 * b.getD 4 0, status := b.getD 5 0 }

/-- The packed `heci_body_t` of heci_types.h. -/
structure heci_body_t where
  kind : Nat
  length : Nat
  padding : Nat
  data : List Nat
deriving DecidableEq

/-- The 233 bytes of a body in memory. -/
def heci_body_t.bytes (b : heci_body_t) : List Nat :=
  [b.kind % 256] ++ le32 b.length ++ le32 b.padding ++
    (b.data ++ List.replicate MAX_HECI_DATA_LEN 0).take MAX_HECI_DATA_LEN

/-- The body that `memcpy` leaves when it copies 233 bytes over it. -/
def heci_body_t.of_bytes (bs : List Nat) : heci_body_t :=
  { kind := bs.getD 0 0, length := of_le32 (bs.drop 1), padding := of_le32 (bs.drop 5),
    data := (bs.drop 9).take MAX_HECI_DATA_LEN }

/-- The header `pse_send_command` builds for a command, a 16-bit argument and
an optional body. -/
def request_header (command data : Nat) (body : Option heci_body_t) : heci_header_t :=
  { status := 0, is_response := 0, has_next := if body.isSome then 1 else 0,
    command := command % 256, argument := data % 65536 }

/-- The function `pse_send_command` of examples/pse.c: the bytes it hands to
`write` (the first `len` bytes of the transmit buffer). -/
def pse_send_command (command data : Nat) (body : Option heci_body_t) : List Nat :=
  let header := request_header command data body
  match body with
  | some b =>
    if header.has_next ≠ 0 then
      (header.bytes ++ b.bytes).take (sizeof_heci_header_t + sizeof_heci_body_t)
    else header.bytes.take sizeof_heci_header_t
  | none => header.bytes.take sizeof_heci_header_t

/-- What `pse_read_response` hands back: its return value, the header and the
body it stored through its pointer arguments (none when it stored nothing),
and the outcomes of the reads it has not consumed. -/
structure read_response_result where
  ret : Int
  header : Option heci_header_t
  body : Option heci_body_t
  rest : List (Int × List Nat)
deriving DecidableEq

/-- The function `pse_read_response` of examples/pse.c.  `select_ready` is the
result of `FD_ISSET` after `select`; `reads` lists the outcome of each `read`
on the descriptor in order, as the return value and the bytes placed in the
buffer (a missing outcome stands for a failed read); `has_body` tells whether
the `body` argument is non-NULL. -/
def pse_read_response (select_ready : Bool) (reads : List (Int × List Nat))
    (has_body : Bool) : read_response_result :=
  if !select_ready then { ret := -1, header := none, body := none, rest := reads }
  else
    let first := reads.headD (-1, [])
    let rest := reads.tail
    if first.1 ≤ 0 ∨ first.1 ≠ sizeof_heci_header_t then
      { ret := first.1, header := none, body := none, rest := rest }
    else
      let header := heci_header_t.of_bytes first.2
      if header.has_next ≠ 0 ∧ !has_body then
        { ret := first.1, header := some header, body := none, rest := rest }
      else if header.has_next ≠ 0 then
        let second := rest.headD (-1, [])
        if second.1 ≤ 0 ∨ second.1 ≠ sizeof_heci_body_t then
          { ret := second.1, header := some header, body := none, rest := rest.tail }
        else
          { ret := sizeof_heci_body_t + sizeof_heci_header_t, header := some header,
            body := some (heci_body_t.of_bytes second.2), rest := rest.tail }
      else
        { ret := sizeof_heci_header_t, header := some header, body := none, rest := rest }

/-- What `pse_command_checked` hands back: its return value, the bytes it
wrote, and the body stored through `out_body` (none when nothing was stored). -/
structure command_checked_result where
  ret : Int
  written : List Nat
  out_body : Option heci_body_t
deriving DecidableEq

/-- The function `pse_command_checked` of examples/pse.c.  The local header
starts with `status = 1`, which is what is tested when `pse_read_response`
returns a non-negative value without having stored a header. -/
def pse_command_checked (select_ready : Bool) (reads : List (Int × List Nat))
    (command data : Nat) (in_body : Option heci_body_t) (has_out_body : Bool) :
    command_checked_result :=
  let written := pse_send_command command data in_body
  let r := pse_read_response select_ready reads has_out_body
  if r.ret < 0 then { ret := -1, written := written, out_body := r.body }
  else
    match r.header with
    | none => { ret := -1 * 1, written := written, out_body := r.body }
    | some header =>
      if header.status ≠ 0 then
        { ret := -1 * (header.status : Int), written := written, out_body := r.body }
      else { ret := header.has_next, written := written, out_body := r.body }

/-! ## The sub-command structs of heci_types.h

Each struct is packed into 16 bits.  Bit-fields are laid out in declaration
order from the least significant bit (GCC on x86); a store to a member keeps
the low bits that fit its width.  `to_uint16` is the value read by the cast
`*(uint16_t *)&command`, `of_uint16` the struct read back over the same 16
bits. -/

/-- The `can_command_t` of heci_types.h: `op:3`, `dev:3`, `arg:10`. -/
structure can_command_t where
  op : Nat
  dev : Nat
  arg : Nat
deriving DecidableEq

/-- The 16 bits of a `can_command_t`. -/
def can_command_t.to_uint16 (c : can_command_t) : Nat :=
  c.op % 8 + 8 * (c.dev % 8) + 64 * (c.arg % 1024)

/-- The `can_command_t` held by 16 bits. -/
def can_command_t.of_uint16 (v : Nat) : can_command_t :=
  { op := v % 8, dev := v / 8 % 8, arg := v / 64 % 1024 }

/-- The `io_command_t` of heci_types.h: `op:8`, `dev:4`, `num:4`. -/
structure io_command_t where
  op : Nat
  dev : Nat
  num : Nat
deriving DecidableEq

/-- The 16 bits of an `io_command_t`. -/
def io_command_t.to_uint16 (c : io_command_t) : Nat :=
  c.op % 256 + 256 * (c.dev % 16) + 4096 * (c.num % 16)

/-- The `io_command_t` held by 16 bits. -/
def io_command_t.of_uint16 (v : Nat) : io_command_t :=
  { op := v % 256, dev := v / 256 % 16, num := v / 4096 % 16 }

/-- The `pwm_command_t` of heci_types.h: `op:8`, `dev:8`. -/
structure pwm_command_t where
  op : Nat
  dev : Nat
deriving DecidableEq

/-- The 16 bits of a `pwm_command_t`. -/
def pwm_command_t.to_uint16 (c : pwm_command_t) : Nat :=
  c.op % 256 + 256 * (c.dev % 256)

/-- The `pwm_command_t` held by 16 bits. -/
def pwm_command_t.of_uint16 (v : Nat) : pwm_command_t :=
  { op := v % 256, dev := v / 256 % 256 }

/-- The `i2c_command_t` of heci_types.h: `op:8`, `dev:8`. -/
structure i2c_command_t where
  op : Nat
  dev : Nat
deriving DecidableEq

/-- The 16 bits of an `i2c_command_t`. -/
def i2c_command_t.to_uint16 (c : i2c_command_t) : Nat :=
  c.op % 256 + 256 * (c.dev % 256)

/-- The `i2c_command_t` held by 16 bits. -/
def i2c_command_t.of_uint16 (v : Nat) : i2c_command_t :=
  { op := v % 256, dev := v / 256 % 256 }

/-- The `qep_command_t` of heci_types.h: `op:8`, `dev:8`. -/
structure qep_command_t where
  op : Nat
  dev : Nat
deriving DecidableEq

/-- The 16 bits of a `qep_command_t`. -/
def qep_command_t.to_uint16 (c : qep_command_t) : Nat :=
  c.op % 256 + 256 * (c.dev % 256)

/-- The `qep_command_t` held by 16 bits. -/
def qep_command_t.of_uint16 (v : Nat) : qep_command_t :=
  { op := v % 256, dev := v / 256 % 256 }

/-- The `uart_command_t` of heci_types.h: two bytes, `read_write` then `device`. -/
structure uart_command_t where
  read_write : Nat
  device : Nat
deriving DecidableEq

/-- The 16 bits of a `uart_command_t`. -/
def uart_command_t.to_uint16 (c : uart_command_t) : Nat :=
  c.read_write % 256 + 256 * (c.device % 256)

/-- The `uart_command_t` held by 16 bits. -/
def uart_command_t.of_uint16 (v : Nat) : uart_command_t :=
  { read_write := v % 256, device := v / 256 % 256 }

/-- The operation `kCAN_SetBaudrate` of `can_operation_t`. -/
def kCAN_SetBaudrate : Nat := 4

/-- The command `can_open` of can.c and cansend.c sends first: the 16-bit
argument carrying `kCAN_SetBaudrate`, the device and the baud rate. -/
def can_open_argument (device baudrate : Nat) : Nat :=
  can_command_t.to_uint16 { op := kCAN_SetBaudrate, dev := device, arg := baudrate }

/-! ## The CAN and DIO clients (examples/can.c, cansend.c, dio.c) -/

/-- The command id `kHECI_IO_COMMAND` of `heci_command_id_t`. -/
def kHECI_IO_COMMAND : Nat := 2

/-- The command id `kHECI_CAN_COMMAND` of `heci_command_id_t`. -/
def kHECI_CAN_COMMAND : Nat := 4

/-- The operation `kCAN_Write` of `can_operation_t`. -/
def kCAN_Write : Nat := 1

/-- The body kind `kHeciData_Can` of `heci_data_kind_t`. -/
def kHeciData_Can : Nat := 2

/-- The operation `kIO_GetInfo` of `io_operation_t`. -/
def kIO_GetInfo : Nat := 0

/-- The device `kIODev_DI` of `io_device_t`. -/
def kIODev_DI : Nat := 2

/-- The functions `htobe32` and `be32toh` on a little-endian host: the 32-bit
value with its four bytes reversed. -/
def htobe32 (v : Nat) : Nat :=
  of_le32 (le32 v).reverse

/-- The packed `heci_can_data_t` of heci_types.h. -/
structure heci_can_data_t where
  id : Nat
  id_type : Nat
  frame_type : Nat
  length : Nat
  data_word_0 : Nat
  data_word_1 : Nat
deriving DecidableEq

/-- The value of `sizeof(heci_can_data_t)`: 15 bytes of members, rounded up to
the 2-byte alignment of `__heci_packed`. -/
def sizeof_heci_can_data_t : Nat := 16

/-- The 15 member bytes of a CAN frame in memory. -/
def heci_can_data_t.bytes (fr : heci_can_data_t) : List Nat :=
  le32 fr.id ++ [fr.id_type % 256, fr.frame_type % 256, fr.length % 256] ++
    le32 fr.data_word_0 ++ le32 fr.data_word_1

/-- The CAN frame read through a `heci_can_data_t` pointer into `body.data`. -/
def heci_can_data_t.of_bytes (bs : List Nat) : heci_can_data_t :=
  { id := of_le32 bs, id_type := bs.getD 4 0, frame_type := bs.getD 5 0, length := bs.getD 6 0,
    data_word_0 := of_le32 (bs.drop 7), data_word_1 := of_le32 (bs.drop 11) }

/-- The frame `can_send` builds once its sanity checks are passed. -/
def can_send_frame (id length data_0 data_1 : Nat) : heci_can_data_t :=
  { id := id, id_type := if id < 0x7FF then 0 else 1, frame_type := 0, length := length,
    data_word_0 := htobe32 data_0, data_word_1 := htobe32 data_1 }

/-- The body `can_send` passes on: `kind` and `length` set by the initialiser,
everything else zeroed, and the frame stored through a `heci_can_data_t`
pointer to the start of `body.data`. -/
def can_send_body (frame : heci_can_data_t) : heci_body_t :=
  { kind := kHeciData_Can, length := sizeof_heci_can_data_t, padding := 0,
    data := frame.bytes ++ (List.replicate MAX_HECI_DATA_LEN 0).drop frame.bytes.length }

/-- What `can_send` hands back: its return value and what `pse_command_checked`
wrote to the device (none when nothing was sent). -/
structure can_send_result where
  ret : Int
  written : Option (List Nat)
deriving DecidableEq

/-- The function `can_send` of examples/can.c and examples/cansend.c. -/
def can_send (select_ready : Bool) (reads : List (Int × List Nat))
    (device id length data_0 data_1 : Nat) : can_send_result :=
  let command : can_command_t := { op := kCAN_Write, dev := device, arg := 0 }
  if length > 8 then { ret := -1, written := none }
  else if id > 0x1FFFFFFF then { ret := -1, written := none }
  else
    let body := can_send_body (can_send_frame id length data_0 data_1)
    let r := pse_command_checked select_ready reads kHECI_CAN_COMMAND command.to_uint16
      (some body) false
    if r.ret < 0 then { ret := -1, written := some r.written }
    else { ret := 0, written := some r.written }

/-- The data bytes `can_recv` of examples/can.c prints for a frame: byte i of
the two data words in memory order, for i below the frame length. -/
def can_recv_data (fr : heci_can_data_t) : List Nat :=
  (le32 fr.data_word_0 ++ le32 fr.data_word_1).take fr.length

/-- The function `get_digital_input` of examples/dio.c, with its `uint8_t`
return type: a negative result of `pse_command_checked` is returned truncated
to 8 bits, a result 0 gives (uint8_t)-1, and otherwise the first byte of
`body.data` is returned.  `body0` is the content of the uninitialised local
`body`, which stays when `pse_command_checked` stores nothing. -/
def get_digital_input (select_ready : Bool) (reads : List (Int × List Nat))
    (body0 : heci_body_t) (d_in_pin : Nat) : Nat :=
  let command : io_command_t := { op := kIO_GetInfo, dev := kIODev_DI, num := d_in_pin }
  let r := pse_command_checked select_ready reads kHECI_IO_COMMAND command.to_uint16 none true
  if r.ret < 0 then (r.ret % 256).toNat
  else if r.ret = 0 then ((-1 : Int) % 256).toNat
  else (r.out_body.getD body0).data.getD 0 0 % 256

/-- The test `val == 0 || val == 1` by which `main` of examples/dio.c takes
the result of `get_digital_input` for a pin state. -/
def dio_accepts (val : Nat) : Bool :=
  val == 0 || val == 1

/-! ## Removal, and further bus layers -/

/-- The function `ishtp_pse_remove` of pse.c, as far as `pse_dev` and the bus
layer are concerned (the release of the bus device and of the character device
that follows is not part of the state). -/
def ishtp_pse_remove (bus : ishtp_bus) (s : driver_state) : driver_state :=
  let s1 := s.set_wait_exception true
  match s1.pse_dev.cl with
  | none => s1
  | some cl =>
    let cl1 := { cl with state := cl_state.ISHTP_CL_DISCONNECTING }
    let d := bus.ishtp_cl_disconnect cl1
    ((((s1.log (bus_call.cl_disconnect cl1)).log (bus_call.cl_unlink d.2)).log
      (bus_call.cl_flush_queues d.2)).log (bus_call.cl_free d.2)).set_cl none

/-- A bus layer like `ex_bus` on which linking a client fails with -ENOENT. -/
def ex_bus_no_link : ishtp_bus :=
  { ex_bus with ishtp_cl_link := fun cl => (- ENOENT, cl) }

/-- A bus layer like `ex_bus` which has no receive buffer to hand over. -/
def ex_bus_no_buffer : ishtp_bus :=
  { ex_bus with ishtp_cl_rx_get_rb := fun _ => none }

/-- A bus layer like `ex_bus` whose transmit queue is found empty at the poll
number `n` of a close and not before. -/
def ex_bus_drains_at (n : Nat) : ishtp_bus :=
  { ex_bus with ishtp_cl_tx_empty := fun _ i => decide (n ≤ i) }

/-- The driver state after a successful probe and before the first open: the
bus client is known, there is no client and the slot is empty. -/
def ex_probed : driver_state :=
  { pse_dev := { cl := none, cl_device := some ex_cl_device,
                 pse_rb := { wait_exception := false, rb := none } },
    calls := [] }

/-- The polls and sleeps of a drain loop that sleeps `d` times. -/
def drain_polls (cl : ishtp_cl) : Nat → List bus_call
  | 0 => []
  | d + 1 => bus_call.cl_tx_empty cl :: bus_call.msleep_interruptible WAIT_FOR_SEND_MS ::
      drain_polls cl d

/-- Whether a logged call is a sleep. -/
def bus_call.is_sleep : bus_call → Bool
  | bus_call.msleep_interruptible _ => true
  | _ => false

/-- Whether a logged call is a disconnect. -/
def bus_call.is_disconnect : bus_call → Bool
  | bus_call.cl_disconnect _ => true
  | _ => false

/-! ## The read-buffer lock

The functions below retrace the entry points of pse.c and record, in program
order, every `mutex_lock` and `mutex_unlock` on `pse_dev.pse_rb.lock` and every
assignment the driver makes to a member of `pse_dev` or of the client it
points to.  They take the same arguments as the functions above and follow the
same branches. -/

/-- The members the driver assigns: `pse_dev.cl`, `pse_dev.cl->state`,
`pse_dev.cl->fw_client_id`, `pse_dev.pse_rb.rb` and
`pse_dev.pse_rb.wait_exception`. -/
inductive pse_field where
  | cl
  | cl_state
  | cl_fw_client_id
  | rb
  | wait_exception
deriving DecidableEq

/-- A lock operation or an assignment. -/
inductive sync_event where
  | mutex_lock
  | mutex_unlock
  | assign (field : pse_field)
deriving DecidableEq

/-- The events of `ishtp_pse_open`: the result of the allocation is assigned to
`pse_dev.cl` (pse.c line 104); the function never touches the lock. -/
def ishtp_pse_open_sync (s : driver_state) (f : file) : List sync_event :=
  if f.nonblock then []
  else
    match s.pse_dev.cl_device with
    | none => []
    | some _ => [sync_event.assign pse_field.cl]

/-- The events of the locked part of `ishtp_pse_read` (pse.c lines 157 to 188). -/
def ishtp_pse_read_locked_sync (rb : ishtp_cl_rb) (ubuf : user_ptr)
    (length : Nat) (offset : Nat) : List sync_event :=
  if length = 0 ∨ ubuf.addr = 0 ∨ offset > rb.buf_idx then
    [sync_event.mutex_lock, sync_event.mutex_unlock]
  else
    let length := min length (rb.buf_idx - offset)
    let src := (rb.data.drop offset).take length
    if copy_to_user ubuf src ≠ 0 then
      [sync_event.mutex_lock, sync_event.mutex_unlock]
    else
      let offset := offset + length
      if offset < rb.buf_idx then
        [sync_event.mutex_lock, sync_event.mutex_unlock]
      else
        [sync_event.mutex_lock, sync_event.assign pse_field.rb, sync_event.mutex_unlock]

/-- The events of `ishtp_pse_read`. -/
def ishtp_pse_read_sync (wait : driver_state → Int × driver_state) (s : driver_state) (f : file)
    (ubuf : user_ptr) (length : Nat) (offset : Nat) : List sync_event :=
  match s.pse_dev.cl with
  | none => []
  | some cl =>
    if CHECK_ISHTP_ALLOC s.pse_dev then []
    else if CHECK_ISHTP_CONNECTION_ALIVE cl then []
    else if f.nonblock then []
    else
      match s.pse_dev.pse_rb.rb with
      | some rb => ishtp_pse_read_locked_sync rb ubuf length offset
      | none =>
        let woken := wait (s.set_wait_exception false)
        let s1 := woken.2
        if woken.1 < 1 then [sync_event.assign pse_field.wait_exception]
        else
          match s1.pse_dev.cl with
          | none => [sync_event.assign pse_field.wait_exception]
          | some cl1 =>
            if CHECK_ISHTP_ALLOC s1.pse_dev then [sync_event.assign pse_field.wait_exception]
            else if CHECK_ISHTP_CONNECTION_ALIVE cl1 then
              [sync_event.assign pse_field.wait_exception]
            else
              match s1.pse_dev.pse_rb.rb with
              | none => [sync_event.assign pse_field.wait_exception]
              | some rb =>
                sync_event.assign pse_field.wait_exception ::
                  ishtp_pse_read_locked_sync rb ubuf length offset

/-- The events of `ishtp_pse_ioctl_cc`: the client id and the protocol state
are assigned (pse.c lines 305 and 306); the function never touches the lock. -/
def ishtp_pse_ioctl_cc_sync (bus : ishtp_bus) (s : driver_state)
    (ishtp_dev : Option ishtp_device) (data : ishtp_cc_data) : List sync_event :=
  match s.pse_dev.cl with
  | none => []
  | some cl =>
    if CHECK_ISHTP_ALLOC s.pse_dev then []
    else
      match ishtp_dev with
      | none => []
      | some dev =>
        if dev.dev_state ≠ ishtp_dev_state.ISHTP_DEV_ENABLED then []
        else if cl.state ≠ cl_state.ISHTP_CL_INITIALIZING ∧
            cl.state ≠ cl_state.ISHTP_CL_DISCONNECTED then []
        else
          match bus.ishtp_fw_cl_get_client dev data.in_client_uuid with
          | none => []
          | some _ =>
            [sync_event.assign pse_field.cl_fw_client_id, sync_event.assign pse_field.cl_state]

/-- The events of `ishtp_pse_release`. -/
def ishtp_pse_release_sync (s : driver_state) : List sync_event :=
  match s.pse_dev.cl with
  | none => []
  | some cl =>
    if CHECK_ISHTP_ALLOC s.pse_dev then []
    else
      [sync_event.assign pse_field.wait_exception, sync_event.mutex_lock] ++
      (if cl.dev.dev_state = ishtp_dev_state.ISHTP_DEV_ENABLED ∧
          cl.state = cl_state.ISHTP_CL_CONNECTED then
        [sync_event.assign pse_field.cl_state]
      else []) ++
      [sync_event.assign pse_field.cl] ++
      (match s.pse_dev.pse_rb.rb with
        | some _ => [sync_event.assign pse_field.rb]
        | none => []) ++
      [sync_event.mutex_unlock]

/-- The events of `ishtp_pse_event_cb`; `none` when the handler dereferences a
NULL `pse_dev.cl`, as in `ishtp_pse_event_cb` above. -/
def ishtp_pse_event_cb_sync (bus : ishtp_bus) (s : driver_state) : Option (List sync_event) :=
  match s.pse_dev.pse_rb.rb with
  | some _ => some [sync_event.mutex_lock, sync_event.mutex_unlock]
  | none =>
    match s.pse_dev.cl with
    | none => none
    | some cl =>
      match bus.ishtp_cl_rx_get_rb cl with
      | none => some [sync_event.mutex_lock, sync_event.assign pse_field.wait_exception,
          sync_event.mutex_unlock]
      | some _ => some [sync_event.mutex_lock, sync_event.assign pse_field.rb,
          sync_event.mutex_unlock]

/-- The events of the exit of `ishtp_cl_reset_handler` through the label
`unlink` with a nonzero `ret` (pse.c lines 474 to 485). -/
def reset_unlink_failed_sync : List sync_event :=
  [sync_event.assign pse_field.cl, sync_event.mutex_unlock]

/-- The events of `ishtp_cl_reset_handler`; `none` when the handler
dereferences a NULL `pse_dev.cl_device`.  When the allocation of the fresh
client fails the handler returns at line 441, before the label `unlink` and
its `mutex_unlock`. -/
def ishtp_cl_reset_handler_sync (bus : ishtp_bus) (s : driver_state) :
    Option (List sync_event) :=
  match s.pse_dev.cl_device with
  | none => none
  | some cl_device =>
    match cl_device.ishtp_dev with
    | none => some []
    | some ishtp_dev =>
      let head := [sync_event.assign pse_field.wait_exception, sync_event.mutex_lock]
      match s.pse_dev.cl with
      | none => some (head ++ [sync_event.mutex_unlock])
      | some _ =>
        let head := head ++ [sync_event.assign pse_field.cl, sync_event.assign pse_field.cl]
        match bus.ishtp_cl_allocate cl_device with
        | none => some head
        | some cl0 =>
          if cl0.dev.dev_state ≠ ishtp_dev_state.ISHTP_DEV_ENABLED then
            some (head ++ reset_unlink_failed_sync)
          else
            let linked := bus.ishtp_cl_link cl0
            if linked.1 ≠ 0 then some (head ++ reset_unlink_failed_sync)
            else
              match bus.ishtp_fw_cl_get_client ishtp_dev
                  cl_device.fw_client.props.protocol_name with
              | none => some (head ++ reset_unlink_failed_sync)
              | some fw_client =>
                let cl1 := { linked.2 with fw_client_id := fw_client.client_id,
                                           state := cl_state.ISHTP_CL_CONNECTING }
                let head := head ++ [sync_event.assign pse_field.cl_fw_client_id,
                  sync_event.assign pse_field.cl_state]
                if (bus.ishtp_cl_connect cl1).1 ≠ 0 then some (head ++ reset_unlink_failed_sync)
                else some (head ++ [sync_event.mutex_unlock])

/-- The events of `ishtp_pse_remove`. -/
def ishtp_pse_remove_sync (s : driver_state) : List sync_event :=
  [sync_event.assign pse_field.wait_exception, sync_event.mutex_lock] ++
  (match s.pse_dev.cl with
    | some _ => [sync_event.assign pse_field.cl_state, sync_event.assign pse_field.cl]
    | none => []) ++
  [sync_event.mutex_unlock]

/-- Whether the lock is held after the events, given whether it was held before. -/
def lock_held : Bool → List sync_event → Bool
  | held, [] => held
  | _, sync_event.mutex_lock :: tr => lock_held true tr
  | _, sync_event.mutex_unlock :: tr => lock_held false tr
  | held, sync_event.assign _ :: tr => lock_held held tr

/-- The members assigned while the lock is not held, in program order, given
whether the lock was held before. -/
def unlocked_assignments : Bool → List sync_event → List pse_field
  | _, [] => []
  | _, sync_event.mutex_lock :: tr => unlocked_assignments true tr
  | _, sync_event.mutex_unlock :: tr => unlocked_assignments false tr
  | held, sync_event.assign field :: tr =>
    if held then unlocked_assignments held tr else field :: unlocked_assignments held tr

/-- Whether an assignment changes the client (its existence, its protocol state
or its client id) or the occupancy of the receive slot. -/
def pse_field.is_connection_or_slot : pse_field → Bool
  | pse_field.wait_exception => false
  | _ => true

/-! # Properties -/

/-! ## Write -/

/-- C1. On a live connection (enabled device, connected client) whose
negotiated maximum message length is M, a write of length n = 0 or n > M fails
with an invalid-argument code (-EMSGSIZE once the blocking-mode test is passed,
-EINVAL from that test otherwise) and leaves the driver state and the log of
bus calls as they were, so `ishtp_cl_send` is not invoked; a write of length
1 <= n <= M that reaches the send primitive (blocking-mode file, payload
duplicated) invokes it exactly once with the n payload bytes, returns n when
the primitive returns a value >= 0 and returns the primitive's value r when
r < 0. -/
theorem write_length_contract (bus : ishtp_bus) (s : driver_state) (cl : ishtp_cl) (f : file)
    (ubuf : user_ptr) (n M : Nat)
    (hcl : s.pse_dev.cl = some cl) (hdev : s.pse_dev.cl_device.isSome = true)
    (hen : cl.dev.dev_state = ishtp_dev_state.ISHTP_DEV_ENABLED)
    (hst : cl.state = cl_state.ISHTP_CL_CONNECTED)
    (hM : cl.device.fw_client.props.max_msg_length = M) :
    ((n = 0 ∨ M < n) →
      ((ishtp_pse_write bus s f ubuf n).2 = - EMSGSIZE ∨
        (ishtp_pse_write bus s f ubuf n).2 = - EINVAL) ∧
      (f.nonblock = false → (ishtp_pse_write bus s f ubuf n).2 = - EMSGSIZE) ∧
      (ishtp_pse_write bus s f ubuf n).1 = s) ∧
    (1 ≤ n → n ≤ M → f.nonblock = false → ubuf.fault = none →
      (ishtp_pse_write bus s f ubuf n).1.calls
        = s.calls ++ [bus_call.cl_send cl (ubuf.bytes.take n)] ∧
      (ishtp_pse_write bus s f ubuf n).1.pse_dev = s.pse_dev ∧
      (0 ≤ bus.ishtp_cl_send cl (ubuf.bytes.take n) →
        (ishtp_pse_write bus s f ubuf n).2 = n) ∧
      (bus.ishtp_cl_send cl (ubuf.bytes.take n) < 0 →
        (ishtp_pse_write bus s f ubuf n).2 = bus.ishtp_cl_send cl (ubuf.bytes.take n))) := by
  have halloc : CHECK_ISHTP_ALLOC s.pse_dev = false := by
    simp [CHECK_ISHTP_ALLOC, hcl, hdev]
  have halive : CHECK_ISHTP_CONNECTION_ALIVE cl = false := by
    simp [CHECK_ISHTP_CONNECTION_ALIVE, hen, hst]
  refine ⟨?_, ?_⟩
  · intro hn
    have hbad : n = 0 ∨ cl.device.fw_client.props.max_msg_length < n := by omega
    cases hnb : f.nonblock <;>
      simp [ishtp_pse_write, hcl, halloc, halive, hnb, hbad]
  · intro h1 h2 hnb hfault
    have hok : ¬ (n = 0 ∨ cl.device.fw_client.props.max_msg_length < n) := by omega
    have hdup : memdup_user ubuf n = .ok (ubuf.bytes.take n) := by
      simp [memdup_user, hfault]
    refine ⟨?_, ?_, ?_, ?_⟩
    · simp [ishtp_pse_write, hcl, halloc, halive, hnb, hok, hdup, driver_state.log]
    · simp [ishtp_pse_write, hcl, halloc, halive, hnb, hok, hdup, driver_state.log]
    · intro hr
      have : ¬ bus.ishtp_cl_send cl (ubuf.bytes.take n) < 0 := by omega
      simp [ishtp_pse_write, hcl, halloc, halive, hnb, hok, hdup, this]
    · intro hr
      simp [ishtp_pse_write, hcl, halloc, halive, hnb, hok, hdup, hr]

/-- C1, exercised: with maximum message length 16 on a connected client, a
write of 16 bytes returns 16 and a write of 17 bytes fails with -EMSGSIZE
without a bus call. -/
theorem write_length_contract_witness :
    (ishtp_pse_write ex_bus (ex_state cl_state.ISHTP_CL_CONNECTED none) ex_file
        (ex_ubuf (List.replicate 17 0)) 16).2 = 16 ∧
    (ishtp_pse_write ex_bus (ex_state cl_state.ISHTP_CL_CONNECTED none) ex_file
        (ex_ubuf (List.replicate 17 0)) 17).2 = - EMSGSIZE ∧
    (ishtp_pse_write ex_bus (ex_state cl_state.ISHTP_CL_CONNECTED none) ex_file
        (ex_ubuf (List.replicate 17 0)) 17).1 = ex_state cl_state.ISHTP_CL_CONNECTED none :=
  have h16 := write_length_contract ex_bus (ex_state cl_state.ISHTP_CL_CONNECTED none)
    (ex_cl cl_state.ISHTP_CL_CONNECTED) ex_file (ex_ubuf (List.replicate 17 0)) 16 16
    rfl rfl rfl rfl rfl
  have h17 := write_length_contract ex_bus (ex_state cl_state.ISHTP_CL_CONNECTED none)
    (ex_cl cl_state.ISHTP_CL_CONNECTED) ex_file (ex_ubuf (List.replicate 17 0)) 17 16
    rfl rfl rfl rfl rfl
  ⟨(h16.2 (by decide) (by decide) (by decide) rfl).2.2.1 (by decide),
   (h17.1 (Or.inr (by decide))).2.1 (by decide),
   (h17.1 (Or.inr (by decide))).2.2⟩

/-! ## Open -/

/-- C2, refuted as stated: with a connected client in place, a second open on
a bus whose allocation and link succeed returns 0, not -EBUSY, and the device
context no longer refers to the connected client. -/
theorem open_while_connected_succeeds :
    (ishtp_pse_open ex_bus (ex_state cl_state.ISHTP_CL_CONNECTED none) ex_file).2 = 0 ∧
    (ishtp_pse_open ex_bus (ex_state cl_state.ISHTP_CL_CONNECTED none) ex_file).2 ≠ - EBUSY ∧
    (ishtp_pse_open ex_bus (ex_state cl_state.ISHTP_CL_CONNECTED none) ex_file).1.pse_dev.cl
      ≠ (ex_state cl_state.ISHTP_CL_CONNECTED none).pse_dev.cl := by
  decide

/-- C2, amended: open does not consult an existing client.  Its return value
is the same in any two driver states that agree on the probed bus client,
whatever client (in whatever protocol state) either of them holds; and in
every driver state, a blocking-mode open on a probed bus client whose
allocation and link succeed returns 0. -/
theorem open_ignores_existing_connection (bus : ishtp_bus) (s s' : driver_state) (f : file)
    (cl_device : ishtp_cl_device) (cl0 : ishtp_cl)
    (hsame : s'.pse_dev.cl_device = s.pse_dev.cl_device) :
    (ishtp_pse_open bus s' f).2 = (ishtp_pse_open bus s f).2 ∧
    (f.nonblock = false → s.pse_dev.cl_device = some cl_device →
      bus.ishtp_cl_allocate cl_device = some cl0 → (bus.ishtp_cl_link cl0).1 = 0 →
      (ishtp_pse_open bus s f).2 = 0) := by
  refine ⟨?_, ?_⟩
  · unfold ishtp_pse_open
    rw [hsame]
    cases f.nonblock
    · cases s.pse_dev.cl_device with
      | none => rfl
      | some d =>
        cases halloc : bus.ishtp_cl_allocate d with
        | none => simp [halloc]
        | some c =>
          by_cases hl : (bus.ishtp_cl_link c).1 = 0 <;> simp [halloc, hl]
    · rfl
  · intro hnb hdev halloc hlink
    simp [ishtp_pse_open, hnb, hdev, halloc, hlink, nonseekable_open]

/-- C2 amended, exercised: a state holding a connected client and a state
holding none get the same result, 0, from a blocking-mode open. -/
theorem open_ignores_existing_connection_witness :
    (ishtp_pse_open ex_bus (ex_state cl_state.ISHTP_CL_CONNECTED none) ex_file).2
      = (ishtp_pse_open ex_bus
          { pse_dev := { cl := none, cl_device := some ex_cl_device,
                         pse_rb := { wait_exception := false, rb := none } },
            calls := [] } ex_file).2 ∧
    (ishtp_pse_open ex_bus
        { pse_dev := { cl := none, cl_device := some ex_cl_device,
                       pse_rb := { wait_exception := false, rb := none } },
          calls := [] } ex_file).2 = 0 :=
  have h := open_ignores_existing_connection ex_bus
    { pse_dev := { cl := none, cl_device := some ex_cl_device,
                   pse_rb := { wait_exception := false, rb := none } },
      calls := [] }
    (ex_state cl_state.ISHTP_CL_CONNECTED none) ex_file ex_cl_device
    { state := cl_state.ISHTP_CL_INITIALIZING, fw_client_id := 0, dev := ex_dev,
      device := ex_cl_device } rfl
  ⟨h.1, h.2 (by decide) rfl rfl rfl⟩

/-! ## Read -/

/-- With a live connection, a blocking-mode file and an occupied slot,
`ishtp_pse_read` is its locked part applied to the buffer in the slot. -/
theorem read_occupied_eq (wait : driver_state → Int × driver_state) (s : driver_state)
    (cl : ishtp_cl) (rb : ishtp_cl_rb) (f : file) (ubuf : user_ptr) (n c : Nat)
    (hcl : s.pse_dev.cl = some cl) (hdev : s.pse_dev.cl_device.isSome = true)
    (hen : cl.dev.dev_state = ishtp_dev_state.ISHTP_DEV_ENABLED)
    (hst : cl.state = cl_state.ISHTP_CL_CONNECTED)
    (hnb : f.nonblock = false) (hrb : s.pse_dev.pse_rb.rb = some rb) :
    ishtp_pse_read wait s f ubuf n c = ishtp_pse_read_locked s rb ubuf n c := by
  have halloc : CHECK_ISHTP_ALLOC s.pse_dev = false := by
    simp [CHECK_ISHTP_ALLOC, hcl, hdev]
  have halive : CHECK_ISHTP_CONNECTION_ALIVE cl = false := by
    simp [CHECK_ISHTP_CONNECTION_ALIVE, hen, hst]
  simp [ishtp_pse_read, hcl, halloc, halive, hnb, hrb]

/-- The locked part of a read that passes the argument test and whose copy
succeeds: the bytes from the cursor on are copied and counted; the cursor moves
on while bytes remain, and is reset together with the slot when none remain. -/
theorem read_locked_ok (s : driver_state) (rb : ishtp_cl_rb) (ubuf : user_ptr) (n c : Nat)
    (hn : 1 ≤ n) (hbuf : ubuf.addr ≠ 0) (hfault : ubuf.fault = none) (hc : c ≤ rb.buf_idx) :
    ishtp_pse_read_locked s rb ubuf n c =
      if c + min n (rb.buf_idx - c) < rb.buf_idx then
        { st := s, ret := (min n (rb.buf_idx - c) : Nat), offset := c + min n (rb.buf_idx - c),
          copied := some ((rb.data.drop c).take (min n (rb.buf_idx - c))) }
      else
        { st := (s.log (bus_call.cl_io_rb_recycle rb)).set_rb none,
          ret := (min n (rb.buf_idx - c) : Nat), offset := 0,
          copied := some ((rb.data.drop c).take (min n (rb.buf_idx - c))) } := by
  have h1 : ¬ (n = 0 ∨ ubuf.addr = 0 ∨ rb.buf_idx < c) := by
    intro h
    rcases h with h | h | h
    · omega
    · exact hbuf h
    · omega
  simp [ishtp_pse_read_locked, h1, copy_to_user, hfault]

/-- C3, refuted as stated: a read of 4 bytes at cursor 0 of a pending 4-byte
message returns 4 and delivers the 4 bytes, but leaves the cursor at 0, not at
0 + 4. -/
theorem read_exhausting_cursor_not_advanced :
    (ishtp_pse_read wait_times_out
        (ex_state cl_state.ISHTP_CL_CONNECTED (some { data := [1, 2, 3, 4], buf_idx := 4 }))
        ex_file (ex_ubuf []) 4 0).ret = 4 ∧
    (ishtp_pse_read wait_times_out
        (ex_state cl_state.ISHTP_CL_CONNECTED (some { data := [1, 2, 3, 4], buf_idx := 4 }))
        ex_file (ex_ubuf []) 4 0).copied = some [1, 2, 3, 4] ∧
    (ishtp_pse_read wait_times_out
        (ex_state cl_state.ISHTP_CL_CONNECTED (some { data := [1, 2, 3, 4], buf_idx := 4 }))
        ex_file (ex_ubuf []) 4 0).offset ≠ 0 + 4 := by
  decide

/-- C3, amended: on a live connection holding a pending message of total
length T with read cursor c <= T, a blocking-mode read with a non-null,
writable buffer and requested length n >= 1 copies to the caller exactly the
message bytes at positions [c, c + k) with k = min(n, T - c) and returns k;
when bytes remain (c + k < T) it leaves the cursor at c + k and the driver
state as it was; when the message is exhausted (c + k = T) it empties the slot
and leaves the cursor at 0. -/
theorem read_delivers_from_cursor (wait : driver_state → Int × driver_state) (s : driver_state)
    (cl : ishtp_cl) (rb : ishtp_cl_rb) (f : file) (ubuf : user_ptr) (n c : Nat)
    (hcl : s.pse_dev.cl = some cl) (hdev : s.pse_dev.cl_device.isSome = true)
    (hen : cl.dev.dev_state = ishtp_dev_state.ISHTP_DEV_ENABLED)
    (hst : cl.state = cl_state.ISHTP_CL_CONNECTED)
    (hnb : f.nonblock = false) (hrb : s.pse_dev.pse_rb.rb = some rb)
    (hn : 1 ≤ n) (hbuf : ubuf.addr ≠ 0) (hfault : ubuf.fault = none) (hc : c ≤ rb.buf_idx) :
    (ishtp_pse_read wait s f ubuf n c).copied
        = some ((rb.data.drop c).take (min n (rb.buf_idx - c))) ∧
    (ishtp_pse_read wait s f ubuf n c).ret = (min n (rb.buf_idx - c) : Nat) ∧
    (c + min n (rb.buf_idx - c) < rb.buf_idx →
      (ishtp_pse_read wait s f ubuf n c).offset = c + min n (rb.buf_idx - c) ∧
      (ishtp_pse_read wait s f ubuf n c).st = s) ∧
    (c + min n (rb.buf_idx - c) = rb.buf_idx →
      (ishtp_pse_read wait s f ubuf n c).offset = 0 ∧
      (ishtp_pse_read wait s f ubuf n c).st.pse_dev.pse_rb.rb = none ∧
      (ishtp_pse_read wait s f ubuf n c).st.pse_dev.cl = s.pse_dev.cl) := by
  rw [read_occupied_eq wait s cl rb f ubuf n c hcl hdev hen hst hnb hrb,
    read_locked_ok s rb ubuf n c hn hbuf hfault hc]
  by_cases hlt : c + min n (rb.buf_idx - c) < rb.buf_idx
  · rw [if_pos hlt]
    refine ⟨rfl, rfl, fun _ => ⟨rfl, rfl⟩, fun h => ?_⟩
    omega
  · rw [if_neg hlt]
    exact ⟨rfl, rfl, fun h => absurd h hlt, fun _ => ⟨rfl, rfl, rfl⟩⟩

/-- C3 amended, exercised: a read of 2 bytes at cursor 1 of a pending 4-byte
message delivers bytes 1 and 2 and leaves the cursor at 3. -/
theorem read_delivers_from_cursor_witness :
    (ishtp_pse_read wait_times_out
        (ex_state cl_state.ISHTP_CL_CONNECTED (some { data := [1, 2, 3, 4], buf_idx := 4 }))
        ex_file (ex_ubuf []) 2 1).copied = some [2, 3] ∧
    (ishtp_pse_read wait_times_out
        (ex_state cl_state.ISHTP_CL_CONNECTED (some { data := [1, 2, 3, 4], buf_idx := 4 }))
        ex_file (ex_ubuf []) 2 1).ret = 2 ∧
    (ishtp_pse_read wait_times_out
        (ex_state cl_state.ISHTP_CL_CONNECTED (some { data := [1, 2, 3, 4], buf_idx := 4 }))
        ex_file (ex_ubuf []) 2 1).offset = 3 :=
  have h := read_delivers_from_cursor wait_times_out
    (ex_state cl_state.ISHTP_CL_CONNECTED (some { data := [1, 2, 3, 4], buf_idx := 4 }))
    (ex_cl cl_state.ISHTP_CL_CONNECTED) { data := [1, 2, 3, 4], buf_idx := 4 }
    ex_file (ex_ubuf []) 2 1 rfl rfl rfl rfl (by decide) rfl (by decide) (by decide) rfl
    (by decide)
  ⟨h.1, h.2.1, (h.2.2.1 (by decide)).1⟩

/-- With an empty slot and no arrival before the timeout, a read copies
nothing, keeps the file offset and leaves the slot empty. -/
theorem read_empty_times_out (s : driver_state) (f : file) (ubuf : user_ptr) (n off : Nat)
    (hrb : s.pse_dev.pse_rb.rb = none) :
    (ishtp_pse_read wait_times_out s f ubuf n off).copied = none ∧
    (ishtp_pse_read wait_times_out s f ubuf n off).offset = off ∧
    (ishtp_pse_read wait_times_out s f ubuf n off).st.pse_dev.pse_rb.rb = none := by
  unfold ishtp_pse_read
  cases hcl : s.pse_dev.cl with
  | none => simp [hrb]
  | some cl =>
    by_cases h1 : CHECK_ISHTP_ALLOC s.pse_dev = true
    · simp [h1, hrb]
    · by_cases h2 : CHECK_ISHTP_CONNECTION_ALIVE cl = true
      · simp [h1, h2, hrb]
      · cases h3 : f.nonblock
        · simp [h1, h2, h3, hrb, wait_times_out, driver_state.set_wait_exception]
        · simp [h1, h2, h3, hrb]

/-- Once the slot is empty and nothing arrives, a sequence of reads delivers
nothing and leaves the slot empty and the offset where it was. -/
theorem read_seq_empty (f : file) (ubuf : user_ptr) (ns : List Nat) :
    ∀ (s : driver_state) (off : Nat), s.pse_dev.pse_rb.rb = none →
      delivered (read_seq wait_times_out f ubuf s off ns).results = [] ∧
      (read_seq wait_times_out f ubuf s off ns).st.pse_dev.pse_rb.rb = none ∧
      (read_seq wait_times_out f ubuf s off ns).offset = off := by
  induction ns with
  | nil => intro s off hrb; exact ⟨rfl, hrb, rfl⟩
  | cons n ns ih =>
    intro s off hrb
    obtain ⟨hc, ho, hr⟩ := read_empty_times_out s f ubuf n off hrb
    obtain ⟨i1, i2, i3⟩ := ih (ishtp_pse_read wait_times_out s f ubuf n off).st
      (ishtp_pse_read wait_times_out s f ubuf n off).offset hr
    refine ⟨?_, ?_, ?_⟩
    · simp only [read_seq, delivered, hc, i1]
      rfl
    · simpa only [read_seq] using i2
    · simp only [read_seq]
      rw [i3, ho]

/-- While a message is pending at cursor c < T, a sequence of positive reads
delivers the message bytes from c on, up to the end of the message; the slot
keeps the message as long as the requested total stays below the remainder,
and is empty with the cursor back at 0 once the total reaches it. -/
theorem read_seq_pending (cl : ishtp_cl) (rb : ishtp_cl_rb) (f : file) (ubuf : user_ptr)
    (hen : cl.dev.dev_state = ishtp_dev_state.ISHTP_DEV_ENABLED)
    (hst : cl.state = cl_state.ISHTP_CL_CONNECTED)
    (hnb : f.nonblock = false) (hbuf : ubuf.addr ≠ 0) (hfault : ubuf.fault = none)
    (ns : List Nat) :
    ∀ (s : driver_state) (c : Nat), (∀ n ∈ ns, 1 ≤ n) → s.pse_dev.cl = some cl →
      s.pse_dev.cl_device.isSome = true → s.pse_dev.pse_rb.rb = some rb → c < rb.buf_idx →
      delivered (read_seq wait_times_out f ubuf s c ns).results
          = (rb.data.drop c).take (min (rb.buf_idx - c) ns.sum) ∧
      (c + ns.sum < rb.buf_idx →
        (read_seq wait_times_out f ubuf s c ns).st.pse_dev.pse_rb.rb = some rb ∧
        (read_seq wait_times_out f ubuf s c ns).offset = c + ns.sum ∧
        (read_seq wait_times_out f ubuf s c ns).results.map (fun r => r.ret)
          = ns.map Int.ofNat) ∧
      (rb.buf_idx ≤ c + ns.sum →
        (read_seq wait_times_out f ubuf s c ns).st.pse_dev.pse_rb.rb = none ∧
        (read_seq wait_times_out f ubuf s c ns).offset = 0) := by
  induction ns with
  | nil =>
    intro s c _ _ _ hrb hc
    refine ⟨by simp [read_seq, delivered], fun _ => ⟨hrb, rfl, rfl⟩, fun h => ?_⟩
    simp at h
    omega
  | cons n ns ih =>
    intro s c hpos hcl hdev hrb hc
    have hn : 1 ≤ n := hpos n (List.mem_cons_self n ns)
    have hpos' : ∀ m ∈ ns, 1 ≤ m := fun m hm => hpos m (List.mem_cons_of_mem n hm)
    have hr := read_occupied_eq wait_times_out s cl rb f ubuf n c hcl hdev hen hst hnb hrb
    rw [read_locked_ok s rb ubuf n c hn hbuf hfault (Nat.le_of_lt hc)] at hr
    by_cases hlt : n < rb.buf_idx - c
    · have hk : min n (rb.buf_idx - c) = n := Nat.min_eq_left (Nat.le_of_lt hlt)
      rw [hk, if_pos (by omega)] at hr
      obtain ⟨i1, i2, i3⟩ := ih s (c + n) hpos' hcl hdev hrb (by omega)
      simp only [read_seq, hr, delivered, List.sum_cons, List.map_cons, Option.getD_some]
      refine ⟨?_, fun h => ?_, fun h => ?_⟩
      · rw [i1]
        have hm : min (rb.buf_idx - c) (n + ns.sum) = n + min (rb.buf_idx - (c + n)) ns.sum := by
          omega
        rw [hm, List.take_add, List.drop_drop]
      · obtain ⟨j1, j2, j3⟩ := i2 (by omega)
        refine ⟨j1, by omega, ?_⟩
        rw [j3]
        rfl
      · exact i3 (by omega)
    · have hk : min n (rb.buf_idx - c) = rb.buf_idx - c := Nat.min_eq_right (by omega)
      rw [hk, if_neg (by omega)] at hr
      obtain ⟨e1, e2, e3⟩ := read_seq_empty f ubuf ns
        ((s.log (bus_call.cl_io_rb_recycle rb)).set_rb none) 0 rfl
      simp only [read_seq, hr, delivered, List.sum_cons, Option.getD_some]
      refine ⟨?_, fun h => ?_, fun _ => ⟨e2, e3⟩⟩
      · rw [e1, List.append_nil]
        have hm : min (rb.buf_idx - c) (n + ns.sum) = rb.buf_idx - c := by omega
        rw [hm]
      · omega

/-- C4. On a live connection with a pending message of length T >= 1 and the
cursor at 0, for every sequence of reads with positive requested lengths
(blocking-mode file, non-null writable buffer, no further arrival): the pieces
delivered, concatenated in order, are the first min(T, total requested) bytes
of the message; as long as the total requested stays below T every read
returned exactly its requested count, the same message is still in the slot
and the cursor equals the total; and as soon as the total reaches T the slot is
empty and the cursor is 0.  Applied to the prefixes of a sequence this places
the emptying of the slot at the first read that brings the cursor to T. -/
theorem read_sequence_reassembles_message (s : driver_state) (cl : ishtp_cl)
    (rb : ishtp_cl_rb) (f : file) (ubuf : user_ptr) (ns : List Nat)
    (hcl : s.pse_dev.cl = some cl) (hdev : s.pse_dev.cl_device.isSome = true)
    (hen : cl.dev.dev_state = ishtp_dev_state.ISHTP_DEV_ENABLED)
    (hst : cl.state = cl_state.ISHTP_CL_CONNECTED)
    (hnb : f.nonblock = false) (hbuf : ubuf.addr ≠ 0) (hfault : ubuf.fault = none)
    (hrb : s.pse_dev.pse_rb.rb = some rb) (hT : 1 ≤ rb.buf_idx)
    (hpos : ∀ n ∈ ns, 1 ≤ n) :
    delivered (read_seq wait_times_out f ubuf s 0 ns).results
        = rb.data.take (min rb.buf_idx ns.sum) ∧
    (ns.sum < rb.buf_idx →
      (read_seq wait_times_out f ubuf s 0 ns).st.pse_dev.pse_rb.rb = some rb ∧
      (read_seq wait_times_out f ubuf s 0 ns).offset = ns.sum ∧
      (read_seq wait_times_out f ubuf s 0 ns).results.map (fun r => r.ret)
        = ns.map Int.ofNat) ∧
    (rb.buf_idx ≤ ns.sum →
      (read_seq wait_times_out f ubuf s 0 ns).st.pse_dev.pse_rb.rb = none ∧
      (read_seq wait_times_out f ubuf s 0 ns).offset = 0) := by
  have h := read_seq_pending cl rb f ubuf hen hst hnb hbuf hfault ns s 0 hpos hcl hdev hrb
    (by omega)
  simpa using h

/-- C4, exercised: a 6-byte message read in pieces of 2, 3 and 4 bytes comes
out as 2, 3 and 1 bytes that concatenate to the message; the slot is empty and
the cursor is 0 afterwards. -/
theorem read_sequence_reassembles_message_witness :
    delivered (read_seq wait_times_out ex_file (ex_ubuf [])
        (ex_state cl_state.ISHTP_CL_CONNECTED (some { data := [1, 0, 0, 7, 0, 0], buf_idx := 6 }))
        0 [2, 3, 4]).results = [1, 0, 0, 7, 0, 0] ∧
    (read_seq wait_times_out ex_file (ex_ubuf [])
        (ex_state cl_state.ISHTP_CL_CONNECTED (some { data := [1, 0, 0, 7, 0, 0], buf_idx := 6 }))
        0 [2, 3, 4]).st.pse_dev.pse_rb.rb = none ∧
    (read_seq wait_times_out ex_file (ex_ubuf [])
        (ex_state cl_state.ISHTP_CL_CONNECTED (some { data := [1, 0, 0, 7, 0, 0], buf_idx := 6 }))
        0 [2, 3, 4]).offset = 0 :=
  have h := read_sequence_reassembles_message
    (ex_state cl_state.ISHTP_CL_CONNECTED (some { data := [1, 0, 0, 7, 0, 0], buf_idx := 6 }))
    (ex_cl cl_state.ISHTP_CL_CONNECTED) { data := [1, 0, 0, 7, 0, 0], buf_idx := 6 }
    ex_file (ex_ubuf []) [2, 3, 4] rfl rfl rfl rfl (by decide) (by decide) rfl rfl
    (by decide) (by decide)
  ⟨h.1, (h.2.2 (by decide)).1, (h.2.2 (by decide)).2⟩

/-! ## Message arrival -/

/-- C5. The slot holds at most one buffer (it is an optional value).  In every
driver state whose slot is occupied the arrival handler returns the state
exactly as it was: the buffer in the slot (bytes and length) is the same and
the log of bus calls has not grown, so `ishtp_cl_rx_get_rb` was not called and
the new message stays with the adapter; the read cursor is the file offset,
which the handler has no access to.  In every driver state whose slot is empty
and whose client has a message m waiting (`ishtp_cl_rx_get_rb` yields m), the
handler takes it with one call and the slot then holds exactly m, with the
client and the cancellation flag as they were. -/
theorem event_cb_single_slot (bus : ishtp_bus) (s : driver_state) :
    (∀ rb, s.pse_dev.pse_rb.rb = some rb → ishtp_pse_event_cb bus s = some s) ∧
    (∀ cl m, s.pse_dev.pse_rb.rb = none → s.pse_dev.cl = some cl →
      bus.ishtp_cl_rx_get_rb cl = some m →
      ∃ s', ishtp_pse_event_cb bus s = some s' ∧
        s'.pse_dev.pse_rb.rb = some m ∧
        s'.pse_dev.pse_rb.wait_exception = s.pse_dev.pse_rb.wait_exception ∧
        s'.pse_dev.cl = s.pse_dev.cl ∧ s'.pse_dev.cl_device = s.pse_dev.cl_device ∧
        s'.calls = s.calls ++ [bus_call.cl_rx_get_rb cl]) := by
  refine ⟨fun rb hrb => ?_, fun cl m hrb hcl hm => ?_⟩
  · simp [ishtp_pse_event_cb, hrb]
  · refine ⟨(s.log (bus_call.cl_rx_get_rb cl)).set_rb (some m), ?_, rfl, rfl, rfl, rfl, rfl⟩
    simp [ishtp_pse_event_cb, hrb, hcl, hm]

/-- C5, exercised: with a 4-byte message pending, an arrival leaves the state
untouched although the adapter has a message; with the slot empty the same
arrival puts the adapter's 6-byte message into the slot. -/
theorem event_cb_single_slot_witness :
    ishtp_pse_event_cb ex_bus
        (ex_state cl_state.ISHTP_CL_CONNECTED (some { data := [1, 2, 3, 4], buf_idx := 4 }))
      = some (ex_state cl_state.ISHTP_CL_CONNECTED (some { data := [1, 2, 3, 4], buf_idx := 4 })) ∧
    (∃ s', ishtp_pse_event_cb ex_bus (ex_state cl_state.ISHTP_CL_CONNECTED none) = some s' ∧
      s'.pse_dev.pse_rb.rb = some { data := [1, 0, 0, 7, 0, 0], buf_idx := 6 }) :=
  ⟨(event_cb_single_slot ex_bus
      (ex_state cl_state.ISHTP_CL_CONNECTED (some { data := [1, 2, 3, 4], buf_idx := 4 }))).1
      { data := [1, 2, 3, 4], buf_idx := 4 } rfl,
   match (event_cb_single_slot ex_bus (ex_state cl_state.ISHTP_CL_CONNECTED none)).2
      (ex_cl cl_state.ISHTP_CL_CONNECTED) { data := [1, 0, 0, 7, 0, 0], buf_idx := 6 }
      rfl rfl rfl with
   | ⟨s', h1, h2, _⟩ => ⟨s', h1, h2⟩⟩

/-! ## The connect ioctl -/

/-- C6, the code at the failing input.  A privileged CONNECT_CLIENT ioctl
whose argument region holds the SMHI uuid, on a freshly opened client and a
bus that knows the uuid (maximum message length 16, protocol version 1) and
connects, returns 0.  The reply (16, 1) is written to the kernel duplicate of
the argument only: the caller's region is byte for byte what it was, and read
as `out_client_props` it shows the first five uuid bytes, not (16, 1).  In
general, for every input, the ioctl leaves the caller's region as it was. -/
theorem ioctl_connect_reply_stays_in_kernel :
    (ishtp_pse_ioctl ex_bus true (ex_state cl_state.ISHTP_CL_INITIALIZING none)
        IOCTL_ISHTP_CONNECT_CLIENT (ex_ubuf pse_smhi_guid)).ret = 0 ∧
    (ishtp_pse_ioctl ex_bus true (ex_state cl_state.ISHTP_CL_INITIALIZING none)
        IOCTL_ISHTP_CONNECT_CLIENT (ex_ubuf pse_smhi_guid)).cc_data.map
          ishtp_cc_data.out_client_props
      = some { max_message_length := 16, protocol_version := 1 } ∧
    (ishtp_pse_ioctl ex_bus true (ex_state cl_state.ISHTP_CL_INITIALIZING none)
        IOCTL_ISHTP_CONNECT_CLIENT (ex_ubuf pse_smhi_guid)).uarg.bytes = pse_smhi_guid ∧
    ishtp_cc_data.out_client_props
        { raw := (ishtp_pse_ioctl ex_bus true (ex_state cl_state.ISHTP_CL_INITIALIZING none)
            IOCTL_ISHTP_CONNECT_CLIENT (ex_ubuf pse_smhi_guid)).uarg.bytes }
      = { max_message_length := 0xbb579a2e, protocol_version := 0x54 } ∧
    (∀ (bus : ishtp_bus) (capable : Bool) (s : driver_state) (cmd : Nat) (data : user_ptr),
      (ishtp_pse_ioctl bus capable s cmd data).uarg = data) := by
  refine ⟨by decide, by decide, by decide, by decide, ?_⟩
  intro bus capable s cmd data
  unfold ishtp_pse_ioctl
  split
  · rfl
  · split
    · rfl
    · split
      · rfl
      · split
        · split
          · rfl
          · dsimp only
            split <;> rfl
        · rfl

/-- C7. For a connect request (`ishtp_pse_ioctl_cc`) on an existing client cl
and an enabled device: when cl is Connecting, Connected or Disconnecting the
request returns -EBUSY and hands back the driver state and the connect data
exactly as they were, so neither the firmware-client lookup nor the adapter's
connect was called and the protocol state and client id of cl are unchanged;
whenever the log of bus calls has grown, cl was in `ISHTP_CL_INITIALIZING`
(Allocated) or Disconnected; and in those two states the lookup is the next
bus call.  The same holds through `ishtp_pse_ioctl` for a privileged caller
with a readable argument. -/
theorem connect_busy_unless_allocated_or_disconnected (bus : ishtp_bus) (s : driver_state)
    (cl : ishtp_cl) (dev : ishtp_device) (data : ishtp_cc_data)
    (hcl : s.pse_dev.cl = some cl) (hdev : s.pse_dev.cl_device.isSome = true)
    (hen : dev.dev_state = ishtp_dev_state.ISHTP_DEV_ENABLED) :
    ((cl.state = cl_state.ISHTP_CL_CONNECTING ∨ cl.state = cl_state.ISHTP_CL_CONNECTED ∨
        cl.state = cl_state.ISHTP_CL_DISCONNECTING) →
      ishtp_pse_ioctl_cc bus s (some dev) data = { st := s, data := data, ret := - EBUSY } ∧
      (∀ uarg : user_ptr, uarg.fault = none → cl.dev = dev →
        (ishtp_pse_ioctl bus true s IOCTL_ISHTP_CONNECT_CLIENT uarg).ret = - EBUSY ∧
        (ishtp_pse_ioctl bus true s IOCTL_ISHTP_CONNECT_CLIENT uarg).st = s)) ∧
    ((ishtp_pse_ioctl_cc bus s (some dev) data).st.calls ≠ s.calls →
      cl.state = cl_state.ISHTP_CL_INITIALIZING ∨ cl.state = cl_state.ISHTP_CL_DISCONNECTED) ∧
    ((cl.state = cl_state.ISHTP_CL_INITIALIZING ∨ cl.state = cl_state.ISHTP_CL_DISCONNECTED) →
      s.calls ++ [bus_call.fw_cl_get_client dev data.in_client_uuid]
        <+: (ishtp_pse_ioctl_cc bus s (some dev) data).st.calls) := by
  have halloc : CHECK_ISHTP_ALLOC s.pse_dev = false := by
    simp [CHECK_ISHTP_ALLOC, hcl, hdev]
  have hbusy : (cl.state = cl_state.ISHTP_CL_CONNECTING ∨ cl.state = cl_state.ISHTP_CL_CONNECTED ∨
      cl.state = cl_state.ISHTP_CL_DISCONNECTING) →
      ishtp_pse_ioctl_cc bus s (some dev) data = { st := s, data := data, ret := - EBUSY } := by
    intro h
    have hb : cl.state ≠ cl_state.ISHTP_CL_INITIALIZING ∧
        cl.state ≠ cl_state.ISHTP_CL_DISCONNECTED := by
      rcases h with h | h | h <;> rw [h] <;> decide
    simp [ishtp_pse_ioctl_cc, hcl, halloc, hen, hb]
  refine ⟨fun h => ⟨hbusy h, fun uarg hf hd => ?_⟩, fun hne => ?_, fun h => ?_⟩
  · have hcc := hbusy h
    have hdup : memdup_user uarg 16 = .ok (uarg.bytes.take 16) := by simp [memdup_user, hf]
    have hb : cl.state ≠ cl_state.ISHTP_CL_INITIALIZING ∧
        cl.state ≠ cl_state.ISHTP_CL_DISCONNECTED := by
      rcases h with h | h | h <;> rw [h] <;> decide
    subst hd
    simp [ishtp_pse_ioctl, hcl, halloc, hdup, ishtp_pse_ioctl_cc, hen, hb, EBUSY]
  · by_contra hnot
    have hb : cl.state ≠ cl_state.ISHTP_CL_INITIALIZING ∧
        cl.state ≠ cl_state.ISHTP_CL_DISCONNECTED := by
      constructor
      · intro h1; exact hnot (Or.inl h1)
      · intro h1; exact hnot (Or.inr h1)
    apply hne
    simp [ishtp_pse_ioctl_cc, hcl, halloc, hen, hb]
  · have hb : ¬ (cl.state ≠ cl_state.ISHTP_CL_INITIALIZING ∧
        cl.state ≠ cl_state.ISHTP_CL_DISCONNECTED) := by
      intro hh
      rcases h with h | h
      · exact hh.1 h
      · exact hh.2 h
    cases hfw : bus.ishtp_fw_cl_get_client dev data.in_client_uuid with
    | none =>
      simp [ishtp_pse_ioctl_cc, hcl, halloc, hen, hb, hfw, driver_state.log]
    | some fw =>
      simp [ishtp_pse_ioctl_cc, hcl, halloc, hen, hb, hfw, driver_state.log,
        driver_state.set_cl]

/-- C7, exercised: a connect request on a client that is already connected
returns -EBUSY and leaves the driver state as it was. -/
theorem connect_busy_unless_allocated_or_disconnected_witness :
    ishtp_pse_ioctl_cc ex_bus (ex_state cl_state.ISHTP_CL_CONNECTED none) (some ex_dev)
        { raw := pse_smhi_guid }
      = { st := ex_state cl_state.ISHTP_CL_CONNECTED none, data := { raw := pse_smhi_guid },
          ret := - EBUSY } :=
  ((connect_busy_unless_allocated_or_disconnected ex_bus
      (ex_state cl_state.ISHTP_CL_CONNECTED none) (ex_cl cl_state.ISHTP_CL_CONNECTED) ex_dev
      { raw := pse_smhi_guid } rfl rfl rfl).1 (Or.inr (Or.inl rfl))).1

/-- C8. For a connect request (`ishtp_pse_ioctl_cc`) from a valid state
(existing client cl in `ISHTP_CL_INITIALIZING` or Disconnected, enabled
device): when the adapter does not know the client identifier the request
returns -ENOENT, the lookup is the only bus call made (the adapter's connect
is not invoked) and the device context, with the protocol state and client id
of cl, is unchanged; when the adapter finds firmware client fw, the bus calls
made are the lookup followed by a connect whose argument already carries
client id `fw.client_id` and state Connecting, and the request returns what
that connect returns and keeps the client as the connect leaves it. -/
theorem connect_lookup_then_connecting (bus : ishtp_bus) (s : driver_state) (cl : ishtp_cl)
    (dev : ishtp_device) (data : ishtp_cc_data)
    (hcl : s.pse_dev.cl = some cl) (hdev : s.pse_dev.cl_device.isSome = true)
    (hen : dev.dev_state = ishtp_dev_state.ISHTP_DEV_ENABLED)
    (hstate : cl.state = cl_state.ISHTP_CL_INITIALIZING ∨
      cl.state = cl_state.ISHTP_CL_DISCONNECTED) :
    (bus.ishtp_fw_cl_get_client dev data.in_client_uuid = none →
      (ishtp_pse_ioctl_cc bus s (some dev) data).ret = - ENOENT ∧
      (ishtp_pse_ioctl_cc bus s (some dev) data).st.pse_dev = s.pse_dev ∧
      (ishtp_pse_ioctl_cc bus s (some dev) data).st.calls
        = s.calls ++ [bus_call.fw_cl_get_client dev data.in_client_uuid]) ∧
    (∀ fw, bus.ishtp_fw_cl_get_client dev data.in_client_uuid = some fw →
      (ishtp_pse_ioctl_cc bus s (some dev) data).st.calls
        = s.calls ++ [bus_call.fw_cl_get_client dev data.in_client_uuid,
            bus_call.cl_connect { cl with fw_client_id := fw.client_id,
                                          state := cl_state.ISHTP_CL_CONNECTING }] ∧
      (ishtp_pse_ioctl_cc bus s (some dev) data).ret
        = (bus.ishtp_cl_connect { cl with fw_client_id := fw.client_id,
                                          state := cl_state.ISHTP_CL_CONNECTING }).1 ∧
      (ishtp_pse_ioctl_cc bus s (some dev) data).st.pse_dev.cl
        = some (bus.ishtp_cl_connect { cl with fw_client_id := fw.client_id,
                                               state := cl_state.ISHTP_CL_CONNECTING }).2) := by
  have halloc : CHECK_ISHTP_ALLOC s.pse_dev = false := by
    simp [CHECK_ISHTP_ALLOC, hcl, hdev]
  have hb : ¬ (cl.state ≠ cl_state.ISHTP_CL_INITIALIZING ∧
      cl.state ≠ cl_state.ISHTP_CL_DISCONNECTED) := by
    intro hh
    rcases hstate with h | h
    · exact hh.1 h
    · exact hh.2 h
  refine ⟨fun hfw => ?_, fun fw hfw => ?_⟩
  · simp [ishtp_pse_ioctl_cc, hcl, halloc, hen, hb, hfw, driver_state.log]
  · simp [ishtp_pse_ioctl_cc, hcl, halloc, hen, hb, hfw, driver_state.log,
      driver_state.set_cl]

/-- C8, exercised: from a freshly allocated client, a request for an unknown
identifier returns -ENOENT with the device context unchanged, and a request for
the SMHI uuid calls connect on a client that is already in state Connecting
with client id 3. -/
theorem connect_lookup_then_connecting_witness :
    ((ishtp_pse_ioctl_cc ex_bus (ex_state cl_state.ISHTP_CL_INITIALIZING none) (some ex_dev)
        { raw := List.replicate 16 0 }).ret = - ENOENT ∧
     (ishtp_pse_ioctl_cc ex_bus (ex_state cl_state.ISHTP_CL_INITIALIZING none) (some ex_dev)
        { raw := List.replicate 16 0 }).st.pse_dev
       = (ex_state cl_state.ISHTP_CL_INITIALIZING none).pse_dev) ∧
    (ishtp_pse_ioctl_cc ex_bus (ex_state cl_state.ISHTP_CL_INITIALIZING none) (some ex_dev)
        { raw := pse_smhi_guid }).st.calls
      = [bus_call.fw_cl_get_client ex_dev pse_smhi_guid,
         bus_call.cl_connect { state := cl_state.ISHTP_CL_CONNECTING, fw_client_id := 3,
                               dev := ex_dev, device := ex_cl_device }] :=
  have h := (connect_lookup_then_connecting ex_bus (ex_state cl_state.ISHTP_CL_INITIALIZING none)
      (ex_cl cl_state.ISHTP_CL_INITIALIZING) ex_dev { raw := List.replicate 16 0 }
      rfl rfl rfl (Or.inl rfl)).1 (by decide)
  ⟨⟨h.1, h.2.1⟩,
   ((connect_lookup_then_connecting ex_bus (ex_state cl_state.ISHTP_CL_INITIALIZING none)
      (ex_cl cl_state.ISHTP_CL_INITIALIZING) ex_dev { raw := pse_smhi_guid }
      rfl rfl rfl (Or.inl rfl)).2 ex_fw_client (by decide)).1⟩

/-- C9. For every driver state, every command number and every argument, an
ioctl by a caller for whom `capable(CAP_SYS_ADMIN)` is false returns -EPERM,
with the driver state (device context and log of bus calls) and the caller's
argument region as they were and no kernel duplicate made.  The result does
not depend on whether a client exists or on the command, so the privilege test
comes before the -ENODEV test and the command dispatch. -/
theorem ioctl_unprivileged_eperm (bus : ishtp_bus) (s : driver_state) (cmd : Nat)
    (data : user_ptr) :
    ishtp_pse_ioctl bus false s cmd data
      = { st := s, ret := - EPERM, uarg := data, cc_data := none } := by
  simp [ishtp_pse_ioctl]

/-! ## The -ENODEV guards -/

/-- C10. Read, write and the connect request return -ENODEV and hand back the
driver state untouched (device context and log of bus calls) whenever no
client exists (`pse_dev.cl` or `pse_dev.cl_device` is NULL) or the device is
not enabled; read and write do so as well whenever the client is not in the
connected state.  For the connect request this is stated for
`ishtp_pse_ioctl_cc` and, through `ishtp_pse_ioctl`, for a privileged caller
(with any command when no client exists, and with CONNECT_CLIENT and a readable
argument when the device is not enabled). -/
theorem no_device_guards (bus : ishtp_bus) (wait : driver_state → Int × driver_state)
    (s : driver_state) (f : file) (ubuf : user_ptr) (n off : Nat) (cmd : Nat)
    (ishtp_dev : Option ishtp_device) (data : ishtp_cc_data) :
    ((s.pse_dev.cl = none ∨ s.pse_dev.cl_device = none) →
      ishtp_pse_read wait s f ubuf n off
        = { st := s, ret := - ENODEV, offset := off, copied := none } ∧
      ishtp_pse_write bus s f ubuf n = (s, - ENODEV) ∧
      ishtp_pse_ioctl_cc bus s ishtp_dev data = { st := s, data := data, ret := - ENODEV } ∧
      ishtp_pse_ioctl bus true s cmd ubuf
        = { st := s, ret := - ENODEV, uarg := ubuf, cc_data := none }) ∧
    (∀ cl, s.pse_dev.cl = some cl →
      (cl.dev.dev_state ≠ ishtp_dev_state.ISHTP_DEV_ENABLED ∨
        cl.state ≠ cl_state.ISHTP_CL_CONNECTED) →
      ishtp_pse_read wait s f ubuf n off
        = { st := s, ret := - ENODEV, offset := off, copied := none } ∧
      ishtp_pse_write bus s f ubuf n = (s, - ENODEV)) ∧
    ((ishtp_dev = none ∨
        ∃ d, ishtp_dev = some d ∧ d.dev_state ≠ ishtp_dev_state.ISHTP_DEV_ENABLED) →
      ishtp_pse_ioctl_cc bus s ishtp_dev data = { st := s, data := data, ret := - ENODEV }) ∧
    (∀ cl, s.pse_dev.cl = some cl →
      cl.dev.dev_state ≠ ishtp_dev_state.ISHTP_DEV_ENABLED → ubuf.fault = none →
      (ishtp_pse_ioctl bus true s IOCTL_ISHTP_CONNECT_CLIENT ubuf).ret = - ENODEV ∧
      (ishtp_pse_ioctl bus true s IOCTL_ISHTP_CONNECT_CLIENT ubuf).st = s) := by
  refine ⟨fun h => ?_, fun cl hcl h => ?_, fun h => ?_, fun cl hcl hen hf => ?_⟩
  · cases hcl : s.pse_dev.cl with
    | none => simp [ishtp_pse_read, ishtp_pse_write, ishtp_pse_ioctl_cc, ishtp_pse_ioctl, hcl]
    | some cl =>
      have hd : s.pse_dev.cl_device = none := by
        rcases h with h | h
        · rw [hcl] at h; cases h
        · exact h
      have halloc : CHECK_ISHTP_ALLOC s.pse_dev = true := by
        simp [CHECK_ISHTP_ALLOC, hd]
      simp [ishtp_pse_read, ishtp_pse_write, ishtp_pse_ioctl_cc, ishtp_pse_ioctl, hcl, halloc]
  · have halive : CHECK_ISHTP_CONNECTION_ALIVE cl = true := by
      rcases h with h | h <;> simp [CHECK_ISHTP_CONNECTION_ALIVE, h]
    by_cases halloc : CHECK_ISHTP_ALLOC s.pse_dev = true <;>
      simp [ishtp_pse_read, ishtp_pse_write, hcl, halloc, halive]
  · cases hcl : s.pse_dev.cl with
    | none => simp [ishtp_pse_ioctl_cc, hcl]
    | some cl =>
      by_cases halloc : CHECK_ISHTP_ALLOC s.pse_dev = true
      · simp [ishtp_pse_ioctl_cc, hcl, halloc]
      · rcases h with h | ⟨d, hd, hne⟩
        · simp [ishtp_pse_ioctl_cc, hcl, halloc, h]
        · simp [ishtp_pse_ioctl_cc, hcl, halloc, hd, hne]
  · have hdup : memdup_user ubuf 16 = .ok (ubuf.bytes.take 16) := by simp [memdup_user, hf]
    by_cases halloc : CHECK_ISHTP_ALLOC s.pse_dev = true
    · simp [ishtp_pse_ioctl, hcl, halloc]
    · simp [ishtp_pse_ioctl, hcl, halloc, hdup, ishtp_pse_ioctl_cc, hen, ENODEV]

/-- C10, exercised: with no client, and with a client that is allocated but not
connected, a read returns -ENODEV and leaves the driver state as it was; on a
disabled device a privileged connect ioctl returns -ENODEV. -/
theorem no_device_guards_witness :
    (ishtp_pse_read wait_times_out
        { pse_dev := { cl := none, cl_device := some ex_cl_device,
                       pse_rb := { wait_exception := false, rb := none } },
          calls := [] } ex_file (ex_ubuf []) 4 0).ret = - ENODEV ∧
    (ishtp_pse_write ex_bus (ex_state cl_state.ISHTP_CL_INITIALIZING none) ex_file
        (ex_ubuf [1, 2]) 2) = (ex_state cl_state.ISHTP_CL_INITIALIZING none, - ENODEV) ∧
    (ishtp_pse_ioctl ex_bus true
        { pse_dev := { cl := some { state := cl_state.ISHTP_CL_INITIALIZING, fw_client_id := 0,
                                    dev := { dev_state := ishtp_dev_state.ISHTP_DEV_RESETTING },
                                    device := ex_cl_device },
                       cl_device := some ex_cl_device,
                       pse_rb := { wait_exception := false, rb := none } },
          calls := [] } IOCTL_ISHTP_CONNECT_CLIENT (ex_ubuf pse_smhi_guid)).ret = - ENODEV :=
  ⟨congrArg read_result.ret
      (((no_device_guards ex_bus wait_times_out
        { pse_dev := { cl := none, cl_device := some ex_cl_device,
                       pse_rb := { wait_exception := false, rb := none } },
          calls := [] } ex_file (ex_ubuf []) 4 0 0 none { raw := [] }).1 (Or.inl rfl)).1),
   ((no_device_guards ex_bus wait_times_out (ex_state cl_state.ISHTP_CL_INITIALIZING none)
      ex_file (ex_ubuf [1, 2]) 2 0 0 none { raw := [] }).2.1
      (ex_cl cl_state.ISHTP_CL_INITIALIZING) rfl (Or.inr (by decide))).2,
   ((no_device_guards ex_bus wait_times_out
      { pse_dev := { cl := some { state := cl_state.ISHTP_CL_INITIALIZING, fw_client_id := 0,
                                  dev := { dev_state := ishtp_dev_state.ISHTP_DEV_RESETTING },
                                  device := ex_cl_device },
                     cl_device := some ex_cl_device,
                     pse_rb := { wait_exception := false, rb := none } },
        calls := [] } ex_file (ex_ubuf pse_smhi_guid) 0 0 0 none { raw := [] }).2.2.2
      { state := cl_state.ISHTP_CL_INITIALIZING, fw_client_id := 0,
        dev := { dev_state := ishtp_dev_state.ISHTP_DEV_RESETTING },
        device := ex_cl_device } rfl (by decide) rfl).1⟩

/-! ## Read: the wait -/

/-- With a live connection, a blocking-mode file and an empty slot,
`ishtp_pse_read` lowers the cancellation flag, waits, and goes on from the
state it finds on waking. -/
theorem read_empty_eq (wait : driver_state → Int × driver_state) (s : driver_state)
    (cl : ishtp_cl) (f : file) (ubuf : user_ptr) (n off : Nat)
    (hcl : s.pse_dev.cl = some cl) (hdev : s.pse_dev.cl_device.isSome = true)
    (hen : cl.dev.dev_state = ishtp_dev_state.ISHTP_DEV_ENABLED)
    (hst : cl.state = cl_state.ISHTP_CL_CONNECTED)
    (hnb : f.nonblock = false) (hrb : s.pse_dev.pse_rb.rb = none) :
    ishtp_pse_read wait s f ubuf n off =
      if (wait (s.set_wait_exception false)).1 < 1 then
        { st := (wait (s.set_wait_exception false)).2, ret := - ERESTARTSYS, offset := off,
          copied := none }
      else
        match (wait (s.set_wait_exception false)).2.pse_dev.cl with
        | none => { st := (wait (s.set_wait_exception false)).2, ret := - ENODEV,
                    offset := off, copied := none }
        | some cl1 =>
          if CHECK_ISHTP_ALLOC (wait (s.set_wait_exception false)).2.pse_dev then
            { st := (wait (s.set_wait_exception false)).2, ret := - ENODEV, offset := off,
              copied := none }
          else if CHECK_ISHTP_CONNECTION_ALIVE cl1 then
            { st := (wait (s.set_wait_exception false)).2, ret := - ENODEV, offset := off,
              copied := none }
          else
            match (wait (s.set_wait_exception false)).2.pse_dev.pse_rb.rb with
            | none => { st := (wait (s.set_wait_exception false)).2, ret := - EIO,
                        offset := off, copied := none }
            | some rb =>
              ishtp_pse_read_locked (wait (s.set_wait_exception false)).2 rb ubuf n off := by
  have halloc : CHECK_ISHTP_ALLOC s.pse_dev = false := by
    simp [CHECK_ISHTP_ALLOC, hcl, hdev]
  have halive : CHECK_ISHTP_CONNECTION_ALIVE cl = false := by
    simp [CHECK_ISHTP_CONNECTION_ALIVE, hen, hst]
  simp only [ishtp_pse_read, hcl, halloc, halive, hnb, hrb]
  rfl

/-- C11. On a live connection (blocking-mode file) whose slot is empty, when
the bounded wait of `WAIT_FOR_READ_MS` expires with nothing having happened
(`wait_event_interruptible_timeout` returns 0), the read fails with
-ERESTARTSYS, the code the driver returns for an expired wait (the spec's
Timeout), copies no byte to the caller and keeps the file offset; and when
nothing at all happened during the wait the driver state is the one the reader
left, with the cancellation flag lowered. -/
theorem read_wait_expired (wait : driver_state → Int × driver_state) (s : driver_state)
    (cl : ishtp_cl) (f : file) (ubuf : user_ptr) (n off : Nat)
    (hcl : s.pse_dev.cl = some cl) (hdev : s.pse_dev.cl_device.isSome = true)
    (hen : cl.dev.dev_state = ishtp_dev_state.ISHTP_DEV_ENABLED)
    (hst : cl.state = cl_state.ISHTP_CL_CONNECTED)
    (hnb : f.nonblock = false) (hrb : s.pse_dev.pse_rb.rb = none) :
    ((wait (s.set_wait_exception false)).1 = 0 →
      ishtp_pse_read wait s f ubuf n off =
        { st := (wait (s.set_wait_exception false)).2, ret := - ERESTARTSYS, offset := off,
          copied := none }) ∧
    ishtp_pse_read wait_times_out s f ubuf n off =
      { st := s.set_wait_exception false, ret := - ERESTARTSYS, offset := off,
        copied := none } := by
  refine ⟨fun hw => ?_, ?_⟩
  · rw [read_empty_eq wait s cl f ubuf n off hcl hdev hen hst hnb hrb, if_pos (by omega)]
  · rw [read_empty_eq wait_times_out s cl f ubuf n off hcl hdev hen hst hnb hrb]
    simp [wait_times_out]

/-- C11, exercised: a 6-byte read on a connected client with an empty slot
and no arrival returns -ERESTARTSYS and copies nothing. -/
theorem read_wait_expired_witness :
    (ishtp_pse_read wait_times_out (ex_state cl_state.ISHTP_CL_CONNECTED none) ex_file
        (ex_ubuf []) 6 0).ret = - ERESTARTSYS ∧
    (ishtp_pse_read wait_times_out (ex_state cl_state.ISHTP_CL_CONNECTED none) ex_file
        (ex_ubuf []) 6 0).copied = none :=
  have h := (read_wait_expired wait_times_out (ex_state cl_state.ISHTP_CL_CONNECTED none)
    (ex_cl cl_state.ISHTP_CL_CONNECTED) ex_file (ex_ubuf []) 6 0 rfl rfl rfl rfl (by decide)
    rfl).1 rfl
  ⟨congrArg read_result.ret h, congrArg read_result.copied h⟩

/-- The argument test of the locked part of a read: a zero length or an
offset beyond the received length is refused with -EMSGSIZE. -/
theorem read_locked_bad_args (s : driver_state) (rb : ishtp_cl_rb) (ubuf : user_ptr)
    (n off : Nat) (h : n = 0 ∨ rb.buf_idx < off) :
    ishtp_pse_read_locked s rb ubuf n off =
      { st := s, ret := - EMSGSIZE, offset := off, copied := none } := by
  have h1 : n = 0 ∨ ubuf.addr = 0 ∨ rb.buf_idx < off := by
    rcases h with h | h
    · exact Or.inl h
    · exact Or.inr (Or.inr h)
  simp [ishtp_pse_read_locked, h1]

/-- C12, refuted as stated: on a live connection with an empty slot and no
arrival, a read with requested length 0 does not fail with an invalid-argument
code (-EMSGSIZE or -EINVAL) but, after the wait, with -ERESTARTSYS; so does a
read of 4 bytes with offset 9. -/
theorem read_zero_length_empty_slot_times_out :
    (ishtp_pse_read wait_times_out (ex_state cl_state.ISHTP_CL_CONNECTED none) ex_file
        (ex_ubuf []) 0 0).ret = - ERESTARTSYS ∧
    (ishtp_pse_read wait_times_out (ex_state cl_state.ISHTP_CL_CONNECTED none) ex_file
        (ex_ubuf []) 0 0).ret ≠ - EMSGSIZE ∧
    (ishtp_pse_read wait_times_out (ex_state cl_state.ISHTP_CL_CONNECTED none) ex_file
        (ex_ubuf []) 0 0).ret ≠ - EINVAL ∧
    (ishtp_pse_read wait_times_out (ex_state cl_state.ISHTP_CL_CONNECTED none) ex_file
        (ex_ubuf []) 4 9).ret = - ERESTARTSYS := by
  decide

/-- C12, amended: on a live connection (blocking-mode file), a read with
requested length 0, or with a resume offset greater than the length of the
message in the slot, fails with -EMSGSIZE, copies nothing and changes nothing,
once a message is in the slot: at once when one is pending at the time the read
is issued, and, when the slot is empty at that time, after the wait if the
reader wakes to a live connection with a message in the slot. -/
theorem read_bad_args_once_message_in_slot (wait : driver_state → Int × driver_state)
    (s : driver_state) (cl : ishtp_cl) (f : file) (ubuf : user_ptr) (n off : Nat)
    (hcl : s.pse_dev.cl = some cl) (hdev : s.pse_dev.cl_device.isSome = true)
    (hen : cl.dev.dev_state = ishtp_dev_state.ISHTP_DEV_ENABLED)
    (hst : cl.state = cl_state.ISHTP_CL_CONNECTED)
    (hnb : f.nonblock = false) :
    (∀ rb, s.pse_dev.pse_rb.rb = some rb → (n = 0 ∨ rb.buf_idx < off) →
      ishtp_pse_read wait s f ubuf n off =
        { st := s, ret := - EMSGSIZE, offset := off, copied := none }) ∧
    (∀ cl1 rb, s.pse_dev.pse_rb.rb = none →
      1 ≤ (wait (s.set_wait_exception false)).1 →
      (wait (s.set_wait_exception false)).2.pse_dev.cl = some cl1 →
      (wait (s.set_wait_exception false)).2.pse_dev.cl_device.isSome = true →
      cl1.dev.dev_state = ishtp_dev_state.ISHTP_DEV_ENABLED →
      cl1.state = cl_state.ISHTP_CL_CONNECTED →
      (wait (s.set_wait_exception false)).2.pse_dev.pse_rb.rb = some rb →
      (n = 0 ∨ rb.buf_idx < off) →
      ishtp_pse_read wait s f ubuf n off =
        { st := (wait (s.set_wait_exception false)).2, ret := - EMSGSIZE, offset := off,
          copied := none }) := by
  refine ⟨fun rb hrb h => ?_, fun cl1 rb hrb hw hcl1 hdev1 hen1 hst1 hrb1 h => ?_⟩
  · rw [read_occupied_eq wait s cl rb f ubuf n off hcl hdev hen hst hnb hrb,
      read_locked_bad_args s rb ubuf n off h]
  · have halloc : CHECK_ISHTP_ALLOC (wait (s.set_wait_exception false)).2.pse_dev = false := by
      simp [CHECK_ISHTP_ALLOC, hcl1, hdev1]
    have halive : CHECK_ISHTP_CONNECTION_ALIVE cl1 = false := by
      simp [CHECK_ISHTP_CONNECTION_ALIVE, hen1, hst1]
    rw [read_empty_eq wait s cl f ubuf n off hcl hdev hen hst hnb hrb, if_neg (by omega)]
    simp only [hcl1, halloc, halive, hrb1]
    exact read_locked_bad_args _ rb ubuf n off h

/-- C12 amended, exercised: with a 4-byte message pending a read of length 0
returns -EMSGSIZE, and so does a read of 4 bytes at offset 9 that finds the
slot empty and wakes to the arrival of a 6-byte message. -/
theorem read_bad_args_once_message_in_slot_witness :
    (ishtp_pse_read wait_times_out
        (ex_state cl_state.ISHTP_CL_CONNECTED (some { data := [1, 2, 3, 4], buf_idx := 4 }))
        ex_file (ex_ubuf []) 0 0).ret = - EMSGSIZE ∧
    (ishtp_pse_read (wait_arrival ex_bus) (ex_state cl_state.ISHTP_CL_CONNECTED none)
        ex_file (ex_ubuf []) 4 9).ret = - EMSGSIZE :=
  ⟨congrArg read_result.ret
      ((read_bad_args_once_message_in_slot wait_times_out
        (ex_state cl_state.ISHTP_CL_CONNECTED (some { data := [1, 2, 3, 4], buf_idx := 4 }))
        (ex_cl cl_state.ISHTP_CL_CONNECTED) ex_file (ex_ubuf []) 0 0 rfl rfl rfl rfl
        (by decide)).1 { data := [1, 2, 3, 4], buf_idx := 4 } rfl (Or.inl rfl)),
   congrArg read_result.ret
      ((read_bad_args_once_message_in_slot (wait_arrival ex_bus)
        (ex_state cl_state.ISHTP_CL_CONNECTED none)
        (ex_cl cl_state.ISHTP_CL_CONNECTED) ex_file (ex_ubuf []) 4 9 rfl rfl rfl rfl
        (by decide)).2 (ex_cl cl_state.ISHTP_CL_CONNECTED)
        { data := [1, 0, 0, 7, 0, 0], buf_idx := 6 } rfl (by decide) rfl rfl rfl rfl rfl
        (Or.inr (by decide)))⟩

/-! ## Close and reset recovery against a blocked read -/

/-- Reset recovery never touches the receive slot or the probed bus client. -/
theorem reset_handler_keeps_slot (bus : ishtp_bus) (s s1 : driver_state)
    (h : ishtp_cl_reset_handler bus s = some s1) :
    s1.pse_dev.pse_rb.rb = s.pse_dev.pse_rb.rb ∧
    s1.pse_dev.cl_device = s.pse_dev.cl_device := by
  cases hd : s.pse_dev.cl_device with
  | none => simp [ishtp_cl_reset_handler, hd] at h
  | some d =>
    cases hi : d.ishtp_dev with
    | none =>
      simp [ishtp_cl_reset_handler, hd, hi] at h
      subst h
      exact ⟨rfl, hd.symm ▸ rfl⟩
    | some idev =>
      have hflag : (s.set_wait_exception true).pse_dev.cl = s.pse_dev.cl := rfl
      cases hc : s.pse_dev.cl with
      | none =>
        simp [ishtp_cl_reset_handler, hd, hi, hflag, hc] at h
        subst h
        simp [driver_state.log, driver_state.set_wait_exception, hd]
      | some old =>
        cases ha : bus.ishtp_cl_allocate d with
        | none =>
          simp [ishtp_cl_reset_handler, hd, hi, hflag, hc, ha] at h
          subst h
          simp [driver_state.log, driver_state.set_cl, driver_state.set_wait_exception, hd]
        | some cl0 =>
          by_cases he : cl0.dev.dev_state = ishtp_dev_state.ISHTP_DEV_ENABLED
          · by_cases hl : (bus.ishtp_cl_link cl0).1 = 0
            · cases hf : bus.ishtp_fw_cl_get_client idev d.fw_client.props.protocol_name with
              | none =>
                simp [ishtp_cl_reset_handler, hd, hi, hflag, hc, ha, he, hl, hf] at h
                subst h
                simp [reset_unlink_failed, driver_state.log, driver_state.set_cl,
                  driver_state.set_wait_exception, hd]
              | some fw =>
                by_cases hcn : (bus.ishtp_cl_connect
                    { (bus.ishtp_cl_link cl0).2 with
                      fw_client_id := fw.client_id,
                      state := cl_state.ISHTP_CL_CONNECTING }).1 = 0 <;>
                  (simp [ishtp_cl_reset_handler, hd, hi, hflag, hc, ha, he, hl, hf, hcn] at h
                   subst h
                   simp [reset_unlink_failed, driver_state.log, driver_state.set_cl,
                     driver_state.set_wait_exception, hd])
            · simp [ishtp_cl_reset_handler, hd, hi, hflag, hc, ha, he, hl] at h
              subst h
              simp [reset_unlink_failed, driver_state.log, driver_state.set_cl,
                driver_state.set_wait_exception, hd]
          · simp [ishtp_cl_reset_handler, hd, hi, hflag, hc, ha, he] at h
            subst h
            simp [reset_unlink_failed, driver_state.log, driver_state.set_cl,
              driver_state.set_wait_exception, hd]

/-- A reader that blocked on an empty slot of a live connection and wakes
(the wait returns at least 1) to a state whose slot is still empty copies
nothing, keeps the offset, and returns -ENODEV unless the state it finds has a
client that is connected on an enabled device, in which case it returns -EIO. -/
theorem read_woken_empty (wait : driver_state → Int × driver_state) (s : driver_state)
    (cl : ishtp_cl) (f : file) (ubuf : user_ptr) (n off : Nat)
    (hcl : s.pse_dev.cl = some cl) (hdev : s.pse_dev.cl_device.isSome = true)
    (hen : cl.dev.dev_state = ishtp_dev_state.ISHTP_DEV_ENABLED)
    (hst : cl.state = cl_state.ISHTP_CL_CONNECTED)
    (hnb : f.nonblock = false) (hrb : s.pse_dev.pse_rb.rb = none)
    (hw : 1 ≤ (wait (s.set_wait_exception false)).1)
    (hrb1 : (wait (s.set_wait_exception false)).2.pse_dev.pse_rb.rb = none) :
    (ishtp_pse_read wait s f ubuf n off).st = (wait (s.set_wait_exception false)).2 ∧
    (ishtp_pse_read wait s f ubuf n off).copied = none ∧
    (ishtp_pse_read wait s f ubuf n off).offset = off ∧
    ((wait (s.set_wait_exception false)).2.pse_dev.cl = none →
      (ishtp_pse_read wait s f ubuf n off).ret = - ENODEV) ∧
    (∀ cl1, (wait (s.set_wait_exception false)).2.pse_dev.cl = some cl1 →
      (cl1.dev.dev_state ≠ ishtp_dev_state.ISHTP_DEV_ENABLED ∨
        cl1.state ≠ cl_state.ISHTP_CL_CONNECTED) →
      (ishtp_pse_read wait s f ubuf n off).ret = - ENODEV) ∧
    (∀ cl1, (wait (s.set_wait_exception false)).2.pse_dev.cl = some cl1 →
      (wait (s.set_wait_exception false)).2.pse_dev.cl_device.isSome = true →
      cl1.dev.dev_state = ishtp_dev_state.ISHTP_DEV_ENABLED →
      cl1.state = cl_state.ISHTP_CL_CONNECTED →
      (ishtp_pse_read wait s f ubuf n off).ret = - EIO) := by
  rw [read_empty_eq wait s cl f ubuf n off hcl hdev hen hst hnb hrb, if_neg (by omega)]
  generalize (wait (s.set_wait_exception false)).2 = s1 at hrb1 ⊢
  cases hc1 : s1.pse_dev.cl with
  | none => simp
  | some c =>
    cases ha : CHECK_ISHTP_ALLOC s1.pse_dev with
    | true =>
      have hd : s1.pse_dev.cl_device.isSome = false := by
        simpa [CHECK_ISHTP_ALLOC, hc1] using ha
      simp [ha, hd]
    | false =>
      cases hl : CHECK_ISHTP_CONNECTION_ALIVE c with
      | true =>
        have hbad : ¬ c.dev.dev_state = ishtp_dev_state.ISHTP_DEV_ENABLED ∨
            ¬ c.state = cl_state.ISHTP_CL_CONNECTED := by
          simpa [CHECK_ISHTP_CONNECTION_ALIVE] using hl
        simp [hl]
        intro _ he hs
        rcases hbad with h | h
        · exact absurd he h
        · exact absurd hs h
      | false =>
        have hgood : c.dev.dev_state = ishtp_dev_state.ISHTP_DEV_ENABLED ∧
            c.state = cl_state.ISHTP_CL_CONNECTED := by
          simpa [CHECK_ISHTP_CONNECTION_ALIVE] using hl
        simp [hl, hrb1, hgood.1, hgood.2]

/-- C13, the code at the failing input.  A reader is blocked on the empty slot
of a connected client and a close on the same device starts.  The close raises
the cancellation flag and wakes the reader before it tears anything down; a
reader that re-validates at that moment finds the client still connected and
the slot empty and returns -EIO, with the flag raised and nothing copied.  Only
a reader that re-validates after the close has finished returns -ENODEV. -/
theorem blocked_read_woken_by_close :
    (ishtp_pse_read wait_close_started (ex_state cl_state.ISHTP_CL_CONNECTED none) ex_file
        (ex_ubuf []) 6 0).ret = - EIO ∧
    (ishtp_pse_read wait_close_started (ex_state cl_state.ISHTP_CL_CONNECTED none) ex_file
        (ex_ubuf []) 6 0).st.pse_dev.pse_rb.wait_exception = true ∧
    (ishtp_pse_read wait_close_started (ex_state cl_state.ISHTP_CL_CONNECTED none) ex_file
        (ex_ubuf []) 6 0).copied = none ∧
    (ishtp_pse_read (wait_close_finished ex_bus) (ex_state cl_state.ISHTP_CL_CONNECTED none)
        ex_file (ex_ubuf []) 6 0).ret = - ENODEV ∧
    (ishtp_pse_read (wait_close_finished ex_bus) (ex_state cl_state.ISHTP_CL_CONNECTED none)
        ex_file (ex_ubuf []) 6 0).st.pse_dev.pse_rb.wait_exception = true := by
  decide

/-- C14, refuted as stated: a reader is blocked on the empty slot of a
connected client, reset recovery runs to completion and succeeds (fresh client
allocated, linked, found and connected), and the woken reader returns -EIO,
not -ENODEV. -/
theorem blocked_read_after_successful_reset :
    ((ishtp_cl_reset_handler ex_bus
        ((ex_state cl_state.ISHTP_CL_CONNECTED none).set_wait_exception false)).map
        (fun t => t.pse_dev.cl)) =
      some (some { state := cl_state.ISHTP_CL_CONNECTED, fw_client_id := 3, dev := ex_dev,
                   device := ex_cl_device }) ∧
    (ishtp_pse_read (wait_reset_finished ex_bus) (ex_state cl_state.ISHTP_CL_CONNECTED none)
        ex_file (ex_ubuf []) 6 0).ret = - EIO ∧
    (ishtp_pse_read (wait_reset_finished ex_bus) (ex_state cl_state.ISHTP_CL_CONNECTED none)
        ex_file (ex_ubuf []) 6 0).ret ≠ - ENODEV := by
  decide

/-- C14, amended: when reset recovery runs to completion while a read is
blocked on the empty slot of a live connection (blocking-mode file), the woken
read copies nothing and keeps the offset; it returns -ENODEV when recovery has
left no client, or a client that is not connected on an enabled device, and it
returns -EIO when recovery has left a fresh client that is connected on an
enabled device. -/
theorem blocked_read_after_reset (bus : ishtp_bus) (s s1 : driver_state) (cl : ishtp_cl)
    (f : file) (ubuf : user_ptr) (n off : Nat)
    (hcl : s.pse_dev.cl = some cl) (hdev : s.pse_dev.cl_device.isSome = true)
    (hen : cl.dev.dev_state = ishtp_dev_state.ISHTP_DEV_ENABLED)
    (hst : cl.state = cl_state.ISHTP_CL_CONNECTED)
    (hnb : f.nonblock = false) (hrb : s.pse_dev.pse_rb.rb = none)
    (hreset : ishtp_cl_reset_handler bus (s.set_wait_exception false) = some s1) :
    (ishtp_pse_read (wait_reset_finished bus) s f ubuf n off).st = s1 ∧
    (ishtp_pse_read (wait_reset_finished bus) s f ubuf n off).copied = none ∧
    (ishtp_pse_read (wait_reset_finished bus) s f ubuf n off).offset = off ∧
    (s1.pse_dev.cl = none →
      (ishtp_pse_read (wait_reset_finished bus) s f ubuf n off).ret = - ENODEV) ∧
    (∀ cl1, s1.pse_dev.cl = some cl1 →
      (cl1.dev.dev_state ≠ ishtp_dev_state.ISHTP_DEV_ENABLED ∨
        cl1.state ≠ cl_state.ISHTP_CL_CONNECTED) →
      (ishtp_pse_read (wait_reset_finished bus) s f ubuf n off).ret = - ENODEV) ∧
    (∀ cl1, s1.pse_dev.cl = some cl1 →
      cl1.dev.dev_state = ishtp_dev_state.ISHTP_DEV_ENABLED →
      cl1.state = cl_state.ISHTP_CL_CONNECTED →
      (ishtp_pse_read (wait_reset_finished bus) s f ubuf n off).ret = - EIO) := by
  have hw2 : (wait_reset_finished bus (s.set_wait_exception false)).2 = s1 := by
    simp [wait_reset_finished, hreset]
  have hw1 : 1 ≤ (wait_reset_finished bus (s.set_wait_exception false)).1 := by
    simp [wait_reset_finished]
  obtain ⟨hk1, hk2⟩ := reset_handler_keeps_slot bus (s.set_wait_exception false) s1 hreset
  have hrb1 : (wait_reset_finished bus (s.set_wait_exception false)).2.pse_dev.pse_rb.rb
      = none := by
    rw [hw2, hk1]
    exact hrb
  have hdev1 : s1.pse_dev.cl_device.isSome = true := by
    rw [hk2]
    exact hdev
  have h := read_woken_empty (wait_reset_finished bus) s cl f ubuf n off hcl hdev hen hst hnb
    hrb hw1 hrb1
  rw [hw2] at h
  exact ⟨h.1, h.2.1, h.2.2.1, h.2.2.2.1, h.2.2.2.2.1,
    fun cl1 h1 he1 hs1 => h.2.2.2.2.2 cl1 h1 hdev1 he1 hs1⟩

/-- C14 amended, exercised: after a successful recovery the woken read
returns -EIO and copies nothing. -/
theorem blocked_read_after_reset_witness :
    (ishtp_pse_read (wait_reset_finished ex_bus) (ex_state cl_state.ISHTP_CL_CONNECTED none)
        ex_file (ex_ubuf []) 6 0).ret = - EIO ∧
    (ishtp_pse_read (wait_reset_finished ex_bus) (ex_state cl_state.ISHTP_CL_CONNECTED none)
        ex_file (ex_ubuf []) 6 0).copied = none :=
  have h := blocked_read_after_reset ex_bus (ex_state cl_state.ISHTP_CL_CONNECTED none)
    ((ishtp_cl_reset_handler ex_bus
      ((ex_state cl_state.ISHTP_CL_CONNECTED none).set_wait_exception false)).getD
      (ex_state cl_state.ISHTP_CL_CONNECTED none))
    (ex_cl cl_state.ISHTP_CL_CONNECTED) ex_file (ex_ubuf []) 6 0 rfl rfl rfl rfl (by decide) rfl
    (by decide)
  ⟨h.2.2.2.2.2 { state := cl_state.ISHTP_CL_CONNECTED, fw_client_id := 3, dev := ex_dev,
                 device := ex_cl_device } (by decide) rfl rfl,
   h.2.1⟩

/-! ## Reset recovery -/

/-- With no client, a read, a write and a privileged connect ioctl each return
-ENODEV and leave the driver state as it was. -/
theorem run_call_no_client (bus : ishtp_bus) (s : driver_state) (c : driver_call)
    (h : s.pse_dev.cl = none) : run_call bus s c = (s, - ENODEV) := by
  cases c <;> simp [run_call, ishtp_pse_read, ishtp_pse_write, ishtp_pse_ioctl, h]

/-- With no client, every request of a sequence of reads, writes and privileged
connect ioctls returns -ENODEV, and the driver state stays as it was. -/
theorem run_calls_no_client (bus : ishtp_bus) (cs : List driver_call) :
    ∀ s : driver_state, s.pse_dev.cl = none →
      run_calls bus s cs = (s, List.replicate cs.length (- ENODEV)) := by
  induction cs with
  | nil => intro s _; rfl
  | cons c cs ih =>
    intro s h
    simp only [run_calls, run_call_no_client bus s c h, ih s h, List.length_cons,
      List.replicate_succ]

/-- C16. When reset recovery runs on an existing client and any of its steps
fails (the allocation of the fresh client, the test that its device is
enabled, the link, the firmware-client lookup, or the connect), the handler
finishes with `pse_dev.cl` cleared; from that state every request of every
sequence of reads, writes and privileged connect ioctls returns -ENODEV and
leaves the state as it was, so nothing but a new open brings a client back. -/
theorem reset_failure_leaves_no_device (bus : ishtp_bus) (s : driver_state) (old : ishtp_cl)
    (d : ishtp_cl_device) (idev : ishtp_device)
    (hcl : s.pse_dev.cl = some old) (hd : s.pse_dev.cl_device = some d)
    (hi : d.ishtp_dev = some idev)
    (hfail : bus.ishtp_cl_allocate d = none ∨
      ∃ cl0, bus.ishtp_cl_allocate d = some cl0 ∧
        (cl0.dev.dev_state ≠ ishtp_dev_state.ISHTP_DEV_ENABLED ∨
         (bus.ishtp_cl_link cl0).1 ≠ 0 ∨
         bus.ishtp_fw_cl_get_client idev d.fw_client.props.protocol_name = none ∨
         ∃ fw, bus.ishtp_fw_cl_get_client idev d.fw_client.props.protocol_name = some fw ∧
           (bus.ishtp_cl_connect
              { (bus.ishtp_cl_link cl0).2 with
                fw_client_id := fw.client_id,
                state := cl_state.ISHTP_CL_CONNECTING }).1 ≠ 0)) :
    ∃ s1, ishtp_cl_reset_handler bus s = some s1 ∧ s1.pse_dev.cl = none ∧
      ∀ cs : List driver_call,
        run_calls bus s1 cs = (s1, List.replicate cs.length (- ENODEV)) := by
  have hflag : (s.set_wait_exception true).pse_dev.cl = s.pse_dev.cl := rfl
  have hcl1 : ∃ s1, ishtp_cl_reset_handler bus s = some s1 ∧ s1.pse_dev.cl = none := by
    cases ha : bus.ishtp_cl_allocate d with
    | none =>
      exact ⟨_, by simp [ishtp_cl_reset_handler, hd, hi, hflag, hcl, ha]; rfl, rfl⟩
    | some cl0 =>
      have hrest : cl0.dev.dev_state ≠ ishtp_dev_state.ISHTP_DEV_ENABLED ∨
          (bus.ishtp_cl_link cl0).1 ≠ 0 ∨
          bus.ishtp_fw_cl_get_client idev d.fw_client.props.protocol_name = none ∨
          ∃ fw, bus.ishtp_fw_cl_get_client idev d.fw_client.props.protocol_name = some fw ∧
            (bus.ishtp_cl_connect
                { (bus.ishtp_cl_link cl0).2 with
                  fw_client_id := fw.client_id,
                  state := cl_state.ISHTP_CL_CONNECTING }).1 ≠ 0 := by
        rcases hfail with h | ⟨c, hc, h⟩
        · rw [ha] at h; cases h
        · rw [ha] at hc; cases hc; exact h
      by_cases he : cl0.dev.dev_state = ishtp_dev_state.ISHTP_DEV_ENABLED
      · by_cases hl : (bus.ishtp_cl_link cl0).1 = 0
        · cases hf : bus.ishtp_fw_cl_get_client idev d.fw_client.props.protocol_name with
          | none =>
            exact ⟨_, by simp [ishtp_cl_reset_handler, hd, hi, hflag, hcl, ha, he, hl, hf]; rfl,
              rfl⟩
          | some fw =>
            have hcn : (bus.ishtp_cl_connect
                { (bus.ishtp_cl_link cl0).2 with
                  fw_client_id := fw.client_id,
                  state := cl_state.ISHTP_CL_CONNECTING }).1 ≠ 0 := by
              rcases hrest with h | h | h | ⟨fw2, h2, h3⟩
              · exact absurd he h
              · exact absurd hl h
              · rw [hf] at h; cases h
              · rw [hf] at h2; cases h2; exact h3
            exact ⟨_, by
              simp [ishtp_cl_reset_handler, hd, hi, hflag, hcl, ha, he, hl, hf, hcn]; rfl, rfl⟩
        · exact ⟨_, by simp [ishtp_cl_reset_handler, hd, hi, hflag, hcl, ha, he, hl]; rfl, rfl⟩
      · exact ⟨_, by simp [ishtp_cl_reset_handler, hd, hi, hflag, hcl, ha, he]; rfl, rfl⟩
  obtain ⟨s1, h1, h2⟩ := hcl1
  exact ⟨s1, h1, h2, fun cs => run_calls_no_client bus cs s1 h2⟩

/-- C16, exercised: recovery on a bus whose connect fails leaves no client,
and a read, a write and a privileged connect ioctl issued afterwards all
return -ENODEV. -/
theorem reset_failure_leaves_no_device_witness :
    ∃ s1, ishtp_cl_reset_handler ex_bus_no_connect (ex_state cl_state.ISHTP_CL_CONNECTED none)
        = some s1 ∧ s1.pse_dev.cl = none ∧
      (run_calls ex_bus_no_connect s1
        [driver_call.read wait_times_out ex_file (ex_ubuf []) 6 0,
         driver_call.write ex_file (ex_ubuf [1, 2]) 2,
         driver_call.ioctl_connect (ex_ubuf pse_smhi_guid)]).2
        = [- ENODEV, - ENODEV, - ENODEV] :=
  match reset_failure_leaves_no_device ex_bus_no_connect
      (ex_state cl_state.ISHTP_CL_CONNECTED none) (ex_cl cl_state.ISHTP_CL_CONNECTED)
      ex_cl_device ex_dev rfl rfl rfl
      (Or.inr ⟨{ state := cl_state.ISHTP_CL_INITIALIZING, fw_client_id := 0, dev := ex_dev,
                 device := ex_cl_device }, rfl,
        Or.inr (Or.inr (Or.inr ⟨ex_fw_client, by decide, by decide⟩))⟩) with
  | ⟨s1, h1, h2, h3⟩ =>
    ⟨s1, h1, h2, congrArg Prod.snd (h3
      [driver_call.read wait_times_out ex_file (ex_ubuf []) 6 0,
       driver_call.write ex_file (ex_ubuf [1, 2]) 2,
       driver_call.ioctl_connect (ex_ubuf pse_smhi_guid)])⟩

/-! ## Close -/

/-- The teardown of a close ends with `pse_dev.cl` cleared and the slot empty. -/
theorem release_teardown_clears (bus : ishtp_bus) (s : driver_state) (cl : ishtp_cl) :
    (ishtp_pse_release_teardown bus s cl).1.pse_dev.cl = none ∧
    (ishtp_pse_release_teardown bus s cl).1.pse_dev.pse_rb.rb = none := by
  unfold ishtp_pse_release_teardown
  dsimp only
  split <;> simp_all [driver_state.log, driver_state.set_cl, driver_state.set_rb]

/-- C15, the code at the failing input.  A message is pending on a connected
client when reset recovery runs and fails at the connect step: the handler
leaves no client and the message still in the slot.  A close invoked in that
state returns -ENODEV from its guard and leaves the slot occupied.  Whenever
the guard is passed, that is on every existing client, close does end with no
client and an empty slot. -/
theorem release_after_failed_reset_keeps_slot :
    (ishtp_cl_reset_handler ex_bus_no_connect
        (ex_state cl_state.ISHTP_CL_CONNECTED (some { data := [1, 0, 0, 7, 0, 0], buf_idx := 6 }))).map
        (fun t => (t.pse_dev.cl, t.pse_dev.pse_rb.rb))
      = some (none, some { data := [1, 0, 0, 7, 0, 0], buf_idx := 6 }) ∧
    (ishtp_cl_reset_handler ex_bus_no_connect
        (ex_state cl_state.ISHTP_CL_CONNECTED (some { data := [1, 0, 0, 7, 0, 0], buf_idx := 6 }))).map
        (fun t => (ishtp_pse_release ex_bus_no_connect t).2)
      = some (- ENODEV) ∧
    (ishtp_cl_reset_handler ex_bus_no_connect
        (ex_state cl_state.ISHTP_CL_CONNECTED (some { data := [1, 0, 0, 7, 0, 0], buf_idx := 6 }))).map
        (fun t => (ishtp_pse_release ex_bus_no_connect t).1.pse_dev.pse_rb.rb)
      = some (some { data := [1, 0, 0, 7, 0, 0], buf_idx := 6 }) ∧
    (∀ (bus : ishtp_bus) (s : driver_state) (cl : ishtp_cl),
      (ishtp_pse_release_teardown bus (ishtp_pse_release_cancel s) cl).1.pse_dev.cl = none ∧
      (ishtp_pse_release_teardown bus (ishtp_pse_release_cancel s) cl).1.pse_dev.pse_rb.rb
        = none) := by
  refine ⟨by decide, by decide, by decide, fun bus s cl => ?_⟩
  exact release_teardown_clears bus (ishtp_pse_release_cancel s) cl

/-- C17, the code at the failing input.  A 6-byte message is pending on a
connected client, of which a reader has consumed 2 bytes (cursor 2), when
reset recovery runs and succeeds.  The handler leaves the message in the slot;
a read issued after the reset on the fresh connection returns 4 and delivers
bytes 2 to 5 of the message received before the reset.  In general the handler
hands back the slot exactly as it found it. -/
theorem reset_keeps_stale_message :
    (ishtp_cl_reset_handler ex_bus
        (ex_state cl_state.ISHTP_CL_CONNECTED (some { data := [1, 0, 0, 7, 0, 0], buf_idx := 6 }))).map
        (fun t => t.pse_dev.pse_rb.rb)
      = some (some { data := [1, 0, 0, 7, 0, 0], buf_idx := 6 }) ∧
    (ishtp_cl_reset_handler ex_bus
        (ex_state cl_state.ISHTP_CL_CONNECTED (some { data := [1, 0, 0, 7, 0, 0], buf_idx := 6 }))).map
        (fun t => (ishtp_pse_read wait_times_out t ex_file (ex_ubuf []) 6 2).ret)
      = some 4 ∧
    (ishtp_cl_reset_handler ex_bus
        (ex_state cl_state.ISHTP_CL_CONNECTED (some { data := [1, 0, 0, 7, 0, 0], buf_idx := 6 }))).map
        (fun t => (ishtp_pse_read wait_times_out t ex_file (ex_ubuf []) 6 2).copied)
      = some (some [0, 7, 0, 0]) ∧
    (∀ (bus : ishtp_bus) (s : driver_state),
      (ishtp_cl_reset_handler bus s).map (fun t => t.pse_dev.pse_rb.rb)
        = (ishtp_cl_reset_handler bus s).map (fun _ => s.pse_dev.pse_rb.rb)) := by
  refine ⟨by decide, by decide, by decide, fun bus s => ?_⟩
  cases h : ishtp_cl_reset_handler bus s with
  | none => rfl
  | some s1 =>
    simp only [Option.map_some']
    rw [(reset_handler_keeps_slot bus s s1 h).1]

/-! ## Open: preconditions and success -/

/-- C18. In every driver state an open requesting non-blocking mode returns
-EINVAL, and a blocking-mode open when the bus client was never probed
(`pse_dev.cl_device` is NULL) returns -ENODEV; in both cases the driver state
is handed back exactly as it was, so the client is unchanged and nothing was
allocated or linked (the log of bus calls has not grown).  Otherwise, when the
allocation yields a client and the link returns 0, open returns 0 after exactly
one allocate and one link call, and the device context holds the freshly
allocated client as the link left it; that client is in
`ISHTP_CL_INITIALIZING` (Allocated) whenever the bus layer's link leaves it
so. -/
theorem open_preconditions_and_success (bus : ishtp_bus) (s : driver_state) (f : file) :
    (f.nonblock = true → ishtp_pse_open bus s f = (s, - EINVAL)) ∧
    (f.nonblock = false → s.pse_dev.cl_device = none →
      ishtp_pse_open bus s f = (s, - ENODEV)) ∧
    (∀ cl_device cl0, f.nonblock = false → s.pse_dev.cl_device = some cl_device →
      bus.ishtp_cl_allocate cl_device = some cl0 → (bus.ishtp_cl_link cl0).1 = 0 →
      (ishtp_pse_open bus s f).2 = 0 ∧
      (ishtp_pse_open bus s f).1.pse_dev.cl = some (bus.ishtp_cl_link cl0).2 ∧
      (ishtp_pse_open bus s f).1.calls
        = s.calls ++ [bus_call.cl_allocate cl_device, bus_call.cl_link cl0] ∧
      (ishtp_pse_open bus s f).1.pse_dev.cl_device = s.pse_dev.cl_device ∧
      (ishtp_pse_open bus s f).1.pse_dev.pse_rb = s.pse_dev.pse_rb ∧
      ((bus.ishtp_cl_link cl0).2.state = cl_state.ISHTP_CL_INITIALIZING →
        ∃ cl, (ishtp_pse_open bus s f).1.pse_dev.cl = some cl ∧
          cl.state = cl_state.ISHTP_CL_INITIALIZING)) := by
  refine ⟨fun hnb => ?_, fun hnb hd => ?_, fun cl_device cl0 hnb hd ha hl => ?_⟩
  · simp [ishtp_pse_open, hnb]
  · simp [ishtp_pse_open, hnb, hd]
  · have hopen : ishtp_pse_open bus s f =
        (((s.log (bus_call.cl_allocate cl_device)).set_cl (some (bus.ishtp_cl_link cl0).2)).log
          (bus_call.cl_link cl0), nonseekable_open) := by
      simp [ishtp_pse_open, hnb, hd, ha, hl]
    rw [hopen]
    refine ⟨rfl, rfl, ?_, rfl, rfl, fun hst => ⟨_, rfl, hst⟩⟩
    simp [driver_state.log, driver_state.set_cl]

/-- C18, exercised: a non-blocking open is refused with -EINVAL and leaves the
state alone; a blocking open on the probed bus client returns 0 and installs a
client in `ISHTP_CL_INITIALIZING`. -/
theorem open_preconditions_and_success_witness :
    ishtp_pse_open ex_bus (ex_state cl_state.ISHTP_CL_CONNECTED none) { f_flags := 2050 }
      = (ex_state cl_state.ISHTP_CL_CONNECTED none, - EINVAL) ∧
    (ishtp_pse_open ex_bus
        { pse_dev := { cl := none, cl_device := some ex_cl_device,
                       pse_rb := { wait_exception := false, rb := none } },
          calls := [] } ex_file).2 = 0 ∧
    (∃ cl, (ishtp_pse_open ex_bus
        { pse_dev := { cl := none, cl_device := some ex_cl_device,
                       pse_rb := { wait_exception := false, rb := none } },
          calls := [] } ex_file).1.pse_dev.cl = some cl ∧
      cl.state = cl_state.ISHTP_CL_INITIALIZING) :=
  have h := (open_preconditions_and_success ex_bus
    { pse_dev := { cl := none, cl_device := some ex_cl_device,
                   pse_rb := { wait_exception := false, rb := none } },
      calls := [] } ex_file).2.2 ex_cl_device
    { state := cl_state.ISHTP_CL_INITIALIZING, fw_client_id := 0, dev := ex_dev,
      device := ex_cl_device } (by decide) rfl rfl rfl
  ⟨(open_preconditions_and_success ex_bus (ex_state cl_state.ISHTP_CL_CONNECTED none)
      { f_flags := 2050 }).1 (by decide),
   h.1, h.2.2.2.2.2 rfl⟩

/-! ## The user-space client: framing -/

/-- C19. For every command id and every argument (taken as 16 bits), a command
sent without a body makes `pse_send_command` hand `write` exactly the
`sizeof(heci_header_t)` = 6 header bytes and no body byte; the header sent has
the command (as 8 bits), `is_response` 0, `has_next` 0, the argument and status
0; and `pse_read_response`, given those 6 bytes by its first read on a ready
descriptor, stores a header equal to the one sent, stores no body, consumes no
further read and returns 6, whether or not a body pointer was passed. -/
theorem header_only_round_trip (command data : Nat) (rest : List (Int × List Nat))
    (has_body : Bool) :
    pse_send_command command data none = (request_header command data none).bytes ∧
    (pse_send_command command data none).length = sizeof_heci_header_t ∧
    sizeof_heci_header_t = 6 ∧
    request_header command data none
      = { command := command % 256, is_response := 0, has_next := 0,
          argument := data % 65536, status := 0 } ∧
    pse_read_response true ((6, pse_send_command command data none) :: rest) has_body
      = { ret := 6, header := some (request_header command data none), body := none,
          rest := rest } := by
  have hsend : pse_send_command command data none = (request_header command data none).bytes := by
    simp [pse_send_command, heci_header_t.bytes, sizeof_heci_header_t]
  have hdec : heci_header_t.of_bytes (request_header command data none).bytes
      = request_header command data none := by
    simp only [heci_header_t.of_bytes, heci_header_t.bytes, request_header, List.getD_cons_zero,
      List.getD_cons_succ, Option.isSome_none]
    simp only [heci_header_t.mk.injEq]
    refine ⟨by omega, by simp, by simp, by omega, by simp⟩
  refine ⟨hsend, ?_, rfl, ?_, ?_⟩
  · rw [hsend]
    rfl
  · simp [request_header]
  · rw [hsend]
    have hn : (request_header command data none).has_next = 0 := by
      simp [request_header]
    simp [pse_read_response, sizeof_heci_header_t, hn, hdec]

/-- C20, the code at the failing input.  The response header (command 4,
`is_response` 1, `has_next` 1, status 0) is read in full and the read of the
233-byte body then yields only 100 bytes.  `pse_read_response` stores no body
and returns 100, which is neither negative nor the envelope length 239;
`pse_command_checked` tests only for a negative value, goes on to the status
byte 0 and returns `has_next`, that is 1, with `out_body` not populated.  When
the body read fails outright (-1) it does return -1. -/
theorem short_body_reported_as_populated :
    (pse_read_response true
        [(6, [4, 1, 1, 0x34, 0x12, 0]), (100, List.replicate 100 0)] true).ret = 100 ∧
    (pse_read_response true
        [(6, [4, 1, 1, 0x34, 0x12, 0]), (100, List.replicate 100 0)] true).body = none ∧
    (pse_command_checked true
        [(6, [4, 1, 1, 0x34, 0x12, 0]), (100, List.replicate 100 0)] 4 0x1234 none true).ret = 1 ∧
    (pse_command_checked true
        [(6, [4, 1, 1, 0x34, 0x12, 0]), (100, List.replicate 100 0)] 4 0x1234 none true).out_body
      = none ∧
    (pse_command_checked true
        [(6, [4, 1, 1, 0x34, 0x12, 0]), (-1, [])] 4 0x1234 none true).ret = -1 := by
  decide

/-! ## The 16-bit sub-commands -/

/-- C26. Every sub-command struct fits 16 bits (its packed value is below
65536), and for in-range members (CAN op < 8, dev < 8, arg < 1024; IO op < 256,
dev < 16, num < 16; PWM, I2C, QEP op < 256, dev < 256; UART direction < 256,
device < 256) reading the struct back from the 16-bit argument returns the same
members, so distinct member tuples give distinct arguments.  A CAN argument is
stored modulo 1024 whatever its size, and the baud-rate arguments 500 and 1000
passed by `can_open` come back unchanged. -/
theorem sub_command_round_trip :
    (∀ c : can_command_t, c.to_uint16 < 65536 ∧
      (can_command_t.of_uint16 c.to_uint16).arg = c.arg % 1024 ∧
      (c.op < 8 → c.dev < 8 → c.arg < 1024 → can_command_t.of_uint16 c.to_uint16 = c)) ∧
    (∀ c : io_command_t, c.to_uint16 < 65536 ∧
      (c.op < 256 → c.dev < 16 → c.num < 16 → io_command_t.of_uint16 c.to_uint16 = c)) ∧
    (∀ c : pwm_command_t, c.to_uint16 < 65536 ∧
      (c.op < 256 → c.dev < 256 → pwm_command_t.of_uint16 c.to_uint16 = c)) ∧
    (∀ c : i2c_command_t, c.to_uint16 < 65536 ∧
      (c.op < 256 → c.dev < 256 → i2c_command_t.of_uint16 c.to_uint16 = c)) ∧
    (∀ c : qep_command_t, c.to_uint16 < 65536 ∧
      (c.op < 256 → c.dev < 256 → qep_command_t.of_uint16 c.to_uint16 = c)) ∧
    (∀ c : uart_command_t, c.to_uint16 < 65536 ∧
      (c.read_write < 256 → c.device < 256 → uart_command_t.of_uint16 c.to_uint16 = c)) ∧
    (∀ c c' : can_command_t, c.op < 8 → c.dev < 8 → c.arg < 1024 →
      c'.op < 8 → c'.dev < 8 → c'.arg < 1024 → c.to_uint16 = c'.to_uint16 → c = c') ∧
    (∀ c c' : io_command_t, c.op < 256 → c.dev < 16 → c.num < 16 →
      c'.op < 256 → c'.dev < 16 → c'.num < 16 → c.to_uint16 = c'.to_uint16 → c = c') ∧
    (∀ device, device < 8 →
      (can_command_t.of_uint16 (can_open_argument device 500)).arg = 500 ∧
      (can_command_t.of_uint16 (can_open_argument device 1000)).arg = 1000) := by
  refine ⟨fun c => ⟨?_, ?_, fun h1 h2 h3 => ?_⟩, fun c => ⟨?_, fun h1 h2 h3 => ?_⟩,
    fun c => ⟨?_, fun h1 h2 => ?_⟩, fun c => ⟨?_, fun h1 h2 => ?_⟩,
    fun c => ⟨?_, fun h1 h2 => ?_⟩, fun c => ⟨?_, fun h1 h2 => ?_⟩,
    fun c c' h1 h2 h3 h4 h5 h6 he => ?_, fun c c' h1 h2 h3 h4 h5 h6 he => ?_,
    fun device hd => ?_⟩
  · simp only [can_command_t.to_uint16]; omega
  · simp only [can_command_t.to_uint16, can_command_t.of_uint16]; omega
  · cases c
    simp only [can_command_t.to_uint16, can_command_t.of_uint16, can_command_t.mk.injEq] at *
    omega
  · simp only [io_command_t.to_uint16]; omega
  · cases c
    simp only [io_command_t.to_uint16, io_command_t.of_uint16, io_command_t.mk.injEq] at *
    omega
  · simp only [pwm_command_t.to_uint16]; omega
  · cases c
    simp only [pwm_command_t.to_uint16, pwm_command_t.of_uint16, pwm_command_t.mk.injEq] at *
    omega
  · simp only [i2c_command_t.to_uint16]; omega
  · cases c
    simp only [i2c_command_t.to_uint16, i2c_command_t.of_uint16, i2c_command_t.mk.injEq] at *
    omega
  · simp only [qep_command_t.to_uint16]; omega
  · cases c
    simp only [qep_command_t.to_uint16, qep_command_t.of_uint16, qep_command_t.mk.injEq] at *
    omega
  · simp only [uart_command_t.to_uint16]; omega
  · cases c
    simp only [uart_command_t.to_uint16, uart_command_t.of_uint16, uart_command_t.mk.injEq] at *
    omega
  · cases c
    cases c'
    simp only [can_command_t.to_uint16, can_command_t.mk.injEq] at *
    omega
  · cases c
    cases c'
    simp only [io_command_t.to_uint16, io_command_t.mk.injEq] at *
    omega
  · simp only [can_open_argument, can_command_t.to_uint16, can_command_t.of_uint16,
      kCAN_SetBaudrate]
    omega

/-- C26, exercised: the CAN write command for device 5 and the IO get-info
command for input pin 7 come back from their 16-bit argument unchanged. -/
theorem sub_command_round_trip_witness :
    can_command_t.of_uint16 (can_command_t.to_uint16 { op := 1, dev := 5, arg := 0 })
      = { op := 1, dev := 5, arg := 0 } ∧
    io_command_t.of_uint16 (io_command_t.to_uint16 { op := 0, dev := 2, num := 7 })
      = { op := 0, dev := 2, num := 7 } :=
  ⟨(sub_command_round_trip.1 { op := 1, dev := 5, arg := 0 }).2.2 (by decide) (by decide)
      (by decide),
   (sub_command_round_trip.2.1 { op := 0, dev := 2, num := 7 }).2 (by decide) (by decide)
      (by decide)⟩

/-! ## The user-space client: CAN frames -/

/-- The body of an envelope occupies 233 bytes. -/
theorem heci_body_bytes_length (b : heci_body_t) : b.bytes.length = sizeof_heci_body_t := by
  simp only [heci_body_t.bytes, le32, sizeof_heci_body_t, List.length_append, List.length_cons,
    List.length_nil, List.length_take, List.length_replicate]
  omega

/-- With a body, `pse_send_command` hands `write` the 6 header bytes followed
by the 233 body bytes. -/
theorem pse_send_command_body (command data : Nat) (b : heci_body_t) :
    pse_send_command command data (some b)
      = (request_header command data (some b)).bytes ++ b.bytes := by
  have hlen : ((request_header command data (some b)).bytes ++ b.bytes).length
      ≤ sizeof_heci_header_t + sizeof_heci_body_t := by
    rw [List.length_append, heci_body_bytes_length]
    simp [heci_header_t.bytes, sizeof_heci_header_t]
  simp only [pse_send_command]
  rw [if_pos (by simp [request_header]), List.take_of_length_le hlen]

/-- The four bytes of the value assembled from four bytes are those bytes. -/
theorem le32_of_le32 (a b c d : Nat) (ha : a < 256) (hb : b < 256) (hc : c < 256)
    (hd : d < 256) : le32 (of_le32 [a, b, c, d]) = [a, b, c, d] := by
  simp only [le32, of_le32, List.getD_cons_zero, List.getD_cons_succ, List.cons.injEq,
    and_true]
  refine ⟨by omega, by omega, by omega, by omega⟩

/-- A 32-bit value is assembled back from its four bytes, whatever follows them. -/
theorem of_le32_le32 (v : Nat) (rest : List Nat) (h : v < 4294967296) :
    of_le32 (le32 v ++ rest) = v := by
  simp only [le32, of_le32, List.cons_append, List.getD_cons_zero, List.getD_cons_succ]
  omega

/-- Reversing the bytes of a 32-bit value twice gives the value back. -/
theorem htobe32_htobe32 (v : Nat) (h : v < 4294967296) : htobe32 (htobe32 v) = v := by
  have hrev : (le32 v).reverse = [v / 16777216 % 256, v / 65536 % 256, v / 256 % 256, v % 256] := by
    simp [le32]
  unfold htobe32
  rw [hrev, le32_of_le32 _ _ _ _ (Nat.mod_lt _ (by decide)) (Nat.mod_lt _ (by decide))
    (Nat.mod_lt _ (by decide)) (Nat.mod_lt _ (by decide))]
  have h2 : [v / 16777216 % 256, v / 65536 % 256, v / 256 % 256, v % 256].reverse = le32 v := by
    simp [le32]
  rw [h2]
  simpa using of_le32_le32 v [] h

/-- The value `htobe32` returns fits 32 bits. -/
theorem htobe32_lt (v : Nat) : htobe32 v < 4294967296 := by
  simp only [htobe32, le32, of_le32, List.reverse_cons, List.reverse_nil, List.nil_append,
    List.cons_append, List.getD_cons_zero, List.getD_cons_succ]
  omega

/-- The in-memory bytes of the value `htobe32` returns are the bytes of its
argument, most significant first. -/
theorem le32_htobe32 (v : Nat) :
    le32 (htobe32 v) = [v / 16777216 % 256, v / 65536 % 256, v / 256 % 256, v % 256] := by
  have hrev : (le32 v).reverse = [v / 16777216 % 256, v / 65536 % 256, v / 256 % 256, v % 256] := by
    simp [le32]
  unfold htobe32
  rw [hrev, le32_of_le32 _ _ _ _ (Nat.mod_lt _ (by decide)) (Nat.mod_lt _ (by decide))
    (Nat.mod_lt _ (by decide)) (Nat.mod_lt _ (by decide))]

/-- A header with in-range members is read back from its 6 bytes, whatever
follows them. -/
theorem heci_header_of_bytes_bytes (h : heci_header_t) (rest : List Nat)
    (h1 : h.command < 256) (h2 : h.is_response < 256) (h3 : h.has_next < 256)
    (h4 : h.argument < 65536) (h5 : h.status < 256) :
    heci_header_t.of_bytes (h.bytes ++ rest) = h := by
  cases h
  simp only [heci_header_t.of_bytes, heci_header_t.bytes, List.cons_append,
    List.getD_cons_zero, List.getD_cons_succ, heci_header_t.mk.injEq] at *
  refine ⟨by omega, by omega, by omega, by omega, by omega⟩

/-- A CAN frame with in-range members is read back from its 15 bytes,
whatever follows them. -/
theorem heci_can_data_of_bytes_bytes (fr : heci_can_data_t) (rest : List Nat)
    (h1 : fr.id < 4294967296) (h2 : fr.id_type < 256) (h3 : fr.frame_type < 256)
    (h4 : fr.length < 256) (h5 : fr.data_word_0 < 4294967296)
    (h6 : fr.data_word_1 < 4294967296) :
    heci_can_data_t.of_bytes (fr.bytes ++ rest) = fr := by
  cases fr
  simp only [heci_can_data_t.of_bytes, heci_can_data_t.bytes, le32, of_le32, List.cons_append,
    List.nil_append, List.append_assoc, List.getD_cons_zero, List.getD_cons_succ,
    List.drop_succ_cons, List.drop_zero, heci_can_data_t.mk.injEq] at *
  refine ⟨by omega, by omega, by omega, by omega, by omega, by omega⟩

/-- A body with in-range members is read back from its 233 bytes, with its
payload filled up with zeros to the capacity of 224 bytes. -/
theorem heci_body_of_bytes_bytes (b : heci_body_t) (h1 : b.kind < 256)
    (h2 : b.length < 4294967296) (h3 : b.padding < 4294967296) :
    heci_body_t.of_bytes b.bytes
      = { b with data := (b.data ++ List.replicate MAX_HECI_DATA_LEN 0).take MAX_HECI_DATA_LEN } := by
  cases b
  simp only [heci_body_t.of_bytes, heci_body_t.bytes, le32, of_le32, List.cons_append,
    List.nil_append, List.getD_cons_zero, List.getD_cons_succ, List.drop_succ_cons,
    List.drop_zero, heci_body_t.mk.injEq, List.take_take, Nat.min_self] at *
  refine ⟨by omega, by omega, by omega, trivial⟩

/-- Whatever the response, `pse_command_checked` writes what
`pse_send_command` builds. -/
theorem pse_command_checked_written (select_ready : Bool) (reads : List (Int × List Nat))
    (command data : Nat) (in_body : Option heci_body_t) (has_out_body : Bool) :
    (pse_command_checked select_ready reads command data in_body has_out_body).written
      = pse_send_command command data in_body := by
  unfold pse_command_checked
  dsimp only
  split
  · rfl
  · split
    · rfl
    · split <;> rfl

/-- What `can_send` writes once its sanity checks are passed: the header of a
CAN command with a body, followed by the body carrying the frame. -/
theorem can_send_written (select_ready : Bool) (reads : List (Int × List Nat))
    (device id length data_0 data_1 : Nat) (hl : length ≤ 8) (hid : id ≤ 0x1FFFFFFF) :
    (can_send select_ready reads device id length data_0 data_1).written
      = some (pse_send_command kHECI_CAN_COMMAND
          (can_command_t.to_uint16 { op := kCAN_Write, dev := device, arg := 0 })
          (some (can_send_body (can_send_frame id length data_0 data_1)))) := by
  have h1 : ¬ length > 8 := by omega
  have h2 : ¬ id > 0x1FFFFFFF := by omega
  simp only [can_send, if_neg h1, if_neg h2]
  split <;> simp only [pse_command_checked_written]

/-- Once the sanity checks of `can_send` are passed, the envelope it writes
has 6 + 233 bytes; its first 6 bytes decode to the request header of a CAN
command with a body, the rest decodes to a body of kind CAN and length
`sizeof(heci_can_data_t)`, and the payload of that body decodes to the frame
`can_send` built. -/
theorem can_send_decodes (select_ready : Bool) (reads : List (Int × List Nat))
    (device id length w0 w1 : Nat) (hid : id ≤ 0x1FFFFFFF) (hl : length ≤ 8) :
    ∃ written, (can_send select_ready reads device id length w0 w1).written = some written ∧
      written.length = sizeof_heci_header_t + sizeof_heci_body_t ∧
      heci_header_t.of_bytes written
        = { command := kHECI_CAN_COMMAND, is_response := 0, has_next := 1,
            argument := 1 + 8 * (device % 8), status := 0 } ∧
      (heci_body_t.of_bytes (written.drop sizeof_heci_header_t)).kind = kHeciData_Can ∧
      (heci_body_t.of_bytes (written.drop sizeof_heci_header_t)).length
        = sizeof_heci_can_data_t ∧
      heci_can_data_t.of_bytes (heci_body_t.of_bytes (written.drop sizeof_heci_header_t)).data
        = can_send_frame id length w0 w1 := by
  refine ⟨_, can_send_written select_ready reads device id length w0 w1 hl hid, ?_⟩
  rw [pse_send_command_body]
  generalize hB : can_send_body (can_send_frame id length w0 w1) = B
  have hBk : B.kind = kHeciData_Can := by rw [← hB]; rfl
  have hBl : B.length = sizeof_heci_can_data_t := by rw [← hB]; rfl
  have hBp : B.padding = 0 := by rw [← hB]; rfl
  have hBd : B.data = (can_send_frame id length w0 w1).bytes ++
      (List.replicate MAX_HECI_DATA_LEN 0).drop (can_send_frame id length w0 w1).bytes.length := by
    rw [← hB]; rfl
  have hH : request_header kHECI_CAN_COMMAND
      (can_command_t.to_uint16 { op := kCAN_Write, dev := device, arg := 0 }) (some B)
      = { command := kHECI_CAN_COMMAND, is_response := 0, has_next := 1,
          argument := 1 + 8 * (device % 8), status := 0 } := by
    simp only [request_header, can_command_t.to_uint16, kCAN_Write, kHECI_CAN_COMMAND,
      Option.isSome_some, if_true, heci_header_t.mk.injEq]
    refine ⟨trivial, trivial, trivial, by omega, trivial⟩
  generalize request_header kHECI_CAN_COMMAND
      (can_command_t.to_uint16 { op := kCAN_Write, dev := device, arg := 0 }) (some B) = H
      at hH ⊢
  have hdec : heci_header_t.of_bytes (H.bytes ++ B.bytes) = H :=
    heci_header_of_bytes_bytes H B.bytes (by simp [hH, kHECI_CAN_COMMAND]) (by simp [hH])
      (by simp [hH]) (by rw [hH]; show 1 + 8 * (device % 8) < 65536; omega)
      (by simp [hH])
  have hdrop : (H.bytes ++ B.bytes).drop sizeof_heci_header_t = B.bytes := by
    simp [heci_header_t.bytes, sizeof_heci_header_t]
  have hbody : heci_body_t.of_bytes B.bytes
      = { B with data := (B.data ++ List.replicate MAX_HECI_DATA_LEN 0).take MAX_HECI_DATA_LEN } :=
    heci_body_of_bytes_bytes B (by rw [hBk]; decide) (by rw [hBl]; decide) (by rw [hBp]; decide)
  have hfl : (can_send_frame id length w0 w1).bytes.length = 15 := by
    simp [heci_can_data_t.bytes, le32]
  have hdata : (B.data ++ List.replicate MAX_HECI_DATA_LEN 0).take MAX_HECI_DATA_LEN
      = (can_send_frame id length w0 w1).bytes ++
        (((List.replicate MAX_HECI_DATA_LEN 0).drop 15 ++ List.replicate MAX_HECI_DATA_LEN 0).take
          (MAX_HECI_DATA_LEN - 15)) := by
    rw [hBd, hfl, List.append_assoc, List.take_append_eq_append_take, hfl,
      List.take_of_length_le (by rw [hfl]; decide)]
  have hframe : heci_can_data_t.of_bytes
      ((B.data ++ List.replicate MAX_HECI_DATA_LEN 0).take MAX_HECI_DATA_LEN)
      = can_send_frame id length w0 w1 := by
    rw [hdata]
    apply heci_can_data_of_bytes_bytes
    · simp only [can_send_frame]; omega
    · simp only [can_send_frame]; split <;> decide
    · simp only [can_send_frame]; decide
    · simp only [can_send_frame]; omega
    · exact htobe32_lt w0
    · exact htobe32_lt w1
  rw [hdec, hdrop, hbody]
  refine ⟨?_, hH, hBk, hBl, hframe⟩
  rw [List.length_append, heci_body_bytes_length]
  rfl

/-- C22. For every device < 8, id <= 0x1FFFFFFF, length <= 8 and 32-bit data
words w0, w1, `can_send` writes an envelope of 6 + 233 bytes which decodes as
follows: the header carries the CAN command id with `has_next` set, and its
16-bit argument read as `can_command_t` gives operation Write and the device;
the body has kind CAN and length `sizeof(heci_can_data_t)`, and its payload
read as `heci_can_data_t` gives the id, the length, and data words that
`be32toh` turns back into w0 and w1 (they are stored in big-endian byte order,
which is also the order in which `can_recv` prints their bytes). -/
theorem can_send_round_trip (select_ready : Bool) (reads : List (Int × List Nat))
    (device id length w0 w1 : Nat) (hd : device < 8) (hid : id ≤ 0x1FFFFFFF)
    (hl : length ≤ 8) (h0 : w0 < 4294967296) (h1 : w1 < 4294967296) :
    ∃ written, (can_send select_ready reads device id length w0 w1).written = some written ∧
      written.length = sizeof_heci_header_t + sizeof_heci_body_t ∧
      (heci_header_t.of_bytes written).command = kHECI_CAN_COMMAND ∧
      (heci_header_t.of_bytes written).has_next = 1 ∧
      can_command_t.of_uint16 (heci_header_t.of_bytes written).argument
        = { op := kCAN_Write, dev := device, arg := 0 } ∧
      (heci_body_t.of_bytes (written.drop sizeof_heci_header_t)).kind = kHeciData_Can ∧
      (heci_body_t.of_bytes (written.drop sizeof_heci_header_t)).length
        = sizeof_heci_can_data_t ∧
      (heci_can_data_t.of_bytes
        (heci_body_t.of_bytes (written.drop sizeof_heci_header_t)).data).id = id ∧
      (heci_can_data_t.of_bytes
        (heci_body_t.of_bytes (written.drop sizeof_heci_header_t)).data).length = length ∧
      htobe32 (heci_can_data_t.of_bytes
        (heci_body_t.of_bytes (written.drop sizeof_heci_header_t)).data).data_word_0 = w0 ∧
      htobe32 (heci_can_data_t.of_bytes
        (heci_body_t.of_bytes (written.drop sizeof_heci_header_t)).data).data_word_1 = w1 ∧
      can_recv_data (heci_can_data_t.of_bytes
        (heci_body_t.of_bytes (written.drop sizeof_heci_header_t)).data)
        = ([w0 / 16777216 % 256, w0 / 65536 % 256, w0 / 256 % 256, w0 % 256,
            w1 / 16777216 % 256, w1 / 65536 % 256, w1 / 256 % 256, w1 % 256]).take length := by
  obtain ⟨written, hw, hlen, hhdr, hk, hbl, hfr⟩ :=
    can_send_decodes select_ready reads device id length w0 w1 hid hl
  refine ⟨written, hw, hlen, ?_, ?_, ?_, hk, hbl, ?_, ?_, ?_, ?_, ?_⟩
  · rw [hhdr]
  · rw [hhdr]
  · rw [hhdr]
    simp only [can_command_t.of_uint16, kCAN_Write, can_command_t.mk.injEq]
    omega
  · rw [hfr]; rfl
  · rw [hfr]; rfl
  · rw [hfr]; exact htobe32_htobe32 w0 h0
  · rw [hfr]; exact htobe32_htobe32 w1 h1
  · rw [hfr]
    simp only [can_recv_data, can_send_frame, le32_htobe32, List.cons_append, List.nil_append]

/-- C22, exercised on the frame the clients send: device 0, id 0x123, length 8,
data words 0x11223344 and 0x55667788. -/
theorem can_send_round_trip_witness :
    ∃ written, (can_send true [] 0 0x123 8 0x11223344 0x55667788).written = some written ∧
      can_command_t.of_uint16 (heci_header_t.of_bytes written).argument
        = { op := kCAN_Write, dev := 0, arg := 0 } ∧
      (heci_can_data_t.of_bytes
        (heci_body_t.of_bytes (written.drop sizeof_heci_header_t)).data).id = 0x123 ∧
      (heci_can_data_t.of_bytes
        (heci_body_t.of_bytes (written.drop sizeof_heci_header_t)).data).length = 8 ∧
      htobe32 (heci_can_data_t.of_bytes
        (heci_body_t.of_bytes (written.drop sizeof_heci_header_t)).data).data_word_0
        = 0x11223344 ∧
      htobe32 (heci_can_data_t.of_bytes
        (heci_body_t.of_bytes (written.drop sizeof_heci_header_t)).data).data_word_1
        = 0x55667788 ∧
      can_recv_data (heci_can_data_t.of_bytes
        (heci_body_t.of_bytes (written.drop sizeof_heci_header_t)).data)
        = [0x11, 0x22, 0x33, 0x44, 0x55, 0x66, 0x77, 0x88] :=
  match can_send_round_trip true [] 0 0x123 8 0x11223344 0x55667788 (by decide) (by decide)
      (by decide) (by decide) (by decide) with
  | ⟨written, hw, _, _, _, hcmd, _, _, hid, hlen, h0, h1, hrecv⟩ =>
    ⟨written, hw, hcmd, hid, hlen, h0, h1, hrecv.trans (by decide)⟩

/-- C29. For every length <= 8 and id <= 0x1FFFFFFF the frame in the envelope
`can_send` writes has `id_type` 0 exactly when id < 0x7FF and `id_type` 1
otherwise (so id 0x7FF is sent with `id_type` 1); for length > 8 or
id > 0x1FFFFFFF `can_send` returns -1 and writes nothing. -/
theorem can_send_id_type (select_ready : Bool) (reads : List (Int × List Nat))
    (device id length w0 w1 : Nat) :
    (length ≤ 8 → id ≤ 0x1FFFFFFF →
      ∃ written, (can_send select_ready reads device id length w0 w1).written = some written ∧
        ((heci_can_data_t.of_bytes
            (heci_body_t.of_bytes (written.drop sizeof_heci_header_t)).data).id_type = 0
          ↔ id < 0x7FF) ∧
        (¬ id < 0x7FF →
          (heci_can_data_t.of_bytes
            (heci_body_t.of_bytes (written.drop sizeof_heci_header_t)).data).id_type = 1) ∧
        (id = 0x7FF →
          (heci_can_data_t.of_bytes
            (heci_body_t.of_bytes (written.drop sizeof_heci_header_t)).data).id_type = 1)) ∧
    ((length > 8 ∨ id > 0x1FFFFFFF) →
      can_send select_ready reads device id length w0 w1 = { ret := -1, written := none }) := by
  refine ⟨fun hl hid => ?_, fun h => ?_⟩
  · obtain ⟨written, hw, _, _, _, _, hfr⟩ :=
      can_send_decodes select_ready reads device id length w0 w1 hid hl
    refine ⟨written, hw, ?_, ?_, ?_⟩
    · rw [hfr]
      simp only [can_send_frame]
      constructor
      · intro h
        by_contra hn
        rw [if_neg hn] at h
        cases h
      · intro h
        rw [if_pos h]
    · intro hn
      rw [hfr]
      simp only [can_send_frame]
      rw [if_neg hn]
    · intro he
      rw [hfr]
      simp only [can_send_frame]
      rw [if_neg (by omega)]
  · by_cases hl : length > 8
    · simp only [can_send, if_pos hl]
    · have hid : id > 0x1FFFFFFF := by
        rcases h with h | h
        · exact absurd h hl
        · exact h
      simp only [can_send, if_neg hl, if_pos hid]

/-- C29, exercised: id 0x7FF with 8 data bytes goes out with `id_type` 1, and
a frame of 9 bytes is refused with -1 and nothing written. -/
theorem can_send_id_type_witness :
    (∃ written, (can_send true [] 0 0x7FF 8 0 0).written = some written ∧
      (heci_can_data_t.of_bytes
        (heci_body_t.of_bytes (written.drop sizeof_heci_header_t)).data).id_type = 1) ∧
    can_send true [] 0 0x123 9 0 0 = { ret := -1, written := none } :=
  ⟨match (can_send_id_type true [] 0 0x7FF 8 0 0).1 (by decide) (by decide) with
    | ⟨written, hw, _, _, h7⟩ => ⟨written, hw, h7 rfl⟩,
   (can_send_id_type true [] 0 0x123 9 0 0).2 (Or.inl (by decide))⟩

/-! ## The user-space client: result of a checked command -/

set_option maxRecDepth 100000 in
/-- C21, the code at the failing inputs.  A response header with `has_next` 1
and status 0 is read in full.  When the caller passed no `out_body`,
`pse_read_response` drops the body and returns 6, and `pse_command_checked`
returns 1 although there is no `out_body` to populate; when the caller passed
one and the body read yields only 100 bytes, it returns 1 although nothing was
copied.  For a response without a body the result is as documented: the
negated status when the status byte is nonzero and 0 when it is 0; and with a
body read in full the result 1 comes with `out_body` populated. -/
theorem command_checked_returns_one_without_body :
    (pse_command_checked true [(6, [4, 1, 1, 0x34, 0x12, 0])] 4 0x1234 none false).ret = 1 ∧
    (pse_command_checked true [(6, [4, 1, 1, 0x34, 0x12, 0])] 4 0x1234 none false).out_body
      = none ∧
    (pse_command_checked true
        [(6, [4, 1, 1, 0x34, 0x12, 0]), (100, List.replicate 100 0)] 4 0x1234 none true).ret = 1 ∧
    (pse_command_checked true
        [(6, [4, 1, 1, 0x34, 0x12, 0]), (100, List.replicate 100 0)] 4 0x1234 none true).out_body
      = none ∧
    (pse_command_checked true
        [(6, [4, 1, 1, 0x34, 0x12, 0]), (233, List.replicate 233 7)] 4 0x1234 none true).ret = 1 ∧
    (pse_command_checked true
        [(6, [4, 1, 1, 0x34, 0x12, 0]), (233, List.replicate 233 7)] 4 0x1234 none true).out_body
      = some (heci_body_t.of_bytes (List.replicate 233 7)) ∧
    (∀ (c r a0 a1 s : Nat) (rest : List (Int × List Nat)) (command data : Nat)
        (in_body : Option heci_body_t) (has_out_body : Bool),
      (pse_command_checked true ((6, [c, r, 0, a0, a1, s]) :: rest) command data in_body
          has_out_body).ret = if s ≠ 0 then - (s : Int) else 0) := by
  refine ⟨by decide, by decide, by decide, by decide, by decide, by decide, ?_⟩
  intro c r a0 a1 s rest command data in_body has_out_body
  have hr : pse_read_response true ((6, [c, r, 0, a0, a1, s]) :: rest) has_out_body
      = { ret := 6, header := some (heci_header_t.of_bytes [c, r, 0, a0, a1, s]), body := none,
          rest := rest } := by
    simp [pse_read_response, sizeof_heci_header_t, heci_header_t.of_bytes]
  simp only [pse_command_checked, hr]
  by_cases hs : s = 0
  · simp [heci_header_t.of_bytes, hs]
  · simp [heci_header_t.of_bytes, hs]

/-- C30, the code at the failing input.  For a response with status byte 255
and no body, `pse_command_checked` returns -255, and `get_digital_input`,
returning it through `uint8_t`, yields 1, which the caller's test
`val == 0 || val == 1` accepts as a pin state.  Status 254 yields 2 and status
1 yields 255, a failed read yields 255 and a body-less success yields 255, none
of which is accepted. -/
theorem digital_input_status_255_reads_as_one :
    (pse_command_checked true [(6, [2, 1, 0, 0, 0, 255])] kHECI_IO_COMMAND
        (io_command_t.to_uint16 { op := kIO_GetInfo, dev := kIODev_DI, num := 3 })
        none true).ret = -255 ∧
    get_digital_input true [(6, [2, 1, 0, 0, 0, 255])]
        { kind := 0, length := 0, padding := 0, data := [] } 3 = 1 ∧
    dio_accepts (get_digital_input true [(6, [2, 1, 0, 0, 0, 255])]
        { kind := 0, length := 0, padding := 0, data := [] } 3) = true ∧
    get_digital_input true [(6, [2, 1, 0, 0, 0, 254])]
        { kind := 0, length := 0, padding := 0, data := [] } 3 = 2 ∧
    get_digital_input true [(6, [2, 1, 0, 0, 0, 1])]
        { kind := 0, length := 0, padding := 0, data := [] } 3 = 255 ∧
    get_digital_input true [(-1, [])]
        { kind := 0, length := 0, padding := 0, data := [] } 3 = 255 ∧
    get_digital_input true [(6, [2, 1, 0, 0, 0, 0])]
        { kind := 0, length := 0, padding := 0, data := [] } 3 = 255 := by
  decide

/-! ## A failed open -/

set_option maxRecDepth 100000 in
/-- C28, the code at the failing input.  On a bus layer whose link fails with
-ENOENT, open returns -ENOENT after releasing the freshly allocated client with
`kfree`, and `pse_dev.cl` still refers to that client.  The calls that follow
pass `CHECK_ISHTP_ALLOC` and operate on the released client: a privileged
connect ioctl returns 0 after connecting it, a write after that connect sends
on it, and a close returns 0 after unlinking and freeing it a second time.
When it is the allocation that fails, open leaves `pse_dev.cl` empty. -/
theorem open_link_failure_keeps_released_client :
    (ishtp_pse_open ex_bus_no_link ex_probed ex_file).2 = - ENOENT ∧
    (ishtp_pse_open ex_bus_no_link ex_probed ex_file).1.pse_dev.cl
      = some (ex_cl cl_state.ISHTP_CL_INITIALIZING) ∧
    (ishtp_pse_open ex_bus_no_link ex_probed ex_file).1.calls
      = [bus_call.cl_allocate ex_cl_device,
         bus_call.cl_link (ex_cl cl_state.ISHTP_CL_INITIALIZING),
         bus_call.kfree (ex_cl cl_state.ISHTP_CL_INITIALIZING)] ∧
    CHECK_ISHTP_ALLOC (ishtp_pse_open ex_bus_no_link ex_probed ex_file).1.pse_dev = false ∧
    (ishtp_pse_ioctl ex_bus_no_link true (ishtp_pse_open ex_bus_no_link ex_probed ex_file).1
        IOCTL_ISHTP_CONNECT_CLIENT (ex_ubuf pse_smhi_guid)).ret = 0 ∧
    (ishtp_pse_ioctl ex_bus_no_link true (ishtp_pse_open ex_bus_no_link ex_probed ex_file).1
        IOCTL_ISHTP_CONNECT_CLIENT (ex_ubuf pse_smhi_guid)).st.calls
      = [bus_call.cl_allocate ex_cl_device,
         bus_call.cl_link (ex_cl cl_state.ISHTP_CL_INITIALIZING),
         bus_call.kfree (ex_cl cl_state.ISHTP_CL_INITIALIZING),
         bus_call.fw_cl_get_client ex_dev pse_smhi_guid,
         bus_call.cl_connect { state := cl_state.ISHTP_CL_CONNECTING, fw_client_id := 3,
                               dev := ex_dev, device := ex_cl_device }] ∧
    (ishtp_pse_write ex_bus_no_link
        (ishtp_pse_ioctl ex_bus_no_link true (ishtp_pse_open ex_bus_no_link ex_probed ex_file).1
          IOCTL_ISHTP_CONNECT_CLIENT (ex_ubuf pse_smhi_guid)).st
        ex_file (ex_ubuf [1, 2, 3]) 3).2 = 3 ∧
    (ishtp_pse_release ex_bus_no_link (ishtp_pse_open ex_bus_no_link ex_probed ex_file).1).2
      = 0 ∧
    (ishtp_pse_release ex_bus_no_link (ishtp_pse_open ex_bus_no_link ex_probed ex_file).1).1.calls
      = [bus_call.cl_allocate ex_cl_device,
         bus_call.cl_link (ex_cl cl_state.ISHTP_CL_INITIALIZING),
         bus_call.kfree (ex_cl cl_state.ISHTP_CL_INITIALIZING),
         bus_call.cl_unlink (ex_cl cl_state.ISHTP_CL_INITIALIZING),
         bus_call.cl_flush_queues (ex_cl cl_state.ISHTP_CL_INITIALIZING),
         bus_call.cl_free (ex_cl cl_state.ISHTP_CL_INITIALIZING)] ∧
    (ishtp_pse_open ex_bus_no_memory ex_probed ex_file).2 = - ENOMEM ∧
    (ishtp_pse_open ex_bus_no_memory ex_probed ex_file).1.pse_dev.cl = none := by
  decide

/-! ## The cancellation flag -/

/-- The drain loop leaves `pse_dev` as it found it. -/
theorem wait_for_send_pse_dev (bus : ishtp_bus) (cl : ishtp_cl) (n i : Nat) (s : driver_state) :
    (wait_for_send bus cl n i s).pse_dev = s.pse_dev := by
  induction n generalizing i s with
  | zero => rfl
  | succ n ih =>
    simp only [wait_for_send]
    split
    · rfl
    · rw [ih]; rfl

/-- The locked part of a read leaves the cancellation flag as it found it. -/
theorem read_locked_wait_exception (s : driver_state) (rb : ishtp_cl_rb) (ubuf : user_ptr)
    (length offset : Nat) :
    (ishtp_pse_read_locked s rb ubuf length offset).st.pse_dev.pse_rb.wait_exception
      = s.pse_dev.pse_rb.wait_exception := by
  unfold ishtp_pse_read_locked
  dsimp only
  split
  · rfl
  · split
    · rfl
    · split
      · rfl
      · rfl

/-- The teardown of a close leaves the cancellation flag as it found it. -/
theorem release_teardown_wait_exception (bus : ishtp_bus) (s : driver_state) (cl : ishtp_cl) :
    (ishtp_pse_release_teardown bus s cl).1.pse_dev.pse_rb.wait_exception
      = s.pse_dev.pse_rb.wait_exception := by
  unfold ishtp_pse_release_teardown
  dsimp only
  by_cases hlive : cl.dev.dev_state = ishtp_dev_state.ISHTP_DEV_ENABLED ∧
      cl.state = cl_state.ISHTP_CL_CONNECTED
  · rw [if_pos hlive]
    dsimp only [driver_state.log, driver_state.set_cl, driver_state.set_rb]
    split <;> simp [wait_for_send_pse_dev]
  · rw [if_neg hlive]
    dsimp only [driver_state.log, driver_state.set_cl, driver_state.set_rb]
    split <;> simp

/-- The connect step of the ioctl leaves the cancellation flag as it found it. -/
theorem ioctl_cc_wait_exception (bus : ishtp_bus) (s : driver_state)
    (ishtp_dev : Option ishtp_device) (data : ishtp_cc_data) :
    (ishtp_pse_ioctl_cc bus s ishtp_dev data).st.pse_dev.pse_rb.wait_exception
      = s.pse_dev.pse_rb.wait_exception := by
  unfold ishtp_pse_ioctl_cc
  split
  · rfl
  · split
    · rfl
    · split
      · rfl
      · split
        · rfl
        · split
          · rfl
          · dsimp only
            split <;> rfl

/-- C24, counterexample.  With the slot empty and a bus layer that has no
buffer to hand over, the message-arrival handler raises the cancellation flag
(pse.c line 393): the flag is false before the handler runs and true after,
although no close and no reset took place. -/
theorem event_cb_raises_flag :
    (ex_state cl_state.ISHTP_CL_CONNECTED none).pse_dev.pse_rb.wait_exception = false ∧
    (ishtp_pse_event_cb ex_bus_no_buffer (ex_state cl_state.ISHTP_CL_CONNECTED none)).map
      (fun s => s.pse_dev.pse_rb.wait_exception) = some true := by
  decide

/-- C24, amended.  Open, write and the ioctl never change the cancellation
flag, and a read leaves it either as it found it or as the state it wakes up in
holds it (the read itself only lowers the flag, before it waits).  The
message-arrival handler leaves the flag raised exactly when it was raised
before or the slot was empty and the bus layer had no buffer to hand over.
Close raises the flag once past its guard, reset recovery raises it whenever
the bus client is linked to a device, and removal always raises it. -/
theorem wait_exception_sources (bus : ishtp_bus) (wait : driver_state → Int × driver_state)
    (s : driver_state) (f : file) (ubuf : user_ptr) (length offset : Nat) (capable : Bool)
    (cmd : Nat) (data : user_ptr) :
    (ishtp_pse_open bus s f).1.pse_dev.pse_rb.wait_exception
      = s.pse_dev.pse_rb.wait_exception ∧
    (ishtp_pse_write bus s f ubuf length).1.pse_dev.pse_rb.wait_exception
      = s.pse_dev.pse_rb.wait_exception ∧
    (ishtp_pse_ioctl bus capable s cmd data).st.pse_dev.pse_rb.wait_exception
      = s.pse_dev.pse_rb.wait_exception ∧
    ((ishtp_pse_read wait s f ubuf length offset).st.pse_dev.pse_rb.wait_exception
        = s.pse_dev.pse_rb.wait_exception ∨
      (ishtp_pse_read wait s f ubuf length offset).st.pse_dev.pse_rb.wait_exception
        = (wait (s.set_wait_exception false)).2.pse_dev.pse_rb.wait_exception) ∧
    (∀ s1, ishtp_pse_event_cb bus s = some s1 →
      (s1.pse_dev.pse_rb.wait_exception = true ↔
        (s.pse_dev.pse_rb.wait_exception = true ∨
          (s.pse_dev.pse_rb.rb = none ∧
            ∃ cl, s.pse_dev.cl = some cl ∧ bus.ishtp_cl_rx_get_rb cl = none)))) ∧
    (CHECK_ISHTP_ALLOC s.pse_dev = false →
      (ishtp_pse_release bus s).1.pse_dev.pse_rb.wait_exception = true) ∧
    (∀ s1 cl_device, ishtp_cl_reset_handler bus s = some s1 →
      s.pse_dev.cl_device = some cl_device → cl_device.ishtp_dev.isSome = true →
      s1.pse_dev.pse_rb.wait_exception = true) ∧
    (ishtp_pse_remove bus s).pse_dev.pse_rb.wait_exception = true := by
  refine ⟨?_, ?_, ?_, ?_, ?_, ?_, ?_, ?_⟩
  · unfold ishtp_pse_open
    split
    · rfl
    · split
      · rfl
      · dsimp only
        split
        · rfl
        · split <;> rfl
  · unfold ishtp_pse_write
    split
    · rfl
    · split
      · rfl
      · split
        · rfl
        · split
          · rfl
          · split
            · rfl
            · split <;> rfl
  · unfold ishtp_pse_ioctl
    split
    · rfl
    · split
      · rfl
      · split
        · rfl
        · split
          · split
            · rfl
            · dsimp only
              split <;> exact ioctl_cc_wait_exception _ _ _ _
          · rfl
  · unfold ishtp_pse_read
    split
    · exact Or.inl rfl
    · split
      · exact Or.inl rfl
      · split
        · exact Or.inl rfl
        · split
          · exact Or.inl rfl
          · split
            · exact Or.inl (read_locked_wait_exception _ _ _ _ _)
            · dsimp only
              split
              · exact Or.inr rfl
              · split
                · exact Or.inr rfl
                · split
                  · exact Or.inr rfl
                  · split
                    · exact Or.inr rfl
                    · split
                      · exact Or.inr rfl
                      · exact Or.inr (read_locked_wait_exception _ _ _ _ _)
  · intro s1 h
    unfold ishtp_pse_event_cb at h
    cases hrb : s.pse_dev.pse_rb.rb with
    | some rb =>
      simp only [hrb] at h
      cases h
      simp
    | none =>
      cases hcl : s.pse_dev.cl with
      | none => simp [hrb, hcl] at h
      | some cl =>
        cases hget : bus.ishtp_cl_rx_get_rb cl with
        | none =>
          simp only [hrb, hcl, hget] at h
          cases h
          simp [driver_state.set_wait_exception, hget]
        | some rb =>
          simp only [hrb, hcl, hget] at h
          cases h
          simp [driver_state.set_rb, driver_state.log, hget]
  · intro h
    unfold ishtp_pse_release
    split
    · rename_i hcl
      simp [CHECK_ISHTP_ALLOC, hcl] at h
    · rw [if_neg (by simp [h])]
      rw [release_teardown_wait_exception]
      rfl
  · intro s1 cl_device h hdev hsome
    unfold ishtp_cl_reset_handler at h
    simp only [hdev] at h
    cases hi : cl_device.ishtp_dev with
    | none => simp [hi] at hsome
    | some ishtp_dev =>
      simp only [hi] at h
      split at h
      · cases h; rfl
      · split at h
        · cases h; rfl
        · split at h
          · cases h; rfl
          · split at h
            · cases h; rfl
            · split at h
              · cases h; rfl
              · split at h
                · cases h; rfl
                · cases h; rfl
  · unfold ishtp_pse_remove
    dsimp only
    split <;> rfl

/-- The amended statement of C24 applied to the arrival handler on a bus layer
without a buffer: the flag comes out raised. -/
theorem wait_exception_sources_witness :
    ishtp_pse_event_cb ex_bus_no_buffer (ex_state cl_state.ISHTP_CL_CONNECTED none)
      = some (((ex_state cl_state.ISHTP_CL_CONNECTED none).log
          (bus_call.cl_rx_get_rb (ex_cl cl_state.ISHTP_CL_CONNECTED))).set_wait_exception true) ∧
    (((ex_state cl_state.ISHTP_CL_CONNECTED none).log
      (bus_call.cl_rx_get_rb (ex_cl cl_state.ISHTP_CL_CONNECTED))).set_wait_exception
        true).pse_dev.pse_rb.wait_exception = true ∧
    (ishtp_pse_release ex_bus (ex_state cl_state.ISHTP_CL_CONNECTED
      none)).1.pse_dev.pse_rb.wait_exception = true :=
  ⟨rfl,
   ((wait_exception_sources ex_bus_no_buffer wait_times_out
      (ex_state cl_state.ISHTP_CL_CONNECTED none) ex_file (ex_ubuf []) 0 0 true 0
      (ex_ubuf [])).2.2.2.2.1 _ rfl).2
     (Or.inr ⟨rfl, ex_cl cl_state.ISHTP_CL_CONNECTED, rfl, rfl⟩),
   (wait_exception_sources ex_bus wait_times_out
      (ex_state cl_state.ISHTP_CL_CONNECTED none) ex_file (ex_ubuf []) 0 0 true 0
      (ex_ubuf [])).2.2.2.2.2.1 rfl⟩

/-! ## The drain loop of close -/

/-- The log of the drain loop: `d` sleeps, each after a poll that found the
transmit queue busy, followed by the poll that found it empty unless the loop
ran out of rounds. -/
theorem wait_for_send_calls (bus : ishtp_bus) (cl : ishtp_cl) (n i : Nat) (s : driver_state) :
    ∃ d, d ≤ n ∧
      (wait_for_send bus cl n i s).calls
        = s.calls ++ drain_polls cl d ++ (if d < n then [bus_call.cl_tx_empty cl] else []) ∧
      (∀ j, j < d → bus.ishtp_cl_tx_empty cl (i + j) = false) ∧
      (d < n → bus.ishtp_cl_tx_empty cl (i + d) = true) := by
  induction n generalizing i s with
  | zero => exact ⟨0, le_refl 0, by simp [wait_for_send, drain_polls], by simp, by simp⟩
  | succ n ih =>
    cases hp : bus.ishtp_cl_tx_empty cl i with
    | true =>
      refine ⟨0, Nat.zero_le _, ?_, by simp, ?_⟩
      · simp [wait_for_send, hp, drain_polls, driver_state.log]
      · intro _; simpa using hp
    | false =>
      obtain ⟨d, hd, hcalls, hbusy, hempty⟩ := ih (i + 1)
        ((s.log (bus_call.cl_tx_empty cl)).log (bus_call.msleep_interruptible WAIT_FOR_SEND_MS))
      refine ⟨d + 1, Nat.succ_le_succ hd, ?_, ?_, ?_⟩
      · simp only [wait_for_send, hp, Bool.false_eq_true, if_false, hcalls]
        by_cases hlt : d < n
        · simp [hlt, drain_polls, driver_state.log]
        · simp [hlt, drain_polls, driver_state.log]
      · intro j hj
        cases j with
        | zero => simpa using hp
        | succ j =>
          have := hbusy j (by omega)
          rw [← this]; congr 1; omega
      · intro hlt
        have := hempty (by omega)
        rw [← this]; congr 1; omega

/-- The polls and sleeps of the drain loop hold `d` sleeps and no disconnect. -/
theorem drain_polls_filter (cl : ishtp_cl) (d : Nat) :
    ((drain_polls cl d).filter bus_call.is_sleep).length = d ∧
    (drain_polls cl d).filter bus_call.is_disconnect = [] := by
  induction d with
  | zero => simp [drain_polls]
  | succ d ih => simp [drain_polls, bus_call.is_sleep, bus_call.is_disconnect, ih.1, ih.2]

/-- C25.  Close on a device that passes the guard of close (`pse_dev.cl` and
`pse_dev.cl_device` both set), for every behaviour of the transmit queue.  On a
live connection (device enabled, client connected) the calls close adds to the
log are: `d` sleeps of `WAIT_FOR_SEND_MS` with `d ≤ WAIT_FOR_SEND_COUNT`, each
after a poll that found the queue busy; the poll that found it empty when
`d < WAIT_FOR_SEND_COUNT`; then one disconnect, issued on the client in the
disconnecting state; then calls that are neither sleeps nor disconnects.  The
return value is the result of that disconnect.  On a connection that is not
live close adds no sleep and no disconnect and returns 0. -/
theorem release_drain_bounded (bus : ishtp_bus) (s : driver_state) (cl : ishtp_cl)
    (hcl : s.pse_dev.cl = some cl) (hdev : s.pse_dev.cl_device.isSome = true) :
    (cl.dev.dev_state = ishtp_dev_state.ISHTP_DEV_ENABLED ∧
        cl.state = cl_state.ISHTP_CL_CONNECTED →
      ∃ d new tail, d ≤ WAIT_FOR_SEND_COUNT ∧
        (∀ j, j < d → bus.ishtp_cl_tx_empty cl j = false) ∧
        (d < WAIT_FOR_SEND_COUNT → bus.ishtp_cl_tx_empty cl d = true) ∧
        (ishtp_pse_release bus s).1.calls = s.calls ++ new ∧
        new = drain_polls cl d ++
          (if d < WAIT_FOR_SEND_COUNT then [bus_call.cl_tx_empty cl] else []) ++
          bus_call.cl_disconnect { cl with state := cl_state.ISHTP_CL_DISCONNECTING } :: tail ∧
        (new.filter bus_call.is_sleep).length = d ∧
        new.filter bus_call.is_disconnect
          = [bus_call.cl_disconnect { cl with state := cl_state.ISHTP_CL_DISCONNECTING }] ∧
        (ishtp_pse_release bus s).2
          = (bus.ishtp_cl_disconnect { cl with state := cl_state.ISHTP_CL_DISCONNECTING }).1) ∧
    (¬ (cl.dev.dev_state = ishtp_dev_state.ISHTP_DEV_ENABLED ∧
        cl.state = cl_state.ISHTP_CL_CONNECTED) →
      ∃ new, (ishtp_pse_release bus s).1.calls = s.calls ++ new ∧
        new.filter bus_call.is_sleep = [] ∧
        new.filter bus_call.is_disconnect = [] ∧
        (ishtp_pse_release bus s).2 = 0) := by
  have hguard : CHECK_ISHTP_ALLOC s.pse_dev = false := by
    cases hd : s.pse_dev.cl_device with
    | none => simp [hd] at hdev
    | some _ => simp [CHECK_ISHTP_ALLOC, hcl, hd]
  have hrel : ishtp_pse_release bus s
      = ishtp_pse_release_teardown bus (ishtp_pse_release_cancel s) cl := by
    unfold ishtp_pse_release
    simp only [hcl]
    rw [if_neg (by simp [hguard])]
  rw [hrel]
  constructor
  · intro hlive
    obtain ⟨d, hd, hcalls, hbusy, hempty⟩ :=
      wait_for_send_calls bus cl WAIT_FOR_SEND_COUNT 0 (ishtp_pse_release_cancel s)
    have hs : (ishtp_pse_release_cancel s).calls = s.calls := rfl
    rw [hs] at hcalls
    have hf := drain_polls_filter cl d
    unfold ishtp_pse_release_teardown
    dsimp only
    rw [if_pos hlive]
    dsimp only
    split
    · rename_i rb _
      refine ⟨d, _, [bus_call.cl_unlink
          (bus.ishtp_cl_disconnect { cl with state := cl_state.ISHTP_CL_DISCONNECTING }).2,
        bus_call.cl_flush_queues
          (bus.ishtp_cl_disconnect { cl with state := cl_state.ISHTP_CL_DISCONNECTING }).2,
        bus_call.cl_free
          (bus.ishtp_cl_disconnect { cl with state := cl_state.ISHTP_CL_DISCONNECTING }).2,
        bus_call.cl_io_rb_recycle rb], hd, ?_, ?_, ?_, rfl, ?_, ?_, rfl⟩
      · intro j hj; simpa using hbusy j hj
      · intro hlt; simpa using hempty hlt
      · simp [driver_state.log, driver_state.set_cl, driver_state.set_rb, hcalls]
      · by_cases hlt : d < WAIT_FOR_SEND_COUNT
        · simp [hlt, List.filter_append, List.filter_cons, bus_call.is_sleep, hf.1]
        · simp [hlt, List.filter_append, List.filter_cons, bus_call.is_sleep, hf.1]
      · by_cases hlt : d < WAIT_FOR_SEND_COUNT
        · simp [hlt, List.filter_append, List.filter_cons, bus_call.is_disconnect, hf.2]
        · simp [hlt, List.filter_append, List.filter_cons, bus_call.is_disconnect, hf.2]
    · refine ⟨d, _, [bus_call.cl_unlink
          (bus.ishtp_cl_disconnect { cl with state := cl_state.ISHTP_CL_DISCONNECTING }).2,
        bus_call.cl_flush_queues
          (bus.ishtp_cl_disconnect { cl with state := cl_state.ISHTP_CL_DISCONNECTING }).2,
        bus_call.cl_free
          (bus.ishtp_cl_disconnect { cl with state := cl_state.ISHTP_CL_DISCONNECTING }).2],
        hd, ?_, ?_, ?_, rfl, ?_, ?_, rfl⟩
      · intro j hj; simpa using hbusy j hj
      · intro hlt; simpa using hempty hlt
      · simp [driver_state.log, driver_state.set_cl, hcalls]
      · by_cases hlt : d < WAIT_FOR_SEND_COUNT
        · simp [hlt, List.filter_append, List.filter_cons, bus_call.is_sleep, hf.1]
        · simp [hlt, List.filter_append, List.filter_cons, bus_call.is_sleep, hf.1]
      · by_cases hlt : d < WAIT_FOR_SEND_COUNT
        · simp [hlt, List.filter_append, List.filter_cons, bus_call.is_disconnect, hf.2]
        · simp [hlt, List.filter_append, List.filter_cons, bus_call.is_disconnect, hf.2]
  · intro hdead
    have hs : (ishtp_pse_release_cancel s).calls = s.calls := rfl
    unfold ishtp_pse_release_teardown
    dsimp only
    rw [if_neg hdead]
    dsimp only
    split
    · rename_i rb _
      refine ⟨[bus_call.cl_unlink cl, bus_call.cl_flush_queues cl, bus_call.cl_free cl,
        bus_call.cl_io_rb_recycle rb], ?_, ?_, ?_, rfl⟩
      · simp [driver_state.log, driver_state.set_cl, driver_state.set_rb, hs]
      · simp [bus_call.is_sleep]
      · simp [bus_call.is_disconnect]
    · refine ⟨[bus_call.cl_unlink cl, bus_call.cl_flush_queues cl, bus_call.cl_free cl],
        ?_, ?_, ?_, rfl⟩
      · simp [driver_state.log, driver_state.set_cl, hs]
      · simp [bus_call.is_sleep]
      · simp [bus_call.is_disconnect]

/-- C25 applied to a live connection whose transmit queue is found empty at
the fourth poll (close sleeps three times), and to a connection that was never
connected. -/
theorem release_drain_bounded_witness :
    ((ishtp_pse_release (ex_bus_drains_at 3)
      (ex_state cl_state.ISHTP_CL_CONNECTED none)).1.calls.filter bus_call.is_sleep).length = 3 ∧
    (∃ d new tail, d ≤ WAIT_FOR_SEND_COUNT ∧
      (∀ j, j < d →
        (ex_bus_drains_at 3).ishtp_cl_tx_empty (ex_cl cl_state.ISHTP_CL_CONNECTED) j = false) ∧
      (d < WAIT_FOR_SEND_COUNT →
        (ex_bus_drains_at 3).ishtp_cl_tx_empty (ex_cl cl_state.ISHTP_CL_CONNECTED) d = true) ∧
      (ishtp_pse_release (ex_bus_drains_at 3) (ex_state cl_state.ISHTP_CL_CONNECTED none)).1.calls
        = (ex_state cl_state.ISHTP_CL_CONNECTED none).calls ++ new ∧
      new = drain_polls (ex_cl cl_state.ISHTP_CL_CONNECTED) d ++
        (if d < WAIT_FOR_SEND_COUNT then
          [bus_call.cl_tx_empty (ex_cl cl_state.ISHTP_CL_CONNECTED)] else []) ++
        bus_call.cl_disconnect { ex_cl cl_state.ISHTP_CL_CONNECTED with
          state := cl_state.ISHTP_CL_DISCONNECTING } :: tail ∧
      (new.filter bus_call.is_sleep).length = d ∧
      new.filter bus_call.is_disconnect
        = [bus_call.cl_disconnect { ex_cl cl_state.ISHTP_CL_CONNECTED with
            state := cl_state.ISHTP_CL_DISCONNECTING }] ∧
      (ishtp_pse_release (ex_bus_drains_at 3) (ex_state cl_state.ISHTP_CL_CONNECTED none)).2
        = ((ex_bus_drains_at 3).ishtp_cl_disconnect { ex_cl cl_state.ISHTP_CL_CONNECTED with
            state := cl_state.ISHTP_CL_DISCONNECTING }).1) ∧
    (∃ new,
      (ishtp_pse_release ex_bus (ex_state cl_state.ISHTP_CL_INITIALIZING none)).1.calls
        = (ex_state cl_state.ISHTP_CL_INITIALIZING none).calls ++ new ∧
      new.filter bus_call.is_sleep = [] ∧
      new.filter bus_call.is_disconnect = [] ∧
      (ishtp_pse_release ex_bus (ex_state cl_state.ISHTP_CL_INITIALIZING none)).2 = 0) :=
  ⟨by decide,
   (release_drain_bounded (ex_bus_drains_at 3) (ex_state cl_state.ISHTP_CL_CONNECTED none)
      (ex_cl cl_state.ISHTP_CL_CONNECTED) rfl rfl).1 ⟨rfl, rfl⟩,
   (release_drain_bounded ex_bus (ex_state cl_state.ISHTP_CL_INITIALIZING none)
      (ex_cl cl_state.ISHTP_CL_INITIALIZING) rfl rfl).2 (by decide)⟩

/-! ## The read-buffer lock -/

/-- The locked part of a read releases the lock and assigns nothing outside it. -/
theorem read_locked_sync_balanced (held : Bool) (rb : ishtp_cl_rb) (ubuf : user_ptr)
    (length offset : Nat) :
    lock_held held (ishtp_pse_read_locked_sync rb ubuf length offset) = false ∧
    unlocked_assignments held (ishtp_pse_read_locked_sync rb ubuf length offset) = [] := by
  unfold ishtp_pse_read_locked_sync
  dsimp only
  split
  · simp [lock_held, unlocked_assignments]
  · split
    · simp [lock_held, unlocked_assignments]
    · split
      · simp [lock_held, unlocked_assignments]
      · simp [lock_held, unlocked_assignments]

/-- A read releases the lock, and outside the lock it assigns at most the
cancellation flag. -/
theorem read_sync_balanced (wait : driver_state → Int × driver_state) (s : driver_state)
    (f : file) (ubuf : user_ptr) (length offset : Nat) :
    lock_held false (ishtp_pse_read_sync wait s f ubuf length offset) = false ∧
    (unlocked_assignments false (ishtp_pse_read_sync wait s f ubuf length offset)).filter
      pse_field.is_connection_or_slot = [] := by
  unfold ishtp_pse_read_sync
  split
  · simp [lock_held, unlocked_assignments]
  · split
    · simp [lock_held, unlocked_assignments]
    · split
      · simp [lock_held, unlocked_assignments]
      · split
        · simp [lock_held, unlocked_assignments]
        · split
          · simp [read_locked_sync_balanced]
          · dsimp only
            split
            · simp [lock_held, unlocked_assignments, pse_field.is_connection_or_slot]
            · split
              · simp [lock_held, unlocked_assignments, pse_field.is_connection_or_slot]
              · split
                · simp [lock_held, unlocked_assignments, pse_field.is_connection_or_slot]
                · split
                  · simp [lock_held, unlocked_assignments, pse_field.is_connection_or_slot]
                  · split
                    · simp [lock_held, unlocked_assignments, pse_field.is_connection_or_slot]
                    · simp [lock_held, unlocked_assignments, pse_field.is_connection_or_slot,
                        read_locked_sync_balanced]

/-- A close releases the lock, and outside the lock it assigns at most the
cancellation flag. -/
theorem release_sync_balanced (s : driver_state) :
    lock_held false (ishtp_pse_release_sync s) = false ∧
    (unlocked_assignments false (ishtp_pse_release_sync s)).filter
      pse_field.is_connection_or_slot = [] := by
  unfold ishtp_pse_release_sync
  split
  · simp [lock_held, unlocked_assignments]
  · split
    · simp [lock_held, unlocked_assignments]
    · split <;> split <;>
        simp [lock_held, unlocked_assignments, pse_field.is_connection_or_slot]

/-- The arrival handler releases the lock and assigns nothing outside it. -/
theorem event_cb_sync_balanced (bus : ishtp_bus) (s : driver_state) (tr : List sync_event)
    (h : ishtp_pse_event_cb_sync bus s = some tr) :
    lock_held false tr = false ∧ unlocked_assignments false tr = [] := by
  unfold ishtp_pse_event_cb_sync at h
  split at h
  · cases h; simp [lock_held, unlocked_assignments]
  · split at h
    · cases h
    · split at h
      · cases h; simp [lock_held, unlocked_assignments]
      · cases h; simp [lock_held, unlocked_assignments]

/-- Removal releases the lock, and outside the lock it assigns only the
cancellation flag. -/
theorem remove_sync_balanced (s : driver_state) :
    lock_held false (ishtp_pse_remove_sync s) = false ∧
    (unlocked_assignments false (ishtp_pse_remove_sync s)).filter
      pse_field.is_connection_or_slot = [] := by
  unfold ishtp_pse_remove_sync
  split <;> simp [lock_held, unlocked_assignments, pse_field.is_connection_or_slot]

/-- Outside the lock the reset worker assigns at most the cancellation flag. -/
theorem reset_handler_sync_assignments (bus : ishtp_bus) (s : driver_state)
    (tr : List sync_event) (h : ishtp_cl_reset_handler_sync bus s = some tr) :
    (unlocked_assignments false tr).filter pse_field.is_connection_or_slot = [] := by
  unfold ishtp_cl_reset_handler_sync at h
  split at h
  · cases h
  · split at h
    · cases h; simp [unlocked_assignments]
    · dsimp only at h
      split at h
      · cases h; simp [unlocked_assignments, pse_field.is_connection_or_slot]
      · split at h
        · cases h; simp [unlocked_assignments, pse_field.is_connection_or_slot]
        · split at h
          · cases h
            simp [unlocked_assignments, pse_field.is_connection_or_slot,
              reset_unlink_failed_sync]
          · split at h
            · cases h
              simp [unlocked_assignments, pse_field.is_connection_or_slot,
                reset_unlink_failed_sync]
            · split at h
              · cases h
                simp [unlocked_assignments, pse_field.is_connection_or_slot,
                  reset_unlink_failed_sync]
              · split at h
                · cases h
                  simp [unlocked_assignments, pse_field.is_connection_or_slot,
                    reset_unlink_failed_sync]
                · cases h
                  simp [unlocked_assignments, pse_field.is_connection_or_slot]

set_option maxRecDepth 100000 in
/-- C27, the code at the failing input.  Reset recovery on a device with a
client, on a bus layer whose allocation fails: the handler takes the lock,
frees the old client, finds the allocation failed and returns (pse.c line 441)
with the lock still held, leaving `pse_dev.cl` empty.  The other failure paths
of reset recovery (here a failed link) and its success path leave through the
label `unlink` and release the lock; read, close, the arrival handler and
removal release it on every path. -/
theorem reset_alloc_failure_returns_with_lock_held :
    ishtp_cl_reset_handler_sync ex_bus_no_memory (ex_state cl_state.ISHTP_CL_CONNECTED none)
      = some [sync_event.assign pse_field.wait_exception, sync_event.mutex_lock,
              sync_event.assign pse_field.cl, sync_event.assign pse_field.cl] ∧
    (ishtp_cl_reset_handler_sync ex_bus_no_memory
      (ex_state cl_state.ISHTP_CL_CONNECTED none)).map (lock_held false) = some true ∧
    (ishtp_cl_reset_handler ex_bus_no_memory
      (ex_state cl_state.ISHTP_CL_CONNECTED none)).map (fun s => s.pse_dev.cl) = some none ∧
    (ishtp_cl_reset_handler_sync ex_bus_no_link
      (ex_state cl_state.ISHTP_CL_CONNECTED none)).map (lock_held false) = some false ∧
    (ishtp_cl_reset_handler_sync ex_bus_no_connect
      (ex_state cl_state.ISHTP_CL_CONNECTED none)).map (lock_held false) = some false ∧
    (ishtp_cl_reset_handler_sync ex_bus
      (ex_state cl_state.ISHTP_CL_CONNECTED none)).map (lock_held false) = some false ∧
    (∀ (wait : driver_state → Int × driver_state) (s : driver_state) (f : file)
        (ubuf : user_ptr) (length offset : Nat),
      lock_held false (ishtp_pse_read_sync wait s f ubuf length offset) = false) ∧
    (∀ s : driver_state, lock_held false (ishtp_pse_release_sync s) = false) ∧
    (∀ (bus : ishtp_bus) (s : driver_state),
      ((ishtp_pse_event_cb_sync bus s).map (lock_held false)).getD false = false) ∧
    (∀ s : driver_state, lock_held false (ishtp_pse_remove_sync s) = false) := by
  refine ⟨by decide, by decide, by decide, by decide, by decide, by decide, ?_, ?_, ?_, ?_⟩
  · intro wait s f ubuf length offset
    exact (read_sync_balanced wait s f ubuf length offset).1
  · intro s
    exact (release_sync_balanced s).1
  · intro bus s
    cases h : ishtp_pse_event_cb_sync bus s with
    | none => rfl
    | some tr => simpa using (event_cb_sync_balanced bus s tr h).1
  · intro s
    exact (remove_sync_balanced s).1

/-- C23, counterexample.  Open assigns `pse_dev.cl` and the connect ioctl
assigns the client id and the protocol state of the client, and neither takes
the lock: the client changes (from none to the allocated one, and from the
initializing to the connected state) with the lock not held. -/
theorem open_and_connect_assign_without_lock :
    ishtp_pse_open_sync ex_probed ex_file = [sync_event.assign pse_field.cl] ∧
    unlocked_assignments false (ishtp_pse_open_sync ex_probed ex_file) = [pse_field.cl] ∧
    ex_probed.pse_dev.cl = none ∧
    (ishtp_pse_open ex_bus ex_probed ex_file).1.pse_dev.cl
      = some (ex_cl cl_state.ISHTP_CL_INITIALIZING) ∧
    unlocked_assignments false
      (ishtp_pse_ioctl_cc_sync ex_bus (ex_state cl_state.ISHTP_CL_INITIALIZING none)
        (some ex_dev) { raw := pse_smhi_guid })
      = [pse_field.cl_fw_client_id, pse_field.cl_state] ∧
    (ishtp_pse_ioctl_cc ex_bus (ex_state cl_state.ISHTP_CL_INITIALIZING none)
      (some ex_dev) { raw := pse_smhi_guid }).st.pse_dev.cl
      = some { state := cl_state.ISHTP_CL_CONNECTED, fw_client_id := 3, dev := ex_dev,
               device := ex_cl_device } := by
  decide

/-- C23, amended.  Read, close, the arrival handler, the reset worker and
removal assign the client (its existence, protocol state and client id) and
the receive slot only while holding the lock; outside it they assign at most
the cancellation flag.  Open and the connect step of the ioctl never take the
lock: open either returns at a guard leaving `pse_dev` as it was or assigns
`pse_dev.cl` with the lock not held, and the connect step either returns
leaving `pse_dev` as it was or assigns the client id and the protocol state
with the lock not held. -/
theorem connection_and_slot_assignments (bus : ishtp_bus)
    (wait : driver_state → Int × driver_state) (s : driver_state) (f : file)
    (ubuf : user_ptr) (length offset : Nat) (ishtp_dev : Option ishtp_device)
    (data : ishtp_cc_data) :
    (unlocked_assignments false (ishtp_pse_read_sync wait s f ubuf length offset)).filter
      pse_field.is_connection_or_slot = [] ∧
    (unlocked_assignments false (ishtp_pse_release_sync s)).filter
      pse_field.is_connection_or_slot = [] ∧
    (unlocked_assignments false (ishtp_pse_remove_sync s)).filter
      pse_field.is_connection_or_slot = [] ∧
    (∀ tr, ishtp_pse_event_cb_sync bus s = some tr →
      (unlocked_assignments false tr).filter pse_field.is_connection_or_slot = []) ∧
    (∀ tr, ishtp_cl_reset_handler_sync bus s = some tr →
      (unlocked_assignments false tr).filter pse_field.is_connection_or_slot = []) ∧
    ((ishtp_pse_open_sync s f = [] ∧ (ishtp_pse_open bus s f).1.pse_dev = s.pse_dev) ∨
      (ishtp_pse_open_sync s f = [sync_event.assign pse_field.cl] ∧
        unlocked_assignments false (ishtp_pse_open_sync s f) = [pse_field.cl])) ∧
    ((ishtp_pse_ioctl_cc_sync bus s ishtp_dev data = [] ∧
        (ishtp_pse_ioctl_cc bus s ishtp_dev data).st.pse_dev = s.pse_dev) ∨
      (ishtp_pse_ioctl_cc_sync bus s ishtp_dev data
          = [sync_event.assign pse_field.cl_fw_client_id, sync_event.assign pse_field.cl_state] ∧
        unlocked_assignments false (ishtp_pse_ioctl_cc_sync bus s ishtp_dev data)
          = [pse_field.cl_fw_client_id, pse_field.cl_state])) := by
  refine ⟨(read_sync_balanced wait s f ubuf length offset).2, (release_sync_balanced s).2,
    (remove_sync_balanced s).2, ?_, ?_, ?_, ?_⟩
  · intro tr h
    rw [(event_cb_sync_balanced bus s tr h).2]
    rfl
  · intro tr h
    exact reset_handler_sync_assignments bus s tr h
  · unfold ishtp_pse_open_sync ishtp_pse_open
    split
    · exact Or.inl ⟨rfl, rfl⟩
    · split
      · exact Or.inl ⟨rfl, rfl⟩
      · exact Or.inr ⟨rfl, rfl⟩
  · unfold ishtp_pse_ioctl_cc_sync ishtp_pse_ioctl_cc
    split
    · exact Or.inl ⟨rfl, rfl⟩
    · split
      · exact Or.inl ⟨rfl, rfl⟩
      · split
        · exact Or.inl ⟨rfl, rfl⟩
        · split
          · exact Or.inl ⟨rfl, rfl⟩
          · split
            · exact Or.inl ⟨rfl, rfl⟩
            · split
              · exact Or.inl ⟨rfl, rfl⟩
              · exact Or.inr ⟨rfl, rfl⟩

/-- The amended statement of C23 applied to the arrival handler and the reset
worker on a connected device with an empty slot. -/
theorem connection_and_slot_assignments_witness :
    ishtp_pse_event_cb_sync ex_bus (ex_state cl_state.ISHTP_CL_CONNECTED none)
      = some [sync_event.mutex_lock, sync_event.assign pse_field.rb, sync_event.mutex_unlock] ∧
    (unlocked_assignments false
      [sync_event.mutex_lock, sync_event.assign pse_field.rb, sync_event.mutex_unlock]).filter
      pse_field.is_connection_or_slot = [] ∧
    ishtp_cl_reset_handler_sync ex_bus_no_memory (ex_state cl_state.ISHTP_CL_CONNECTED none)
      = some [sync_event.assign pse_field.wait_exception, sync_event.mutex_lock,
              sync_event.assign pse_field.cl, sync_event.assign pse_field.cl] ∧
    (unlocked_assignments false
      [sync_event.assign pse_field.wait_exception, sync_event.mutex_lock,
       sync_event.assign pse_field.cl, sync_event.assign pse_field.cl]).filter
      pse_field.is_connection_or_slot = [] :=
  ⟨rfl,
   (connection_and_slot_assignments ex_bus wait_times_out
      (ex_state cl_state.ISHTP_CL_CONNECTED none) ex_file (ex_ubuf []) 0 0 none
      { raw := [] }).2.2.2.1 _ rfl,
   rfl,
   (connection_and_slot_assignments ex_bus_no_memory wait_times_out
      (ex_state cl_state.ISHTP_CL_CONNECTED none) ex_file (ex_ubuf []) 0 0 none
      { raw := [] }).2.2.2.2.1 _ rfl⟩

end PseDriver
